import Mathlib

/-!
Verification development for the C-to-multi-dialect transpiler
(LexicalAnalyzer, SyntaxAnalyzer, CodeGenerator).

The tokenizer, parser and code generators are embedded as executable Lean
functions over `List Char` / token lists, translated from the TypeScript
source.  Source text is a list of characters; the mutable
`position / line / column` cursor of the TypeScript classes becomes explicit
recursion on the remaining character (or token) suffix, with the
`(line, column)` pair threaded separately.
-/

/-! # Tokens -/

/-- Token kinds, from the `TokenType` record of the lexer module. -/
inductive TokenType where
  | KEYWORD
  | IDENTIFIER
  | NUMBER
  | STRING
  | OPERATOR
  | DELIMITER
  | NEWLINE
  | EOF
deriving DecidableEq, Repr

/-- `Token = { type, value: string | null, line?, column? }`.  The lexer fills
`line`/`column` for every token it reads; the final end-of-input token carries
neither, and its `value` is `null` (`none`). -/
structure Token where
  type : TokenType
  value : Option String
  line : Option Nat
  column : Option Nat
deriving DecidableEq, Repr

/-- The single end-of-input token `{ type: "EOF", value: null }`. -/
def eofToken : Token := ⟨TokenType.EOF, none, none, none⟩

/-! # Character classes (the lexer's predicates) -/

/-- `isLetter`: the regex `/[a-zA-Z]/`. -/
def isLetter (c : Char) : Bool :=
  (65 ≤ c.toNat && c.toNat ≤ 90) || (97 ≤ c.toNat && c.toNat ≤ 122)

/-- `isDigit`: the regex `/[0-9]/`. -/
def isDigit (c : Char) : Bool :=
  48 ≤ c.toNat && c.toNat ≤ 57

/-- `isOperator`: `"+-*'/'%=<>!&|^~".includes(char)` (the operator characters). -/
def isOperator (c : Char) : Bool :=
  ['+', '-', '*', '/', '%', '=', '<', '>', '!', '&', '|', '^', '~'].contains c

/-- `isDelimiter`: `"(){}[];,#.".includes(char)`. -/
def isDelimiter (c : Char) : Bool :=
  ['(', ')', '\x7b', '\x7d', '[', ']', ';', ',', '#', '.'].contains c

/-- The characters matched by the JavaScript regex `/\s/` (restricted to the
code points the repository's inputs use: ASCII whitespace and NBSP). -/
def isJsWhitespace (c : Char) : Bool :=
  [9, 10, 11, 12, 13, 32, 160].contains c.toNat

/-- An identifier-continuation character: letter, digit or underscore. -/
def isIdentChar (c : Char) : Bool :=
  isLetter c || isDigit c || c.toNat = 95

/-- The lexer's reserved-word set (`this.keywords`). -/
def keywords : List String :=
  ["int", "float", "double", "char", "void", "if", "else", "while", "for",
   "return", "include", "main", "printf", "scanf", "bool", "long", "short",
   "break", "continue", "switch", "case", "default", "const", "static",
   "struct", "union", "enum", "typedef", "extern", "register", "auto",
   "volatile", "signed", "unsigned", "goto", "do", "sizeof"]

/-- The two-character operator lookahead table of `readOperator`. -/
def twoCharOps : List String :=
  ["==", "!=", "<=", ">=", "++", "--", "&&", "||", "+=", "-=", "*=", "/=",
   "%=", "<<", ">>"]

/-! # Cursor bookkeeping

`advance()` increments `line` and resets `column` on a newline, otherwise
increments `column`.  `advanceLC` folds that update over a consumed prefix. -/

/-- Fold the lexer's `advance()` line/column update over consumed characters. -/
def advanceLC : List Char → Nat × Nat → Nat × Nat
  | [], lc => lc
  | c :: rest, (l, co) =>
      advanceLC rest (if c.toNat = 10 then (l + 1, 1) else (l, co + 1))

/-- The characters a scanning helper consumed: the input minus its returned
suffix. -/
def consumed (cs rest : List Char) : List Char :=
  cs.take (cs.length - rest.length)

/-! # Scanning helpers (the lexer's `skip…`/`read…` loops) -/

/-- `skipWhitespace`: drop characters matching `/\s/` other than `'\n'`. -/
def skipWhitespace : List Char → List Char
  | [] => []
  | c :: rest =>
      if isJsWhitespace c && c.toNat != 10 then skipWhitespace rest
      else c :: rest

/-- `skipSingleLineComment`: drop up to (excluding) the next `'\n'`. -/
def skipSingleLineComment (cs : List Char) : List Char :=
  cs.dropWhile (fun c => c.toNat != 10)

/-- `skipMultiLineComment` after the opening `/` and `*` are consumed: scan
while at least two characters remain (`position < length - 1`); a `*/` pair is
consumed and ends the comment.  With fewer than two characters left the loop
exits, leaving them unconsumed. -/
def skipMultiLineComment : List Char → List Char
  | [] => []
  | [a] => [a]
  | a :: b :: rest =>
      if a = '*' && b = '/' then rest
      else skipMultiLineComment (b :: rest)

/-- `readIdentifier`'s loop: the maximal identifier-character prefix and the
remaining suffix. -/
def readIdentifier (cs : List Char) : List Char × List Char :=
  (cs.takeWhile isIdentChar, cs.dropWhile isIdentChar)

/-- `readNumber`'s loop: digits with at most one decimal point (the `hasDecimal`
flag); a second `.` stops the lexeme. -/
def readNumber : List Char → Bool → List Char × List Char
  | [], _ => ([], [])
  | c :: rest, hasDecimal =>
      if isDigit c then
        let (v, r) := readNumber rest hasDecimal
        (c :: v, r)
      else if c.toNat = 46 && !hasDecimal then
        let (v, r) := readNumber rest true
        (c :: v, r)
      else ([], c :: rest)

/-- The shared loop of `readString` and `readCharLiteral`, after the opening
quote is consumed: copy characters until the closing quote `q`; a backslash
with a following character is copied as the two raw characters; a closing
quote is skipped (the post-loop `advance`).  `readCharLiteral` is the same
code with `q = '\''`. -/
def readString (q : Char) : List Char → List Char × List Char
  | [] => ([], [])
  | c :: rest =>
      if c = q then ([], rest)
      else if c = '\\' then
        match rest with
        | [] => (['\\'], [])
        | d :: rest2 =>
            let (v, r) := readString q rest2
            ('\\' :: d :: v, r)
      else
        let (v, r) := readString q rest
        (c :: v, r)

/-- `readOperator`: one operator character, greedily extended by the
two-character lookahead table. -/
def readOperator (c : Char) (rest : List Char) : String × List Char :=
  match rest with
  | [] => (String.mk [c], [])
  | d :: rest2 =>
      if twoCharOps.contains (String.mk [c, d]) then (String.mk [c, d], rest2)
      else (String.mk [c], d :: rest2)

/-! ## Length bounds for the scanning helpers -/

theorem dropWhile_len_le (p : Char → Bool) (cs : List Char) :
    (cs.dropWhile p).length ≤ cs.length := by
  induction cs with
  | nil => simp
  | cons c rest ih =>
      by_cases h : p c = true <;> simp [List.dropWhile, h] <;> omega

theorem skipWhitespace_length_le (cs : List Char) :
    (skipWhitespace cs).length ≤ cs.length := by
  induction cs with
  | nil => simp [skipWhitespace]
  | cons c rest ih =>
      rw [skipWhitespace.eq_def]
      by_cases h : (isJsWhitespace c && c.toNat != 10) = true <;> simp [h] <;> omega

theorem skipSingleLineComment_length_le (cs : List Char) :
    (skipSingleLineComment cs).length ≤ cs.length := by
  simpa [skipSingleLineComment] using dropWhile_len_le _ cs

theorem skipMultiLineComment_length_le (cs : List Char) :
    (skipMultiLineComment cs).length ≤ cs.length := by
  induction cs using skipMultiLineComment.induct with
  | case1 =>
      rw [skipMultiLineComment.eq_def]
  | case2 a =>
      rw [skipMultiLineComment.eq_def]
  | case3 a b rest h =>
      rw [skipMultiLineComment.eq_def]
      simp [h]
      omega
  | case4 a b rest h ih =>
      rw [skipMultiLineComment.eq_def]
      simp [h] at ih ⊢
      omega

theorem readIdentifier_length_le (cs : List Char) :
    (readIdentifier cs).2.length ≤ cs.length := by
  simpa [readIdentifier] using dropWhile_len_le _ cs

theorem readNumber_length_le (cs : List Char) (b : Bool) :
    (readNumber cs b).2.length ≤ cs.length := by
  induction cs generalizing b with
  | nil => simp [readNumber]
  | cons c rest ih =>
      rw [readNumber.eq_def]
      by_cases h1 : isDigit c = true <;>
        by_cases h2 : (c.toNat = 46 && !b) = true <;>
          simp [h1, h2] <;>
            (first
              | (have hb := ih b; omega)
              | (have hb := ih true; omega)
              | omega)

theorem readString_length_le (q : Char) (cs : List Char) :
    (readString q cs).2.length ≤ cs.length := by
  induction cs using readString.induct q with
  | case1 => simp [readString]
  | case2 rest => rw [readString.eq_def]; simp
  | case3 h => rw [readString.eq_def]; simp [h]
  | case4 d rest2 v r hx h ih =>
      rw [readString.eq_def]
      simp [h]
      omega
  | case5 d rest2 h1 h2 v r hx ih =>
      rw [readString.eq_def]
      simp [h1, h2]
      omega

theorem readOperator_length_le (c : Char) (rest : List Char) :
    (readOperator c rest).2.length ≤ rest.length := by
  rw [readOperator.eq_def]
  match rest with
  | [] => simp
  | d :: rest2 =>
      by_cases h : (String.mk [c, d]) ∈ twoCharOps <;> simp [h]

theorem skipSingleLineComment_cons (c : Char) (rest : List Char) (h : c.toNat ≠ 10) :
    skipSingleLineComment (c :: rest) = skipSingleLineComment rest := by
  have h2 : (c.toNat != 10) = true := by simpa using h
  simp [skipSingleLineComment, List.dropWhile, h2]

/-! # The tokenizer main loop

`tokenize()`'s `while (position < length)` loop: skip whitespace, dispatch on
the current character, consume at least one character, repeat.  The branch
order is the source's.  In the identifier and number branches the current
character satisfies the corresponding read-loop's predicate (that is what the
branch guard checked), so the lexeme is that character followed by what the
loop takes from the remaining suffix. -/

def tokenizeLoop (cs : List Char) (lc : Nat × Nat) : List Token :=
  let lc1 := advanceLC (consumed cs (skipWhitespace cs)) lc
  match hw : skipWhitespace cs with
  | [] => []
  | c :: rest =>
      if c = '/' ∧ rest.head? = some '/' then
        tokenizeLoop (skipSingleLineComment (c :: rest))
          (advanceLC (consumed cs (skipSingleLineComment (c :: rest))) lc)
      else if c = '/' ∧ rest.head? = some '*' then
        tokenizeLoop (skipMultiLineComment rest.tail)
          (advanceLC (consumed cs (skipMultiLineComment rest.tail)) lc)
      else if isLetter c || c.toNat = 95 then
        let value := String.mk (c :: rest.takeWhile isIdentChar)
        let rest2 := rest.dropWhile isIdentChar
        let ty := if value ∈ keywords then TokenType.KEYWORD else TokenType.IDENTIFIER
        ⟨ty, some value, some lc1.1, some lc1.2⟩
          :: tokenizeLoop rest2 (advanceLC (consumed cs rest2) lc)
      else if isDigit c then
        let pr := readNumber rest false
        ⟨TokenType.NUMBER, some (String.mk (c :: pr.1)), some lc1.1, some lc1.2⟩
          :: tokenizeLoop pr.2 (advanceLC (consumed cs pr.2) lc)
      else if c = '"' then
        let pr := readString '"' rest
        ⟨TokenType.STRING, some (String.mk pr.1), some lc1.1, some lc1.2⟩
          :: tokenizeLoop pr.2 (advanceLC (consumed cs pr.2) lc)
      else if c = '\'' then
        let pr := readString '\'' rest
        ⟨TokenType.STRING, some (String.mk pr.1), some lc1.1, some lc1.2⟩
          :: tokenizeLoop pr.2 (advanceLC (consumed cs pr.2) lc)
      else if isOperator c then
        let pr := readOperator c rest
        ⟨TokenType.OPERATOR, some pr.1, some lc1.1, some lc1.2⟩
          :: tokenizeLoop pr.2 (advanceLC (consumed cs pr.2) lc)
      else if isDelimiter c then
        ⟨TokenType.DELIMITER, some (String.mk [c]), some lc1.1, some lc1.2⟩
          :: tokenizeLoop rest (advanceLC (consumed cs rest) lc)
      else if c.toNat = 10 then
        ⟨TokenType.NEWLINE, some "\n", some lc1.1, some lc1.2⟩
          :: tokenizeLoop rest (advanceLC (consumed cs rest) lc)
      else
        tokenizeLoop rest (advanceLC (consumed cs rest) lc)
termination_by cs.length
decreasing_by
  all_goals
    (have hws := skipWhitespace_length_le cs
     rw [hw] at hws
     simp only [List.length_cons] at hws)
  · obtain ⟨rfl, _⟩ := ‹c = '/' ∧ rest.head? = some '/'›
    rw [skipSingleLineComment_cons '/' rest (by decide)]
    have := skipSingleLineComment_length_le rest
    omega
  · have h1 := skipMultiLineComment_length_le rest.tail
    have h2 := List.length_tail rest
    omega
  · have := dropWhile_len_le isIdentChar rest
    omega
  · have := readNumber_length_le rest false
    omega
  · have := readString_length_le '"' rest
    omega
  · have := readString_length_le '\'' rest
    omega
  · have := readOperator_length_le c rest
    omega
  · omega
  · omega
  · omega

/-- `tokenize`: run the scanning loop from position 0, line 1, column 1, then
append the single end-of-input token. -/
def tokenize (code : String) : List Token :=
  tokenizeLoop code.toList (1, 1) ++ [eofToken]

/-! # Numbers (`parseFloat` and `String(number)`)

The parser stores `parseFloat(token.value)` in numeric `Literal` nodes and the
generators render it with JavaScript's `String(...)`.  The lexer's number
lexemes are decimal digit runs with at most one point, on which `parseFloat`
is exact; `jsParseFloat` models it on exactly that range (a leading digit,
digits, optionally a point and digits) and maps every other string — and
`null`, which `parseFloat` coerces to `"null"` — to `NaN`. -/

inductive JNum where
  | nan
  | jval (m : Nat) (e : Nat)
deriving DecidableEq, Repr

/-- Read a leading digit run: accumulated value and the remaining suffix. -/
def readDigits : List Char → Nat → Nat × List Char
  | [], acc => (acc, [])
  | c :: rest, acc =>
      if isDigit c then readDigits rest (acc * 10 + (c.toNat - 48))
      else (acc, c :: rest)

/-- Read a fraction digit run: extended mantissa and the digit count. -/
def readFrac : List Char → Nat → Nat → Nat × Nat
  | [], acc, k => (acc, k)
  | c :: rest, acc, k =>
      if isDigit c then readFrac rest (acc * 10 + (c.toNat - 48)) (k + 1)
      else (acc, k)

/-- `parseFloat(value)` for the lexer's numeric lexemes (see the section
comment); `jval m e` denotes `m / 10 ^ e`. -/
def jsParseFloat : Option String → JNum
  | none => JNum.nan
  | some s =>
      match s.toList with
      | [] => JNum.nan
      | c :: _ =>
          if isDigit c then
            let (ip, r1) := readDigits s.toList 0
            match r1 with
            | '.' :: r2 =>
                let (m, k) := readFrac r2 ip 0
                JNum.jval m k
            | _ => JNum.jval ip 0
          else JNum.nan

/-- The decimal digit character for `d < 10`. -/
def digitChar (d : Nat) : Char :=
  if d = 0 then '0' else if d = 1 then '1' else if d = 2 then '2'
  else if d = 3 then '3' else if d = 4 then '4' else if d = 5 then '5'
  else if d = 6 then '6' else if d = 7 then '7' else if d = 8 then '8'
  else '9'

/-- Decimal digits of `n` (most significant first). -/
def natToCharsAux (n : Nat) : List Char :=
  if n < 10 then [digitChar n]
  else natToCharsAux (n / 10) ++ [digitChar (n % 10)]
termination_by n
decreasing_by omega

/-- Decimal rendering of `n`, `"0"` for zero. -/
def natToString (n : Nat) : String := String.mk (natToCharsAux n)

/-- `String(x)` for a number `x`: `"NaN"` for NaN; otherwise the decimal
rendering with trailing fractional zeros dropped (`String(1.50) = "1.5"`,
`String(5.0) = "5"`). -/
def jsNumToStringAux (m : Nat) : Nat → String
  | 0 => natToString m
  | e + 1 =>
      if m % 10 = 0 then jsNumToStringAux (m / 10) e
      else
        natToString (m / 10 ^ (e + 1)) ++ "." ++
          String.mk (List.replicate (e + 1 - (natToString (m % 10 ^ (e + 1))).length) '0') ++
          natToString (m % 10 ^ (e + 1))

def jsNumToString (j : JNum) : String :=
  match j with
  | JNum.nan => "NaN"
  | JNum.jval m e => jsNumToStringAux m e

/-! # The AST

One constructor per node shape the parser builds.  Fields coming from
`token.value` keep its `string | null` type (`Option String`); child slots
that the parser may leave `null` are `Option Node`. -/

structure Param where
  type : String
  name : Option String
deriving DecidableEq, Repr

inductive LitVal where
  | num (n : JNum)
  | str (s : Option String)
deriving DecidableEq, Repr

inductive Node where
  | program (body : List Node)
  | includeDir (library : Option String)
  | functionDef (returnType : Option String) (name : Option String)
      (parameters : List Param) (body : List Node)
  | varDecl (dataType : Option String) (name : Option String) (value : Option Node)
  | block (body : List Node)
  | ifStmt (condition : Option Node) (thenS : Option Node) (elseS : Option Node)
  | whileLoop (condition : Option Node) (body : Option Node)
  | forLoop (init : Option Node) (condition : Option Node) (update : Option Node)
      (body : Option Node)
  | returnStmt (value : Option Node)
  | printfStmt (args : List Node)
  | scanfStmt (args : List Node)
  | functionCall (name : Option String) (args : List Node)
  | assignment (identifier : Option String) (operator : String) (value : Option Node)
  | binaryExpr (left : Option Node) (operator : String) (right : Option Node)
  | unaryExpr (operator : String) (operand : Option Node)
  | literal (value : LitVal) (dataType : String)
  | identifier (name : Option String)

/-! # Parser scaffolding -/

/-- The type keywords that start a declaration (`parseStatement`'s cases and
`parseFunction`'s parameter check use the same seven). -/
def typeKeywords : List String :=
  ["int", "float", "double", "char", "void", "long", "short"]

/-- `skipToken(expectedValue)`: consume the current token only when its value
matches. -/
def skipToken (expectedValue : String) (l : List Token) : List Token :=
  match l with
  | [] => []
  | t :: rest => if t.value = some expectedValue then rest else t :: rest

theorem skipToken_length_le (v : String) (l : List Token) :
    (skipToken v l).length ≤ l.length := by
  match l with
  | [] => simp [skipToken]
  | t :: rest =>
      rw [skipToken.eq_def]
      by_cases h : t.value = some v <;> simp [h]

/-- A parse step's outcome: the produced node (or `null`) and the remaining
token suffix — or the JavaScript `TypeError` that `parsePrimaryExpression`
raises on a `NUMBER` token whose `value` is `null`
(`token.value.includes('.')`). -/
abbrev PRes := Except String (Option Node × List Token)

/-- Cursor bounds for a parse step on input `l`: on success the remaining
suffix is no longer than `l`, and strictly shorter when `l` is nonempty
(every dispatch path consumes at least one token). -/
def okBound (l : List Token) (r : PRes) : Prop :=
  ∀ n rest, r = Except.ok (n, rest) →
    rest.length ≤ l.length ∧ (l ≠ [] → rest.length < l.length)

/-- Same bound for steps returning a node list (argument/statement loops). -/
def okBoundList (l : List Token) (r : Except String (List Node × List Token)) : Prop :=
  ∀ ns rest, r = Except.ok (ns, rest) → rest.length ≤ l.length

theorem okBound_mk {l : List Token} {n : Option Node} {rest : List Token}
    (h1 : rest.length ≤ l.length) (h2 : l ≠ [] → rest.length < l.length) :
    okBound l (Except.ok (n, rest)) := by
  intro n' rest' h
  injection h with h'
  injection h' with ha hb
  subst hb
  exact ⟨h1, h2⟩

theorem okBound_err {l : List Token} {e : String} : okBound l (Except.error e) := by
  intro n' rest' h
  simp at h

theorem okBoundList_mk {l : List Token} {ns : List Node} {rest : List Token}
    (h1 : rest.length ≤ l.length) :
    okBoundList l (Except.ok (ns, rest)) := by
  intro ns' rest' h
  injection h with h'
  injection h' with ha hb
  subst hb
  exact h1

theorem okBoundList_err {l : List Token} {e : String} :
    okBoundList l (Except.error e) := by
  intro ns' rest' h
  simp at h

/-- `parseInclude`, entered on a `#` delimiter: expect `include`, an opening
`<` or `"`, a library token; then skip the library and the closing delimiter.
Any failed expectation returns `null` with the cursor where the checks
stopped. -/
def parseInclude (l : List Token) : Option Node × List Token :=
  match l with
  | [] => (none, [])
  | _ :: r0 =>
      match r0 with
      | [] => (none, [])
      | inc :: r1 =>
          if inc.value = some "include" then
            match r1 with
            | [] => (none, [])
            | d :: r2 =>
                if d.value = some "<" ∨ d.value = some "\"" then
                  match r2 with
                  | [] => (none, [])
                  | _lib :: r3 => (some (Node.includeDir _lib.value), r3.drop 1)
                else (none, d :: r2)
          else (none, inc :: r1)

theorem parseInclude_length (l : List Token) :
    (parseInclude l).2.length ≤ l.length ∧
      (l ≠ [] → (parseInclude l).2.length < l.length) := by
  rw [parseInclude.eq_def]
  match l with
  | [] => simp
  | _t :: r0 =>
      match r0 with
      | [] => simp
      | inc :: r1 =>
          by_cases h1 : inc.value = some "include" <;> simp [h1]
          · match r1 with
            | [] => simp
            | d :: r2 =>
                by_cases h2 : (d.value = some "<" ∨ d.value = some "\"") <;>
                  simp [h2]
                match r2 with
                | [] => simp
                | lib :: r3 =>
                    simp
                    omega

/-- `parseFunction`'s parameter loop: `)` ends it, `,` is skipped, a type
keyword followed by an identifier contributes a parameter (an ill-formed
parameter name is left for the next iteration), anything else is skipped.
The result carries its cursor bound (the suffix never grows). -/
def parseParamsLoop (l : List Token) :
    {r : List Param × List Token // r.2.length ≤ l.length} :=
  match l with
  | [] => ⟨([], []), by simp⟩
  | t :: rest =>
      if t.value = some ")" then ⟨([], rest), by simp⟩
      else if t.value = some "," then
        let ⟨(ps, r), h⟩ := parseParamsLoop rest
        ⟨(ps, r), by simp at h ⊢; omega⟩
      else
        match t.value with
        | some v =>
            if t.type = TokenType.KEYWORD ∧ v ∈ typeKeywords then
              match rest with
              | [] => ⟨([], []), by simp⟩
              | pn :: rest2 =>
                  if pn.type = TokenType.IDENTIFIER then
                    let ⟨(ps, r), h⟩ := parseParamsLoop rest2
                    ⟨(⟨v, pn.value⟩ :: ps, r), by simp at h ⊢; omega⟩
                  else
                    let ⟨(ps, r), h⟩ := parseParamsLoop (pn :: rest2)
                    ⟨(ps, r), by simp at h ⊢; omega⟩
            else
              let ⟨(ps, r), h⟩ := parseParamsLoop rest
              ⟨(ps, r), by simp at h ⊢; omega⟩
        | none =>
            let ⟨(ps, r), h⟩ := parseParamsLoop rest
            ⟨(ps, r), by simp at h ⊢; omega⟩
termination_by l.length
decreasing_by all_goals (first | (simp; done) | (simp; omega) | omega)

/-- Cursor bound without the progress guarantee, for helpers entered after
their caller already consumed tokens. -/
def okBoundLe (l : List Token) (r : PRes) : Prop :=
  ∀ n rest, r = Except.ok (n, rest) → rest.length ≤ l.length

theorem okBoundLe_mk {l : List Token} {n : Option Node} {rest : List Token}
    (h1 : rest.length ≤ l.length) : okBoundLe l (Except.ok (n, rest)) := by
  intro n' rest' h
  injection h with h'
  injection h' with ha hb
  subst hb
  exact h1

theorem okBoundLe_err {l : List Token} {e : String} :
    okBoundLe l (Except.error e) := by
  intro n' rest' h
  simp at h

theorem lex_of_le_of_lt {a b c d : Nat} (h1 : a ≤ c) (h2 : b < d) :
    Prod.Lex (· < ·) (· < ·) (a, b) (c, d) := by
  rcases Nat.lt_or_ge a c with h | h
  · exact Prod.Lex.left _ _ h
  · have hac : a = c := Nat.le_antisymm h1 h
    subst hac
    exact Prod.Lex.right _ h2

/-! # The parser (`SyntaxAnalyzer`)

One function per method, mutually recursive.  Each returns its `PRes`
outcome bundled with the cursor bound the recursion needs (`okBound`,
`okBoundLe` or `okBoundList`).  Errors (the `TypeError` of
`parsePrimaryExpression` on a null-valued `NUMBER` token) propagate through
every caller, as a thrown exception does.

Two methods are factored at a guard the source decides deterministically:
`parsePrimaryExpression`, on an identifier followed by `(`, steps the cursor
back and re-enters `parseAssignmentOrFunctionCall`, which under that guard
always takes its function-call branch — the embedding inlines that branch;
and the assignment branch of `parseAssignmentOrFunctionCall` is the shared
`parseAssignTail`. -/

mutual

/-- The statement list of a parsed block result (`blockResult.body`); a
non-block (or null) result contributes an empty body. -/
def blockBody : Option Node → List Node
  | some (Node.block b) => b
  | _ => []

/-- `parseStatement`: dispatch on the leading token (see the source's
branch order); unknown tokens are skipped and produce no node. -/
def parseStatement (l : List Token) : {r : PRes // okBound l r} :=
  match l with
  | [] => ⟨Except.ok (none, []), okBound_mk (by simp) (fun h => absurd rfl h)⟩
  | t :: rest =>
      if t.type = TokenType.NEWLINE then
        ⟨Except.ok (none, rest), okBound_mk (by simp only [List.length_cons, List.length_tail] at *; omega) (fun _ => by simp only [List.length_cons, List.length_tail] at *; omega)⟩
      else if t.type = TokenType.DELIMITER ∧ t.value = some "#" then
        ⟨Except.ok (parseInclude (t :: rest)), by
          have hp := parseInclude_length (t :: rest)
          intro n r h
          injection h with h2
          have hr := congrArg Prod.snd h2
          simp only at hr
          rw [← hr]
          exact ⟨hp.1, fun _ => hp.2 (by simp)⟩⟩
      else if t.type = TokenType.KEYWORD then
        if t.value = some "if" then parseIfStatement (t :: rest)
        else if t.value = some "while" then parseWhileStatement (t :: rest)
        else if t.value = some "for" then parseForStatement (t :: rest)
        else if t.value = some "return" then parseReturnStatement (t :: rest)
        else if t.value = some "printf" then parsePrintfStatement (t :: rest)
        else if t.value = some "scanf" then parseScanfStatement (t :: rest)
        else if t.value = some "int" ∨ t.value = some "float" ∨
            t.value = some "double" ∨ t.value = some "char" ∨
            t.value = some "void" ∨ t.value = some "long" ∨
            t.value = some "short" then
          parseDeclarationOrFunction (t :: rest)
        else ⟨Except.ok (none, rest), okBound_mk (by simp only [List.length_cons, List.length_tail] at *; omega) (fun _ => by simp only [List.length_cons, List.length_tail] at *; omega)⟩
      else if t.type = TokenType.IDENTIFIER then
        parseAssignmentOrFunctionCall (t :: rest)
      else if t.type = TokenType.DELIMITER ∧ t.value = some "\x7b" then
        parseBlock (t :: rest)
      else ⟨Except.ok (none, rest), okBound_mk (by simp only [List.length_cons, List.length_tail] at *; omega) (fun _ => by simp only [List.length_cons, List.length_tail] at *; omega)⟩
termination_by (l.length, 36)
decreasing_by
  all_goals first
    | (apply lex_of_le_of_lt <;> omega)
    | (apply Prod.Lex.left; omega)
    | (apply lex_of_le_of_lt <;> (simp only [List.length_cons, List.length_tail] at *; omega))
    | (apply Prod.Lex.left; simp only [List.length_cons, List.length_tail] at *; omega)
    | (apply lex_of_le_of_lt <;> (simp_all; omega))
    | (apply Prod.Lex.left; simp_all; omega)

/-- `parseDeclarationOrFunction`: type keyword, then an identifier; a
following `(` makes it a function, otherwise a variable declaration. -/
def parseDeclarationOrFunction (l : List Token) : {r : PRes // okBound l r} :=
  match l with
  | [] => ⟨Except.ok (none, []), okBound_mk (by simp) (fun h => absurd rfl h)⟩
  | _typeToken :: rest =>
      match rest.head? with
      | some nameToken =>
          if nameToken.type = TokenType.IDENTIFIER then
            have st := List.length_tail rest
            match rest.tail.head? with
            | some next =>
                if next.value = some "(" then
                  match parseFunction _typeToken.value nameToken.value rest.tail with
                  | ⟨Except.error e, _⟩ => ⟨Except.error e, okBound_err⟩
                  | ⟨Except.ok (n0, r0), hf⟩ =>
                      have af := hf _ _ rfl
                      ⟨Except.ok (n0, r0), okBound_mk (by simp only [List.length_cons, List.length_tail] at *; omega) (fun _ => by simp only [List.length_cons, List.length_tail] at *; omega)⟩
                else
                  match parseVariable _typeToken.value nameToken.value rest.tail with
                  | ⟨Except.error e, _⟩ => ⟨Except.error e, okBound_err⟩
                  | ⟨Except.ok (n0, r0), hv⟩ =>
                      have av := hv _ _ rfl
                      ⟨Except.ok (n0, r0), okBound_mk (by simp only [List.length_cons, List.length_tail] at *; omega) (fun _ => by simp only [List.length_cons, List.length_tail] at *; omega)⟩
            | none =>
                match parseVariable _typeToken.value nameToken.value rest.tail with
                | ⟨Except.error e, _⟩ => ⟨Except.error e, okBound_err⟩
                | ⟨Except.ok (n0, r0), hv⟩ =>
                    have av := hv _ _ rfl
                    ⟨Except.ok (n0, r0), okBound_mk (by simp only [List.length_cons, List.length_tail] at *; omega) (fun _ => by simp only [List.length_cons, List.length_tail] at *; omega)⟩
          else ⟨Except.ok (none, rest), okBound_mk (by simp only [List.length_cons, List.length_tail] at *; omega) (fun _ => by simp only [List.length_cons, List.length_tail] at *; omega)⟩
      | none => ⟨Except.ok (none, rest), okBound_mk (by simp only [List.length_cons, List.length_tail] at *; omega) (fun _ => by simp only [List.length_cons, List.length_tail] at *; omega)⟩
termination_by (l.length, 30)
decreasing_by
  all_goals first
    | (apply lex_of_le_of_lt <;> omega)
    | (apply Prod.Lex.left; omega)
    | (apply lex_of_le_of_lt <;> (simp only [List.length_cons, List.length_tail] at *; omega))
    | (apply Prod.Lex.left; simp only [List.length_cons, List.length_tail] at *; omega)
    | (apply lex_of_le_of_lt <;> (simp_all; omega))
    | (apply Prod.Lex.left; simp_all; omega)

/-- `parseFunction`, entered at the `(` after the function name: parameter
list, then a brace-delimited body when one follows. -/
def parseFunction (returnType name : Option String) (l : List Token) :
    {r : PRes // okBoundLe l r} :=
  match l with
  | [] => ⟨Except.ok (some (Node.functionDef returnType name [] []), []), okBoundLe_mk (by simp)⟩
  | _p :: rest =>
      match parseParamsLoop rest with
      | ⟨(params, l2), hp⟩ =>
          have hp2 : l2.length ≤ rest.length := by simpa using hp
          match l2.head? with
          | some ob =>
              if ob.value = some "\x7b" then
                match parseBlock l2 with
                | ⟨Except.error e, _⟩ => ⟨Except.error e, okBoundLe_err⟩
                | ⟨Except.ok (bn, l3), hb⟩ =>
                    have ab := (hb _ _ rfl).1
                    ⟨Except.ok (some (Node.functionDef returnType name params
                        (blockBody bn)), l3), okBoundLe_mk (by simp only [List.length_cons, List.length_tail] at *; omega)⟩
              else
                ⟨Except.ok (some (Node.functionDef returnType name params []), l2), okBoundLe_mk (by simp only [List.length_cons, List.length_tail] at *; omega)⟩
          | none =>
              ⟨Except.ok (some (Node.functionDef returnType name params []), l2), okBoundLe_mk (by simp only [List.length_cons, List.length_tail] at *; omega)⟩
termination_by (l.length, 28)
decreasing_by
  all_goals first
    | (apply lex_of_le_of_lt <;> omega)
    | (apply Prod.Lex.left; omega)
    | (apply lex_of_le_of_lt <;> (simp only [List.length_cons, List.length_tail] at *; omega))
    | (apply Prod.Lex.left; simp only [List.length_cons, List.length_tail] at *; omega)
    | (apply lex_of_le_of_lt <;> (simp_all; omega))
    | (apply Prod.Lex.left; simp_all; omega)

/-- `parseVariable`, entered after the declared name: optional `= expression`
initializer, optional trailing `;`. -/
def parseVariable (varType name : Option String) (l : List Token) :
    {r : PRes // okBoundLe l r} :=
  match l with
  | [] => ⟨Except.ok (some (Node.varDecl varType name none), []), okBoundLe_mk (by simp)⟩
  | nt :: rest =>
      if nt.value = some "=" then
        match parseExpression rest with
        | ⟨Except.error e, _⟩ => ⟨Except.error e, okBoundLe_err⟩
        | ⟨Except.ok (v, l2), h2⟩ =>
            have a2 := (h2 _ _ rfl).1
            have sk := skipToken_length_le ";" l2
            ⟨Except.ok (some (Node.varDecl varType name v), skipToken ";" l2), okBoundLe_mk (by simp only [List.length_cons, List.length_tail] at *; omega)⟩
      else
        have sk := skipToken_length_le ";" (nt :: rest)
        ⟨Except.ok (some (Node.varDecl varType name none), skipToken ";" (nt :: rest)), okBoundLe_mk (by simp only [List.length_cons, List.length_tail] at *; omega)⟩
termination_by (l.length, 28)
decreasing_by
  all_goals first
    | (apply lex_of_le_of_lt <;> omega)
    | (apply Prod.Lex.left; omega)
    | (apply lex_of_le_of_lt <;> (simp only [List.length_cons, List.length_tail] at *; omega))
    | (apply Prod.Lex.left; simp only [List.length_cons, List.length_tail] at *; omega)
    | (apply lex_of_le_of_lt <;> (simp_all; omega))
    | (apply Prod.Lex.left; simp_all; omega)

/-- `parseBlock`: skip `{`, then statements until the matching `}`. -/
def parseBlock (l : List Token) : {r : PRes // okBound l r} :=
  match l with
  | [] => ⟨Except.ok (some (Node.block []), []), okBound_mk (by simp) (fun h => absurd rfl h)⟩
  | _b :: rest =>
      match parseBlockLoop rest with
      | ⟨Except.error e, _⟩ => ⟨Except.error e, okBound_err⟩
      | ⟨Except.ok (stmts, l2), h2⟩ =>
          have a2 := h2 _ _ rfl
          ⟨Except.ok (some (Node.block stmts), l2), okBound_mk (by simp only [List.length_cons, List.length_tail] at *; omega) (fun _ => by simp only [List.length_cons, List.length_tail] at *; omega)⟩
termination_by (l.length, 32)
decreasing_by
  all_goals first
    | (apply lex_of_le_of_lt <;> omega)
    | (apply Prod.Lex.left; omega)
    | (apply lex_of_le_of_lt <;> (simp only [List.length_cons, List.length_tail] at *; omega))
    | (apply Prod.Lex.left; simp only [List.length_cons, List.length_tail] at *; omega)
    | (apply lex_of_le_of_lt <;> (simp_all; omega))
    | (apply Prod.Lex.left; simp_all; omega)

/-- `parseBlock`'s statement loop: until `}` or the end of the tokens. -/
def parseBlockLoop (l : List Token) :
    {r : Except String (List Node × List Token) // okBoundList l r} :=
  match l with
  | [] => ⟨Except.ok ([], []), okBoundList_mk (by simp)⟩
  | t :: rest =>
      if t.value = some "\x7d" then ⟨Except.ok ([], rest), okBoundList_mk (by simp only [List.length_cons, List.length_tail] at *; omega)⟩
      else
        match parseStatement (t :: rest) with
        | ⟨Except.error e, _⟩ => ⟨Except.error e, okBoundList_err⟩
        | ⟨Except.ok (s0, l2), h2⟩ =>
            have b2 := (h2 _ _ rfl).2 (by simp)
            match parseBlockLoop l2 with
            | ⟨Except.error e, _⟩ => ⟨Except.error e, okBoundList_err⟩
            | ⟨Except.ok (stmts, l3), h3⟩ =>
                have a3 := h3 _ _ rfl
                match s0 with
                | some s => ⟨Except.ok (s :: stmts, l3), okBoundList_mk (by simp only [List.length_cons, List.length_tail] at *; omega)⟩
                | none => ⟨Except.ok (stmts, l3), okBoundList_mk (by simp only [List.length_cons, List.length_tail] at *; omega)⟩
termination_by (l.length, 38)
decreasing_by
  all_goals first
    | (apply lex_of_le_of_lt <;> omega)
    | (apply Prod.Lex.left; omega)
    | (apply lex_of_le_of_lt <;> (simp only [List.length_cons, List.length_tail] at *; omega))
    | (apply Prod.Lex.left; simp only [List.length_cons, List.length_tail] at *; omega)
    | (apply lex_of_le_of_lt <;> (simp_all; omega))
    | (apply Prod.Lex.left; simp_all; omega)

/-- `parseIfStatement`: `if`, parenthesized condition, a statement, then an
optional `else` clause parsed by the same statement rule. -/
def parseIfStatement (l : List Token) : {r : PRes // okBound l r} :=
  match l with
  | [] => ⟨Except.ok (some (Node.ifStmt none none none), []), okBound_mk (by simp) (fun h => absurd rfl h)⟩
  | _t :: rest =>
      have s2 := skipToken_length_le "(" rest
      match parseExpression (skipToken "(" rest) with
      | ⟨Except.error e, _⟩ => ⟨Except.error e, okBound_err⟩
      | ⟨Except.ok (cond, l3), h3⟩ =>
          have a3 := (h3 _ _ rfl).1
          have s4 := skipToken_length_le ")" l3
          match parseStatement (skipToken ")" l3) with
          | ⟨Except.error e, _⟩ => ⟨Except.error e, okBound_err⟩
          | ⟨Except.ok (thenS, l5), h5⟩ =>
              have a5 := (h5 _ _ rfl).1
              match l5.head? with
              | some et =>
                  if et.value = some "else" then
                    have st := List.length_tail l5
                    match parseStatement l5.tail with
                    | ⟨Except.error e, _⟩ => ⟨Except.error e, okBound_err⟩
                    | ⟨Except.ok (elseS, l7), h7⟩ =>
                        have a7 := (h7 _ _ rfl).1
                        ⟨Except.ok (some (Node.ifStmt cond thenS elseS), l7), okBound_mk (by simp only [List.length_cons, List.length_tail] at *; omega) (fun _ => by simp only [List.length_cons, List.length_tail] at *; omega)⟩
                  else ⟨Except.ok (some (Node.ifStmt cond thenS none), l5), okBound_mk (by simp only [List.length_cons, List.length_tail] at *; omega) (fun _ => by simp only [List.length_cons, List.length_tail] at *; omega)⟩
              | none => ⟨Except.ok (some (Node.ifStmt cond thenS none), l5), okBound_mk (by simp only [List.length_cons, List.length_tail] at *; omega) (fun _ => by simp only [List.length_cons, List.length_tail] at *; omega)⟩
termination_by (l.length, 30)
decreasing_by
  all_goals first
    | (apply lex_of_le_of_lt <;> omega)
    | (apply Prod.Lex.left; omega)
    | (apply lex_of_le_of_lt <;> (simp only [List.length_cons, List.length_tail] at *; omega))
    | (apply Prod.Lex.left; simp only [List.length_cons, List.length_tail] at *; omega)
    | (apply lex_of_le_of_lt <;> (simp_all; omega))
    | (apply Prod.Lex.left; simp_all; omega)

/-- `parseWhileStatement`: `while`, parenthesized condition, body statement. -/
def parseWhileStatement (l : List Token) : {r : PRes // okBound l r} :=
  match l with
  | [] => ⟨Except.ok (some (Node.whileLoop none none), []), okBound_mk (by simp) (fun h => absurd rfl h)⟩
  | _t :: rest =>
      have s2 := skipToken_length_le "(" rest
      match parseExpression (skipToken "(" rest) with
      | ⟨Except.error e, _⟩ => ⟨Except.error e, okBound_err⟩
      | ⟨Except.ok (cond, l3), h3⟩ =>
          have a3 := (h3 _ _ rfl).1
          have s4 := skipToken_length_le ")" l3
          match parseStatement (skipToken ")" l3) with
          | ⟨Except.error e, _⟩ => ⟨Except.error e, okBound_err⟩
          | ⟨Except.ok (body, l5), h5⟩ =>
              have a5 := (h5 _ _ rfl).1
              ⟨Except.ok (some (Node.whileLoop cond body), l5), okBound_mk (by simp only [List.length_cons, List.length_tail] at *; omega) (fun _ => by simp only [List.length_cons, List.length_tail] at *; omega)⟩
termination_by (l.length, 30)
decreasing_by
  all_goals first
    | (apply lex_of_le_of_lt <;> omega)
    | (apply Prod.Lex.left; omega)
    | (apply lex_of_le_of_lt <;> (simp only [List.length_cons, List.length_tail] at *; omega))
    | (apply Prod.Lex.left; simp only [List.length_cons, List.length_tail] at *; omega)
    | (apply lex_of_le_of_lt <;> (simp_all; omega))
    | (apply Prod.Lex.left; simp_all; omega)

/-- `parseForStatement`: `for (` initializer `;` condition `;` update `)`
body.  The initializer is a declaration for a leading keyword, an
assignment/call for a leading identifier, otherwise `null`. -/
def parseForStatement (l : List Token) : {r : PRes // okBound l r} :=
  match l with
  | [] => ⟨Except.ok (some (Node.forLoop none none none none), []), okBound_mk (by simp) (fun h => absurd rfl h)⟩
  | _t :: rest =>
      have s2 := skipToken_length_le "(" rest
      match (skipToken "(" rest).head? with
      | some it =>
          if it.type = TokenType.KEYWORD then
            match parseDeclarationOrFunction (skipToken "(" rest) with
            | ⟨Except.error e, _⟩ => ⟨Except.error e, okBound_err⟩
            | ⟨Except.ok (init, l3), h3⟩ =>
                have a3 := (h3 _ _ rfl).1
                match parseForTail init l3 with
                | ⟨Except.error e, _⟩ => ⟨Except.error e, okBound_err⟩
                | ⟨Except.ok (n0, r0), hf⟩ =>
                    have af := hf _ _ rfl
                    ⟨Except.ok (n0, r0), okBound_mk (by simp only [List.length_cons, List.length_tail] at *; omega) (fun _ => by simp only [List.length_cons, List.length_tail] at *; omega)⟩
          else if it.type = TokenType.IDENTIFIER then
            match parseAssignmentOrFunctionCall (skipToken "(" rest) with
            | ⟨Except.error e, _⟩ => ⟨Except.error e, okBound_err⟩
            | ⟨Except.ok (init, l3), h3⟩ =>
                have a3 := (h3 _ _ rfl).1
                match parseForTail init l3 with
                | ⟨Except.error e, _⟩ => ⟨Except.error e, okBound_err⟩
                | ⟨Except.ok (n0, r0), hf⟩ =>
                    have af := hf _ _ rfl
                    ⟨Except.ok (n0, r0), okBound_mk (by simp only [List.length_cons, List.length_tail] at *; omega) (fun _ => by simp only [List.length_cons, List.length_tail] at *; omega)⟩
          else
            match parseForTail none (skipToken "(" rest) with
            | ⟨Except.error e, _⟩ => ⟨Except.error e, okBound_err⟩
            | ⟨Except.ok (n0, r0), hf⟩ =>
                have af := hf _ _ rfl
                ⟨Except.ok (n0, r0), okBound_mk (by simp only [List.length_cons, List.length_tail] at *; omega) (fun _ => by simp only [List.length_cons, List.length_tail] at *; omega)⟩
      | none =>
          match parseForTail none (skipToken "(" rest) with
          | ⟨Except.error e, _⟩ => ⟨Except.error e, okBound_err⟩
          | ⟨Except.ok (n0, r0), hf⟩ =>
              have af := hf _ _ rfl
              ⟨Except.ok (n0, r0), okBound_mk (by simp only [List.length_cons, List.length_tail] at *; omega) (fun _ => by simp only [List.length_cons, List.length_tail] at *; omega)⟩
termination_by (l.length, 30)
decreasing_by
  all_goals first
    | (apply lex_of_le_of_lt <;> omega)
    | (apply Prod.Lex.left; omega)
    | (apply lex_of_le_of_lt <;> (simp only [List.length_cons, List.length_tail] at *; omega))
    | (apply Prod.Lex.left; simp only [List.length_cons, List.length_tail] at *; omega)
    | (apply lex_of_le_of_lt <;> (simp_all; omega))
    | (apply Prod.Lex.left; simp_all; omega)

/-- The rest of `parseForStatement` after its initializer: `;`, condition,
`;`, update, `)`, body. -/
def parseForTail (init : Option Node) (l : List Token) :
    {r : PRes // okBoundLe l r} :=
  match l with
  | [] =>
      ⟨Except.ok (some (Node.forLoop init none none none), []), okBoundLe_mk (by simp)⟩
  | t :: rest =>
      have sk1 := skipToken_length_le ";" (t :: rest)
      match parseExpression (skipToken ";" (t :: rest)) with
      | ⟨Except.error e, _⟩ => ⟨Except.error e, okBoundLe_err⟩
      | ⟨Except.ok (cond, l5), h5⟩ =>
          have a5 := (h5 _ _ rfl).1
          have b5 : l5.length < (t :: rest).length := by
            by_cases hni : skipToken ";" (t :: rest) = []
            · rw [hni] at a5
              simp at a5
              simp [a5]
            · have s := (h5 _ _ rfl).2 hni
              simp only [List.length_cons] at *
              omega
          have sk2 := skipToken_length_le ";" l5
          match parseExpression (skipToken ";" l5) with
          | ⟨Except.error e, _⟩ => ⟨Except.error e, okBoundLe_err⟩
          | ⟨Except.ok (upd, l7), h7⟩ =>
              have a7 := (h7 _ _ rfl).1
              have sk3 := skipToken_length_le ")" l7
              match parseStatement (skipToken ")" l7) with
              | ⟨Except.error e, _⟩ => ⟨Except.error e, okBoundLe_err⟩
              | ⟨Except.ok (body, l9), h9⟩ =>
                  have a9 := (h9 _ _ rfl).1
                  ⟨Except.ok (some (Node.forLoop init cond upd body), l9), okBoundLe_mk (by simp only [List.length_cons, List.length_tail] at *; omega)⟩
termination_by (l.length, 29)
decreasing_by
  all_goals first
    | (apply lex_of_le_of_lt <;> omega)
    | (apply Prod.Lex.left; omega)
    | (apply lex_of_le_of_lt <;> (simp only [List.length_cons, List.length_tail] at *; omega))
    | (apply Prod.Lex.left; simp only [List.length_cons, List.length_tail] at *; omega)
    | (apply lex_of_le_of_lt <;> (simp_all; omega))
    | (apply Prod.Lex.left; simp_all; omega)

/-- `parseReturnStatement`: optional expression unless `;` follows. -/
def parseReturnStatement (l : List Token) : {r : PRes // okBound l r} :=
  match l with
  | [] => ⟨Except.ok (some (Node.returnStmt none), []), okBound_mk (by simp) (fun h => absurd rfl h)⟩
  | _t :: rest =>
      match rest.head? with
      | some n =>
          if n.value = some ";" then
            have sk := skipToken_length_le ";" rest
            ⟨Except.ok (some (Node.returnStmt none), skipToken ";" rest), okBound_mk (by simp only [List.length_cons, List.length_tail] at *; omega) (fun _ => by simp only [List.length_cons, List.length_tail] at *; omega)⟩
          else
            match parseExpression rest with
            | ⟨Except.error e, _⟩ => ⟨Except.error e, okBound_err⟩
            | ⟨Except.ok (v, l3), h3⟩ =>
                have a3 := (h3 _ _ rfl).1
                have sk := skipToken_length_le ";" l3
                ⟨Except.ok (some (Node.returnStmt v), skipToken ";" l3), okBound_mk (by simp only [List.length_cons, List.length_tail] at *; omega) (fun _ => by simp only [List.length_cons, List.length_tail] at *; omega)⟩
      | none =>
          have sk := skipToken_length_le ";" rest
          ⟨Except.ok (some (Node.returnStmt none), skipToken ";" rest), okBound_mk (by simp only [List.length_cons, List.length_tail] at *; omega) (fun _ => by simp only [List.length_cons, List.length_tail] at *; omega)⟩
termination_by (l.length, 30)
decreasing_by
  all_goals first
    | (apply lex_of_le_of_lt <;> omega)
    | (apply Prod.Lex.left; omega)
    | (apply lex_of_le_of_lt <;> (simp only [List.length_cons, List.length_tail] at *; omega))
    | (apply Prod.Lex.left; simp only [List.length_cons, List.length_tail] at *; omega)
    | (apply lex_of_le_of_lt <;> (simp_all; omega))
    | (apply Prod.Lex.left; simp_all; omega)

/-- `parsePrintfStatement`: parenthesized comma-separated expressions. -/
def parsePrintfStatement (l : List Token) : {r : PRes // okBound l r} :=
  match l with
  | [] => ⟨Except.ok (some (Node.printfStmt []), []), okBound_mk (by simp) (fun h => absurd rfl h)⟩
  | _t :: rest =>
      have s2 := skipToken_length_le "(" rest
      match parseArgsLoop (skipToken "(" rest) with
      | ⟨Except.error e, _⟩ => ⟨Except.error e, okBound_err⟩
      | ⟨Except.ok (args, l3), h3⟩ =>
          have a3 := h3 _ _ rfl
          have sk := skipToken_length_le ";" l3
          ⟨Except.ok (some (Node.printfStmt args), skipToken ";" l3), okBound_mk (by simp only [List.length_cons, List.length_tail] at *; omega) (fun _ => by simp only [List.length_cons, List.length_tail] at *; omega)⟩
termination_by (l.length, 30)
decreasing_by
  all_goals first
    | (apply lex_of_le_of_lt <;> omega)
    | (apply Prod.Lex.left; omega)
    | (apply lex_of_le_of_lt <;> (simp only [List.length_cons, List.length_tail] at *; omega))
    | (apply Prod.Lex.left; simp only [List.length_cons, List.length_tail] at *; omega)
    | (apply lex_of_le_of_lt <;> (simp_all; omega))
    | (apply Prod.Lex.left; simp_all; omega)

/-- `parseScanfStatement`: same shape as `parsePrintfStatement`. -/
def parseScanfStatement (l : List Token) : {r : PRes // okBound l r} :=
  match l with
  | [] => ⟨Except.ok (some (Node.scanfStmt []), []), okBound_mk (by simp) (fun h => absurd rfl h)⟩
  | _t :: rest =>
      have s2 := skipToken_length_le "(" rest
      match parseArgsLoop (skipToken "(" rest) with
      | ⟨Except.error e, _⟩ => ⟨Except.error e, okBound_err⟩
      | ⟨Except.ok (args, l3), h3⟩ =>
          have a3 := h3 _ _ rfl
          have sk := skipToken_length_le ";" l3
          ⟨Except.ok (some (Node.scanfStmt args), skipToken ";" l3), okBound_mk (by simp only [List.length_cons, List.length_tail] at *; omega) (fun _ => by simp only [List.length_cons, List.length_tail] at *; omega)⟩
termination_by (l.length, 30)
decreasing_by
  all_goals first
    | (apply lex_of_le_of_lt <;> omega)
    | (apply Prod.Lex.left; omega)
    | (apply lex_of_le_of_lt <;> (simp only [List.length_cons, List.length_tail] at *; omega))
    | (apply Prod.Lex.left; simp only [List.length_cons, List.length_tail] at *; omega)
    | (apply lex_of_le_of_lt <;> (simp_all; omega))
    | (apply Prod.Lex.left; simp_all; omega)

/-- The argument loop shared verbatim by `parsePrintfStatement`,
`parseScanfStatement` and function-call parsing: `)` ends it, `,` is
skipped, anything else is read as an expression (null results are not
collected). -/
def parseArgsLoop (l : List Token) :
    {r : Except String (List Node × List Token) // okBoundList l r} :=
  match l with
  | [] => ⟨Except.ok ([], []), okBoundList_mk (by simp)⟩
  | t :: rest =>
      if t.value = some ")" then ⟨Except.ok ([], rest), okBoundList_mk (by simp only [List.length_cons, List.length_tail] at *; omega)⟩
      else if t.value = some "," then
        match parseArgsLoop rest with
        | ⟨Except.error e, _⟩ => ⟨Except.error e, okBoundList_err⟩
        | ⟨Except.ok (args, l2), h2⟩ =>
            have a2 := h2 _ _ rfl
            ⟨Except.ok (args, l2), okBoundList_mk (by simp only [List.length_cons, List.length_tail] at *; omega)⟩
      else
        match parseExpression (t :: rest) with
        | ⟨Except.error e, _⟩ => ⟨Except.error e, okBoundList_err⟩
        | ⟨Except.ok (e0, l2), h2⟩ =>
            have b2 := (h2 _ _ rfl).2 (by simp)
            match parseArgsLoop l2 with
            | ⟨Except.error e, _⟩ => ⟨Except.error e, okBoundList_err⟩
            | ⟨Except.ok (args, l3), h3⟩ =>
                have a3 := h3 _ _ rfl
                match e0 with
                | some e1 => ⟨Except.ok (e1 :: args, l3), okBoundList_mk (by simp only [List.length_cons, List.length_tail] at *; omega)⟩
                | none => ⟨Except.ok (args, l3), okBoundList_mk (by simp only [List.length_cons, List.length_tail] at *; omega)⟩
termination_by (l.length, 22)
decreasing_by
  all_goals first
    | (apply lex_of_le_of_lt <;> omega)
    | (apply Prod.Lex.left; omega)
    | (apply lex_of_le_of_lt <;> (simp only [List.length_cons, List.length_tail] at *; omega))
    | (apply Prod.Lex.left; simp only [List.length_cons, List.length_tail] at *; omega)
    | (apply lex_of_le_of_lt <;> (simp_all; omega))
    | (apply Prod.Lex.left; simp_all; omega)

/-- `parseAssignmentOrFunctionCall`: identifier followed by `(` is a call,
by an assignment operator an assignment, by `++`/`--` an increment; anything
else steps the cursor back and parses a plain expression. -/
def parseAssignmentOrFunctionCall (l : List Token) : {r : PRes // okBound l r} :=
  match l with
  | [] => ⟨Except.ok (none, []), okBound_mk (by simp) (fun h => absurd rfl h)⟩
  | idTok :: rest =>
      match rest.head? with
      | some next =>
          if next.value = some "(" then
            have st := List.length_tail rest
            match parseArgsLoop rest.tail with
            | ⟨Except.error e, _⟩ => ⟨Except.error e, okBound_err⟩
            | ⟨Except.ok (args, l3), h3⟩ =>
                have a3 := h3 _ _ rfl
                have sk := skipToken_length_le ";" l3
                ⟨Except.ok (some (Node.functionCall idTok.value args),
                    skipToken ";" l3), okBound_mk (by simp only [List.length_cons, List.length_tail] at *; omega) (fun _ => by simp only [List.length_cons, List.length_tail] at *; omega)⟩
          else if next.value = some "++" then
            have st := List.length_tail rest
            have sk := skipToken_length_le ";" rest.tail
            ⟨Except.ok (some (Node.assignment idTok.value "++" none),
                skipToken ";" rest.tail), okBound_mk (by simp only [List.length_cons, List.length_tail] at *; omega) (fun _ => by simp only [List.length_cons, List.length_tail] at *; omega)⟩
          else if next.value = some "--" then
            have st := List.length_tail rest
            have sk := skipToken_length_le ";" rest.tail
            ⟨Except.ok (some (Node.assignment idTok.value "--" none),
                skipToken ";" rest.tail), okBound_mk (by simp only [List.length_cons, List.length_tail] at *; omega) (fun _ => by simp only [List.length_cons, List.length_tail] at *; omega)⟩
          else if next.value = some "=" then
            have st := List.length_tail rest
            match parseAssignTail idTok.value "=" rest.tail with
            | ⟨Except.error e, _⟩ => ⟨Except.error e, okBound_err⟩
            | ⟨Except.ok (n0, r0), ha⟩ =>
                have aa := ha _ _ rfl
                ⟨Except.ok (n0, r0), okBound_mk (by simp only [List.length_cons, List.length_tail] at *; omega) (fun _ => by simp only [List.length_cons, List.length_tail] at *; omega)⟩
          else if next.value = some "+=" then
            have st := List.length_tail rest
            match parseAssignTail idTok.value "+=" rest.tail with
            | ⟨Except.error e, _⟩ => ⟨Except.error e, okBound_err⟩
            | ⟨Except.ok (n0, r0), ha⟩ =>
                have aa := ha _ _ rfl
                ⟨Except.ok (n0, r0), okBound_mk (by simp only [List.length_cons, List.length_tail] at *; omega) (fun _ => by simp only [List.length_cons, List.length_tail] at *; omega)⟩
          else if next.value = some "-=" then
            have st := List.length_tail rest
            match parseAssignTail idTok.value "-=" rest.tail with
            | ⟨Except.error e, _⟩ => ⟨Except.error e, okBound_err⟩
            | ⟨Except.ok (n0, r0), ha⟩ =>
                have aa := ha _ _ rfl
                ⟨Except.ok (n0, r0), okBound_mk (by simp only [List.length_cons, List.length_tail] at *; omega) (fun _ => by simp only [List.length_cons, List.length_tail] at *; omega)⟩
          else if next.value = some "*=" then
            have st := List.length_tail rest
            match parseAssignTail idTok.value "*=" rest.tail with
            | ⟨Except.error e, _⟩ => ⟨Except.error e, okBound_err⟩
            | ⟨Except.ok (n0, r0), ha⟩ =>
                have aa := ha _ _ rfl
                ⟨Except.ok (n0, r0), okBound_mk (by simp only [List.length_cons, List.length_tail] at *; omega) (fun _ => by simp only [List.length_cons, List.length_tail] at *; omega)⟩
          else if next.value = some "/=" then
            have st := List.length_tail rest
            match parseAssignTail idTok.value "/=" rest.tail with
            | ⟨Except.error e, _⟩ => ⟨Except.error e, okBound_err⟩
            | ⟨Except.ok (n0, r0), ha⟩ =>
                have aa := ha _ _ rfl
                ⟨Except.ok (n0, r0), okBound_mk (by simp only [List.length_cons, List.length_tail] at *; omega) (fun _ => by simp only [List.length_cons, List.length_tail] at *; omega)⟩
          else parseExpression (idTok :: rest)
      | none => parseExpression (idTok :: rest)
termination_by (l.length, 26)
decreasing_by
  all_goals first
    | (apply lex_of_le_of_lt <;> omega)
    | (apply Prod.Lex.left; omega)
    | (apply lex_of_le_of_lt <;> (simp only [List.length_cons, List.length_tail] at *; omega))
    | (apply Prod.Lex.left; simp only [List.length_cons, List.length_tail] at *; omega)
    | (apply lex_of_le_of_lt <;> (simp_all; omega))
    | (apply Prod.Lex.left; simp_all; omega)

/-- The assignment branch of `parseAssignmentOrFunctionCall`, entered after
the identifier and its operator are consumed. -/
def parseAssignTail (identName : Option String) (op : String) (l : List Token) :
    {r : PRes // okBoundLe l r} :=
  match parseExpression l with
  | ⟨Except.error e, _⟩ => ⟨Except.error e, okBoundLe_err⟩
  | ⟨Except.ok (v, l2), h2⟩ =>
      have a2 := (h2 _ _ rfl).1
      have sk := skipToken_length_le ";" l2
      ⟨Except.ok (some (Node.assignment identName op v), skipToken ";" l2),
        okBoundLe_mk (by omega)⟩
termination_by (l.length, 24)
decreasing_by
  all_goals first
    | (apply lex_of_le_of_lt <;> omega)
    | (apply Prod.Lex.left; omega)
    | (apply lex_of_le_of_lt <;> (simp only [List.length_cons, List.length_tail] at *; omega))
    | (apply Prod.Lex.left; simp only [List.length_cons, List.length_tail] at *; omega)
    | (apply lex_of_le_of_lt <;> (simp_all; omega))
    | (apply Prod.Lex.left; simp_all; omega)

/-- `parseExpression`: the precedence chain's entry point. -/
def parseExpression (l : List Token) : {r : PRes // okBound l r} :=
  parseOrExpression l
termination_by (l.length, 20)
decreasing_by
  all_goals first
    | (apply lex_of_le_of_lt <;> omega)
    | (apply Prod.Lex.left; omega)
    | (apply lex_of_le_of_lt <;> (simp only [List.length_cons, List.length_tail] at *; omega))
    | (apply Prod.Lex.left; simp only [List.length_cons, List.length_tail] at *; omega)
    | (apply lex_of_le_of_lt <;> (simp_all; omega))
    | (apply Prod.Lex.left; simp_all; omega)

/-- Logical-or level: left fold over `||`. -/
def parseOrExpression (l : List Token) : {r : PRes // okBound l r} :=
  match parseAndExpression l with
  | ⟨Except.error e, _⟩ => ⟨Except.error e, okBound_err⟩
  | ⟨Except.ok (left, l2), h2⟩ =>
      have a2 := (h2 _ _ rfl).1
      match parseOrLoop left l2 with
      | ⟨Except.error e, _⟩ => ⟨Except.error e, okBound_err⟩
      | ⟨Except.ok (res, l3), h3⟩ =>
          have a3 := h3 _ _ rfl
          ⟨Except.ok (res, l3), okBound_mk (by omega)
            (fun hne => by have s := (h2 _ _ rfl).2 hne; omega)⟩
termination_by (l.length, 18)
decreasing_by
  all_goals first
    | (apply lex_of_le_of_lt <;> omega)
    | (apply Prod.Lex.left; omega)
    | (apply lex_of_le_of_lt <;> (simp only [List.length_cons, List.length_tail] at *; omega))
    | (apply Prod.Lex.left; simp only [List.length_cons, List.length_tail] at *; omega)
    | (apply lex_of_le_of_lt <;> (simp_all; omega))
    | (apply Prod.Lex.left; simp_all; omega)

def parseOrLoop (left : Option Node) (l : List Token) :
    {r : PRes // okBoundLe l r} :=
  match l with
  | [] => ⟨Except.ok (left, []), okBoundLe_mk (by simp)⟩
  | t :: rest =>
      if t.value = some "||" then
        match parseAndExpression rest with
        | ⟨Except.error e, _⟩ => ⟨Except.error e, okBoundLe_err⟩
        | ⟨Except.ok (right, l2), h2⟩ =>
            have a2 := (h2 _ _ rfl).1
            match parseOrLoop (some (Node.binaryExpr left "||" right)) l2 with
            | ⟨Except.error e, _⟩ => ⟨Except.error e, okBoundLe_err⟩
            | ⟨Except.ok (res, l3), h3⟩ =>
                have a3 := h3 _ _ rfl
                ⟨Except.ok (res, l3), okBoundLe_mk (by simp only [List.length_cons, List.length_tail] at *; omega)⟩
      else ⟨Except.ok (left, t :: rest), okBoundLe_mk (by simp)⟩
termination_by (l.length, 17)
decreasing_by
  all_goals first
    | (apply lex_of_le_of_lt <;> omega)
    | (apply Prod.Lex.left; omega)
    | (apply lex_of_le_of_lt <;> (simp only [List.length_cons, List.length_tail] at *; omega))
    | (apply Prod.Lex.left; simp only [List.length_cons, List.length_tail] at *; omega)
    | (apply lex_of_le_of_lt <;> (simp_all; omega))
    | (apply Prod.Lex.left; simp_all; omega)

/-- Logical-and level: left fold over `&&`. -/
def parseAndExpression (l : List Token) : {r : PRes // okBound l r} :=
  match parseEqualityExpression l with
  | ⟨Except.error e, _⟩ => ⟨Except.error e, okBound_err⟩
  | ⟨Except.ok (left, l2), h2⟩ =>
      have a2 := (h2 _ _ rfl).1
      match parseAndLoop left l2 with
      | ⟨Except.error e, _⟩ => ⟨Except.error e, okBound_err⟩
      | ⟨Except.ok (res, l3), h3⟩ =>
          have a3 := h3 _ _ rfl
          ⟨Except.ok (res, l3), okBound_mk (by omega)
            (fun hne => by have s := (h2 _ _ rfl).2 hne; omega)⟩
termination_by (l.length, 16)
decreasing_by
  all_goals first
    | (apply lex_of_le_of_lt <;> omega)
    | (apply Prod.Lex.left; omega)
    | (apply lex_of_le_of_lt <;> (simp only [List.length_cons, List.length_tail] at *; omega))
    | (apply Prod.Lex.left; simp only [List.length_cons, List.length_tail] at *; omega)
    | (apply lex_of_le_of_lt <;> (simp_all; omega))
    | (apply Prod.Lex.left; simp_all; omega)

def parseAndLoop (left : Option Node) (l : List Token) :
    {r : PRes // okBoundLe l r} :=
  match l with
  | [] => ⟨Except.ok (left, []), okBoundLe_mk (by simp)⟩
  | t :: rest =>
      if t.value = some "&&" then
        match parseEqualityExpression rest with
        | ⟨Except.error e, _⟩ => ⟨Except.error e, okBoundLe_err⟩
        | ⟨Except.ok (right, l2), h2⟩ =>
            have a2 := (h2 _ _ rfl).1
            match parseAndLoop (some (Node.binaryExpr left "&&" right)) l2 with
            | ⟨Except.error e, _⟩ => ⟨Except.error e, okBoundLe_err⟩
            | ⟨Except.ok (res, l3), h3⟩ =>
                have a3 := h3 _ _ rfl
                ⟨Except.ok (res, l3), okBoundLe_mk (by simp only [List.length_cons, List.length_tail] at *; omega)⟩
      else ⟨Except.ok (left, t :: rest), okBoundLe_mk (by simp)⟩
termination_by (l.length, 15)
decreasing_by
  all_goals first
    | (apply lex_of_le_of_lt <;> omega)
    | (apply Prod.Lex.left; omega)
    | (apply lex_of_le_of_lt <;> (simp only [List.length_cons, List.length_tail] at *; omega))
    | (apply Prod.Lex.left; simp only [List.length_cons, List.length_tail] at *; omega)
    | (apply lex_of_le_of_lt <;> (simp_all; omega))
    | (apply Prod.Lex.left; simp_all; omega)

/-- Equality level: left fold over `==` and `!=`. -/
def parseEqualityExpression (l : List Token) : {r : PRes // okBound l r} :=
  match parseRelationalExpression l with
  | ⟨Except.error e, _⟩ => ⟨Except.error e, okBound_err⟩
  | ⟨Except.ok (left, l2), h2⟩ =>
      have a2 := (h2 _ _ rfl).1
      match parseEqLoop left l2 with
      | ⟨Except.error e, _⟩ => ⟨Except.error e, okBound_err⟩
      | ⟨Except.ok (res, l3), h3⟩ =>
          have a3 := h3 _ _ rfl
          ⟨Except.ok (res, l3), okBound_mk (by omega)
            (fun hne => by have s := (h2 _ _ rfl).2 hne; omega)⟩
termination_by (l.length, 14)
decreasing_by
  all_goals first
    | (apply lex_of_le_of_lt <;> omega)
    | (apply Prod.Lex.left; omega)
    | (apply lex_of_le_of_lt <;> (simp only [List.length_cons, List.length_tail] at *; omega))
    | (apply Prod.Lex.left; simp only [List.length_cons, List.length_tail] at *; omega)
    | (apply lex_of_le_of_lt <;> (simp_all; omega))
    | (apply Prod.Lex.left; simp_all; omega)

def parseEqLoop (left : Option Node) (l : List Token) :
    {r : PRes // okBoundLe l r} :=
  match l with
  | [] => ⟨Except.ok (left, []), okBoundLe_mk (by simp)⟩
  | t :: rest =>
      if t.value = some "==" then
        match parseRelationalExpression rest with
        | ⟨Except.error e, _⟩ => ⟨Except.error e, okBoundLe_err⟩
        | ⟨Except.ok (right, l2), h2⟩ =>
            have a2 := (h2 _ _ rfl).1
            match parseEqLoop (some (Node.binaryExpr left "==" right)) l2 with
            | ⟨Except.error e, _⟩ => ⟨Except.error e, okBoundLe_err⟩
            | ⟨Except.ok (res, l3), h3⟩ =>
                have a3 := h3 _ _ rfl
                ⟨Except.ok (res, l3), okBoundLe_mk (by simp only [List.length_cons, List.length_tail] at *; omega)⟩
      else if t.value = some "!=" then
        match parseRelationalExpression rest with
        | ⟨Except.error e, _⟩ => ⟨Except.error e, okBoundLe_err⟩
        | ⟨Except.ok (right, l2), h2⟩ =>
            have a2 := (h2 _ _ rfl).1
            match parseEqLoop (some (Node.binaryExpr left "!=" right)) l2 with
            | ⟨Except.error e, _⟩ => ⟨Except.error e, okBoundLe_err⟩
            | ⟨Except.ok (res, l3), h3⟩ =>
                have a3 := h3 _ _ rfl
                ⟨Except.ok (res, l3), okBoundLe_mk (by simp only [List.length_cons, List.length_tail] at *; omega)⟩
      else ⟨Except.ok (left, t :: rest), okBoundLe_mk (by simp)⟩
termination_by (l.length, 13)
decreasing_by
  all_goals first
    | (apply lex_of_le_of_lt <;> omega)
    | (apply Prod.Lex.left; omega)
    | (apply lex_of_le_of_lt <;> (simp only [List.length_cons, List.length_tail] at *; omega))
    | (apply Prod.Lex.left; simp only [List.length_cons, List.length_tail] at *; omega)
    | (apply lex_of_le_of_lt <;> (simp_all; omega))
    | (apply Prod.Lex.left; simp_all; omega)

/-- Relational level: left fold over `<`, `>`, `<=`, `>=`. -/
def parseRelationalExpression (l : List Token) : {r : PRes // okBound l r} :=
  match parseAdditiveExpression l with
  | ⟨Except.error e, _⟩ => ⟨Except.error e, okBound_err⟩
  | ⟨Except.ok (left, l2), h2⟩ =>
      have a2 := (h2 _ _ rfl).1
      match parseRelLoop left l2 with
      | ⟨Except.error e, _⟩ => ⟨Except.error e, okBound_err⟩
      | ⟨Except.ok (res, l3), h3⟩ =>
          have a3 := h3 _ _ rfl
          ⟨Except.ok (res, l3), okBound_mk (by omega)
            (fun hne => by have s := (h2 _ _ rfl).2 hne; omega)⟩
termination_by (l.length, 12)
decreasing_by
  all_goals first
    | (apply lex_of_le_of_lt <;> omega)
    | (apply Prod.Lex.left; omega)
    | (apply lex_of_le_of_lt <;> (simp only [List.length_cons, List.length_tail] at *; omega))
    | (apply Prod.Lex.left; simp only [List.length_cons, List.length_tail] at *; omega)
    | (apply lex_of_le_of_lt <;> (simp_all; omega))
    | (apply Prod.Lex.left; simp_all; omega)

def parseRelLoop (left : Option Node) (l : List Token) :
    {r : PRes // okBoundLe l r} :=
  match l with
  | [] => ⟨Except.ok (left, []), okBoundLe_mk (by simp)⟩
  | t :: rest =>
      if t.value = some "<" then
        match parseAdditiveExpression rest with
        | ⟨Except.error e, _⟩ => ⟨Except.error e, okBoundLe_err⟩
        | ⟨Except.ok (right, l2), h2⟩ =>
            have a2 := (h2 _ _ rfl).1
            match parseRelLoop (some (Node.binaryExpr left "<" right)) l2 with
            | ⟨Except.error e, _⟩ => ⟨Except.error e, okBoundLe_err⟩
            | ⟨Except.ok (res, l3), h3⟩ =>
                have a3 := h3 _ _ rfl
                ⟨Except.ok (res, l3), okBoundLe_mk (by simp only [List.length_cons, List.length_tail] at *; omega)⟩
      else if t.value = some ">" then
        match parseAdditiveExpression rest with
        | ⟨Except.error e, _⟩ => ⟨Except.error e, okBoundLe_err⟩
        | ⟨Except.ok (right, l2), h2⟩ =>
            have a2 := (h2 _ _ rfl).1
            match parseRelLoop (some (Node.binaryExpr left ">" right)) l2 with
            | ⟨Except.error e, _⟩ => ⟨Except.error e, okBoundLe_err⟩
            | ⟨Except.ok (res, l3), h3⟩ =>
                have a3 := h3 _ _ rfl
                ⟨Except.ok (res, l3), okBoundLe_mk (by simp only [List.length_cons, List.length_tail] at *; omega)⟩
      else if t.value = some "<=" then
        match parseAdditiveExpression rest with
        | ⟨Except.error e, _⟩ => ⟨Except.error e, okBoundLe_err⟩
        | ⟨Except.ok (right, l2), h2⟩ =>
            have a2 := (h2 _ _ rfl).1
            match parseRelLoop (some (Node.binaryExpr left "<=" right)) l2 with
            | ⟨Except.error e, _⟩ => ⟨Except.error e, okBoundLe_err⟩
            | ⟨Except.ok (res, l3), h3⟩ =>
                have a3 := h3 _ _ rfl
                ⟨Except.ok (res, l3), okBoundLe_mk (by simp only [List.length_cons, List.length_tail] at *; omega)⟩
      else if t.value = some ">=" then
        match parseAdditiveExpression rest with
        | ⟨Except.error e, _⟩ => ⟨Except.error e, okBoundLe_err⟩
        | ⟨Except.ok (right, l2), h2⟩ =>
            have a2 := (h2 _ _ rfl).1
            match parseRelLoop (some (Node.binaryExpr left ">=" right)) l2 with
            | ⟨Except.error e, _⟩ => ⟨Except.error e, okBoundLe_err⟩
            | ⟨Except.ok (res, l3), h3⟩ =>
                have a3 := h3 _ _ rfl
                ⟨Except.ok (res, l3), okBoundLe_mk (by simp only [List.length_cons, List.length_tail] at *; omega)⟩
      else ⟨Except.ok (left, t :: rest), okBoundLe_mk (by simp)⟩
termination_by (l.length, 11)
decreasing_by
  all_goals first
    | (apply lex_of_le_of_lt <;> omega)
    | (apply Prod.Lex.left; omega)
    | (apply lex_of_le_of_lt <;> (simp only [List.length_cons, List.length_tail] at *; omega))
    | (apply Prod.Lex.left; simp only [List.length_cons, List.length_tail] at *; omega)
    | (apply lex_of_le_of_lt <;> (simp_all; omega))
    | (apply Prod.Lex.left; simp_all; omega)

/-- Additive level: left fold over `+` and `-`. -/
def parseAdditiveExpression (l : List Token) : {r : PRes // okBound l r} :=
  match parseMultiplicativeExpression l with
  | ⟨Except.error e, _⟩ => ⟨Except.error e, okBound_err⟩
  | ⟨Except.ok (left, l2), h2⟩ =>
      have a2 := (h2 _ _ rfl).1
      match parseAddLoop left l2 with
      | ⟨Except.error e, _⟩ => ⟨Except.error e, okBound_err⟩
      | ⟨Except.ok (res, l3), h3⟩ =>
          have a3 := h3 _ _ rfl
          ⟨Except.ok (res, l3), okBound_mk (by omega)
            (fun hne => by have s := (h2 _ _ rfl).2 hne; omega)⟩
termination_by (l.length, 10)
decreasing_by
  all_goals first
    | (apply lex_of_le_of_lt <;> omega)
    | (apply Prod.Lex.left; omega)
    | (apply lex_of_le_of_lt <;> (simp only [List.length_cons, List.length_tail] at *; omega))
    | (apply Prod.Lex.left; simp only [List.length_cons, List.length_tail] at *; omega)
    | (apply lex_of_le_of_lt <;> (simp_all; omega))
    | (apply Prod.Lex.left; simp_all; omega)

def parseAddLoop (left : Option Node) (l : List Token) :
    {r : PRes // okBoundLe l r} :=
  match l with
  | [] => ⟨Except.ok (left, []), okBoundLe_mk (by simp)⟩
  | t :: rest =>
      if t.value = some "+" then
        match parseMultiplicativeExpression rest with
        | ⟨Except.error e, _⟩ => ⟨Except.error e, okBoundLe_err⟩
        | ⟨Except.ok (right, l2), h2⟩ =>
            have a2 := (h2 _ _ rfl).1
            match parseAddLoop (some (Node.binaryExpr left "+" right)) l2 with
            | ⟨Except.error e, _⟩ => ⟨Except.error e, okBoundLe_err⟩
            | ⟨Except.ok (res, l3), h3⟩ =>
                have a3 := h3 _ _ rfl
                ⟨Except.ok (res, l3), okBoundLe_mk (by simp only [List.length_cons, List.length_tail] at *; omega)⟩
      else if t.value = some "-" then
        match parseMultiplicativeExpression rest with
        | ⟨Except.error e, _⟩ => ⟨Except.error e, okBoundLe_err⟩
        | ⟨Except.ok (right, l2), h2⟩ =>
            have a2 := (h2 _ _ rfl).1
            match parseAddLoop (some (Node.binaryExpr left "-" right)) l2 with
            | ⟨Except.error e, _⟩ => ⟨Except.error e, okBoundLe_err⟩
            | ⟨Except.ok (res, l3), h3⟩ =>
                have a3 := h3 _ _ rfl
                ⟨Except.ok (res, l3), okBoundLe_mk (by simp only [List.length_cons, List.length_tail] at *; omega)⟩
      else ⟨Except.ok (left, t :: rest), okBoundLe_mk (by simp)⟩
termination_by (l.length, 9)
decreasing_by
  all_goals first
    | (apply lex_of_le_of_lt <;> omega)
    | (apply Prod.Lex.left; omega)
    | (apply lex_of_le_of_lt <;> (simp only [List.length_cons, List.length_tail] at *; omega))
    | (apply Prod.Lex.left; simp only [List.length_cons, List.length_tail] at *; omega)
    | (apply lex_of_le_of_lt <;> (simp_all; omega))
    | (apply Prod.Lex.left; simp_all; omega)

/-- Multiplicative level: left fold over `*`, `/`, `%`. -/
def parseMultiplicativeExpression (l : List Token) : {r : PRes // okBound l r} :=
  match parsePrimaryExpression l with
  | ⟨Except.error e, _⟩ => ⟨Except.error e, okBound_err⟩
  | ⟨Except.ok (left, l2), h2⟩ =>
      have a2 := (h2 _ _ rfl).1
      match parseMulLoop left l2 with
      | ⟨Except.error e, _⟩ => ⟨Except.error e, okBound_err⟩
      | ⟨Except.ok (res, l3), h3⟩ =>
          have a3 := h3 _ _ rfl
          ⟨Except.ok (res, l3), okBound_mk (by omega)
            (fun hne => by have s := (h2 _ _ rfl).2 hne; omega)⟩
termination_by (l.length, 8)
decreasing_by
  all_goals first
    | (apply lex_of_le_of_lt <;> omega)
    | (apply Prod.Lex.left; omega)
    | (apply lex_of_le_of_lt <;> (simp only [List.length_cons, List.length_tail] at *; omega))
    | (apply Prod.Lex.left; simp only [List.length_cons, List.length_tail] at *; omega)
    | (apply lex_of_le_of_lt <;> (simp_all; omega))
    | (apply Prod.Lex.left; simp_all; omega)

def parseMulLoop (left : Option Node) (l : List Token) :
    {r : PRes // okBoundLe l r} :=
  match l with
  | [] => ⟨Except.ok (left, []), okBoundLe_mk (by simp)⟩
  | t :: rest =>
      if t.value = some "*" then
        match parsePrimaryExpression rest with
        | ⟨Except.error e, _⟩ => ⟨Except.error e, okBoundLe_err⟩
        | ⟨Except.ok (right, l2), h2⟩ =>
            have a2 := (h2 _ _ rfl).1
            match parseMulLoop (some (Node.binaryExpr left "*" right)) l2 with
            | ⟨Except.error e, _⟩ => ⟨Except.error e, okBoundLe_err⟩
            | ⟨Except.ok (res, l3), h3⟩ =>
                have a3 := h3 _ _ rfl
                ⟨Except.ok (res, l3), okBoundLe_mk (by simp only [List.length_cons, List.length_tail] at *; omega)⟩
      else if t.value = some "/" then
        match parsePrimaryExpression rest with
        | ⟨Except.error e, _⟩ => ⟨Except.error e, okBoundLe_err⟩
        | ⟨Except.ok (right, l2), h2⟩ =>
            have a2 := (h2 _ _ rfl).1
            match parseMulLoop (some (Node.binaryExpr left "/" right)) l2 with
            | ⟨Except.error e, _⟩ => ⟨Except.error e, okBoundLe_err⟩
            | ⟨Except.ok (res, l3), h3⟩ =>
                have a3 := h3 _ _ rfl
                ⟨Except.ok (res, l3), okBoundLe_mk (by simp only [List.length_cons, List.length_tail] at *; omega)⟩
      else if t.value = some "%" then
        match parsePrimaryExpression rest with
        | ⟨Except.error e, _⟩ => ⟨Except.error e, okBoundLe_err⟩
        | ⟨Except.ok (right, l2), h2⟩ =>
            have a2 := (h2 _ _ rfl).1
            match parseMulLoop (some (Node.binaryExpr left "%" right)) l2 with
            | ⟨Except.error e, _⟩ => ⟨Except.error e, okBoundLe_err⟩
            | ⟨Except.ok (res, l3), h3⟩ =>
                have a3 := h3 _ _ rfl
                ⟨Except.ok (res, l3), okBoundLe_mk (by simp only [List.length_cons, List.length_tail] at *; omega)⟩
      else ⟨Except.ok (left, t :: rest), okBoundLe_mk (by simp)⟩
termination_by (l.length, 7)
decreasing_by
  all_goals first
    | (apply lex_of_le_of_lt <;> omega)
    | (apply Prod.Lex.left; omega)
    | (apply lex_of_le_of_lt <;> (simp only [List.length_cons, List.length_tail] at *; omega))
    | (apply Prod.Lex.left; simp only [List.length_cons, List.length_tail] at *; omega)
    | (apply lex_of_le_of_lt <;> (simp_all; omega))
    | (apply Prod.Lex.left; simp_all; omega)

/-- `parsePrimaryExpression`: literals, identifiers (with one-token
lookahead for calls), parenthesized expressions, prefix `&`.  A `NUMBER`
token with a null value raises `TypeError` (`token.value.includes('.')`). -/
def parsePrimaryExpression (l : List Token) : {r : PRes // okBound l r} :=
  match l with
  | [] => ⟨Except.ok (none, []), okBound_mk (by simp) (fun h => absurd rfl h)⟩
  | t :: rest =>
      if t.type = TokenType.NUMBER then
        match t.value with
        | some s =>
            ⟨Except.ok (some (Node.literal (LitVal.num (jsParseFloat (some s)))
                (if s.toList.contains '.' then "float" else "int")), rest), okBound_mk (by simp only [List.length_cons, List.length_tail] at *; omega) (fun _ => by simp only [List.length_cons, List.length_tail] at *; omega)⟩
        | none => ⟨Except.error "TypeError", okBound_err⟩
      else if t.type = TokenType.STRING then
        ⟨Except.ok (some (Node.literal (LitVal.str t.value) "string"), rest), okBound_mk (by simp only [List.length_cons, List.length_tail] at *; omega) (fun _ => by simp only [List.length_cons, List.length_tail] at *; omega)⟩
      else if t.type = TokenType.IDENTIFIER then
        match rest.head? with
        | some next =>
            if next.value = some "(" then
              have st := List.length_tail rest
              match parseArgsLoop rest.tail with
              | ⟨Except.error e, _⟩ => ⟨Except.error e, okBound_err⟩
              | ⟨Except.ok (args, l3), h3⟩ =>
                  have a3 := h3 _ _ rfl
                  have sk := skipToken_length_le ";" l3
                  ⟨Except.ok (some (Node.functionCall t.value args),
                      skipToken ";" l3), okBound_mk (by simp only [List.length_cons, List.length_tail] at *; omega) (fun _ => by simp only [List.length_cons, List.length_tail] at *; omega)⟩
            else ⟨Except.ok (some (Node.identifier t.value), rest), okBound_mk (by simp only [List.length_cons, List.length_tail] at *; omega) (fun _ => by simp only [List.length_cons, List.length_tail] at *; omega)⟩
        | none => ⟨Except.ok (some (Node.identifier t.value), rest), okBound_mk (by simp only [List.length_cons, List.length_tail] at *; omega) (fun _ => by simp only [List.length_cons, List.length_tail] at *; omega)⟩
      else if t.value = some "(" then
        match parseExpression rest with
        | ⟨Except.error e, _⟩ => ⟨Except.error e, okBound_err⟩
        | ⟨Except.ok (e0, l2), h2⟩ =>
            have a2 := (h2 _ _ rfl).1
            have sk := skipToken_length_le ")" l2
            ⟨Except.ok (e0, skipToken ")" l2), okBound_mk (by simp only [List.length_cons, List.length_tail] at *; omega) (fun _ => by simp only [List.length_cons, List.length_tail] at *; omega)⟩
      else if t.value = some "&" then
        match parsePrimaryExpression rest with
        | ⟨Except.error e, _⟩ => ⟨Except.error e, okBound_err⟩
        | ⟨Except.ok (e0, l2), h2⟩ =>
            have a2 := (h2 _ _ rfl).1
            ⟨Except.ok (some (Node.unaryExpr "&" e0), l2), okBound_mk (by simp only [List.length_cons, List.length_tail] at *; omega) (fun _ => by simp only [List.length_cons, List.length_tail] at *; omega)⟩
      else ⟨Except.ok (none, rest), okBound_mk (by simp only [List.length_cons, List.length_tail] at *; omega) (fun _ => by simp only [List.length_cons, List.length_tail] at *; omega)⟩
termination_by (l.length, 5)
decreasing_by
  all_goals first
    | (apply lex_of_le_of_lt <;> omega)
    | (apply Prod.Lex.left; omega)
    | (apply lex_of_le_of_lt <;> (simp only [List.length_cons, List.length_tail] at *; omega))
    | (apply Prod.Lex.left; simp only [List.length_cons, List.length_tail] at *; omega)
    | (apply lex_of_le_of_lt <;> (simp_all; omega))
    | (apply Prod.Lex.left; simp_all; omega)

end

/-- `parse()`'s main loop: statements until the end of the tokens or an `EOF`
token; null statement results are not collected.  The bound counts both the
collected nodes and the remaining suffix: each iteration consumes at least
one token and contributes at most one node. -/
def parseProgramLoop (l : List Token) :
    {r : Except String (List Node × List Token) //
      ∀ ns rest, r = Except.ok (ns, rest) → ns.length + rest.length ≤ l.length} :=
  match l with
  | [] => ⟨Except.ok ([], []), by
      intro ns rest h
      injection h with h2
      injection h2 with ha hb
      subst ha; subst hb
      simp⟩
  | t :: rest =>
      if t.type = TokenType.EOF then
        ⟨Except.ok ([], t :: rest), by
          intro ns r h
          injection h with h2
          injection h2 with ha hb
          subst ha; subst hb
          simp⟩
      else
        match parseStatement (t :: rest) with
        | ⟨Except.error e, _⟩ => ⟨Except.error e, by intro ns r h; simp at h⟩
        | ⟨Except.ok (s0, l2), h2⟩ =>
            have b2 := (h2 _ _ rfl).2 (by simp)
            match parseProgramLoop l2 with
            | ⟨Except.error e, _⟩ => ⟨Except.error e, by intro ns r h; simp at h⟩
            | ⟨Except.ok (ns2, l3), h3⟩ =>
                have a3 := h3 _ _ rfl
                match s0 with
                | some s =>
                    ⟨Except.ok (s :: ns2, l3), by
                      intro ns r h
                      injection h with h2
                      injection h2 with ha hb
                      subst ha; subst hb
                      simp only [List.length_cons] at *
                      omega⟩
                | none =>
                    ⟨Except.ok (ns2, l3), by
                      intro ns r h
                      injection h with h2
                      injection h2 with ha hb
                      subst ha; subst hb
                      simp only [List.length_cons] at *
                      omega⟩
termination_by l.length
decreasing_by
  all_goals (simp only [List.length_cons] at *; omega)

/-- `parse(tokens)`: filter out newline tokens (the constructor), then run the
statement loop and wrap the collected nodes in the `Program` root. -/
def parse (tokens : List Token) : Except String Node :=
  match parseProgramLoop (tokens.filter (fun t =>
      match t.type with
      | TokenType.NEWLINE => false
      | _ => true)) with
  | ⟨Except.error e, _⟩ => Except.error e
  | ⟨Except.ok (body, _), _⟩ => Except.ok (Node.program body)

/-! # The code generators (`CodeGenerator`)

Both generators walk the AST recursively and build the output text.  A
statement whose emission applies a string method to a non-string JavaScript
value raises `TypeError` (the scanf emitters' `formatStr.value.includes(…)`
and the indentation-dialect printf's `pythonFormat.replace(…)`), so the
statement-level emitters return `Except String String`; expression emitters
never fault and return plain strings. -/

/-- A `string | null` value interpolated into output text (`null` prints as
`"null"`). -/
def optStr (o : Option String) : String :=
  match o with
  | some s => s
  | none => "null"

/-- `Array.prototype.join(sep)`. -/
def joinSep (sep : String) : List String → String
  | [] => ""
  | [s] => s
  | s :: rest => s ++ sep ++ joinSep sep rest

/-- `String.prototype.trim()`: strip `\s` from both ends. -/
def jsTrim (s : String) : String :=
  String.mk (((s.toList.dropWhile isJsWhitespace).reverse.dropWhile
    isJsWhitespace).reverse)

/-- `replace(/;\s*$/, "")`: drop a trailing semicolon and the whitespace
after it, when the string ends that way. -/
def stripSemiEnd (s : String) : String :=
  match s.toList.reverse.dropWhile isJsWhitespace with
  | ';' :: restRev => String.mk restRev.reverse
  | _ => s

/-- `replace(/"/g, '')`: remove every double quote. -/
def removeQuotes (s : String) : String :=
  String.mk (s.toList.filter (fun c => c.toNat != 34))

/-- `replace(/\\n/g, '')`: remove every literal backslash-`n` pair. -/
def stripBackslashN : List Char → List Char
  | [] => []
  | '\\' :: 'n' :: rest => stripBackslashN rest
  | c :: rest => c :: stripBackslashN rest

/-- `String.prototype.includes(sub)` on character lists: `isSubAt` is the
prefix test. -/
def isSubAt : List Char → List Char → Bool
  | [], _ => true
  | _ :: _, [] => false
  | a :: as, b :: bs => a == b && isSubAt as bs

def containsSub (sub : List Char) : List Char → Bool
  | [] => sub.isEmpty
  | c :: rest => isSubAt sub (c :: rest) || containsSub sub rest

/-- The string rendering of a `Literal`'s stored value (JavaScript
`String(value)`; `null` renders as `"null"`). -/
def jsLitValStr : LitVal → String
  | LitVal.num j => jsNumToString j
  | LitVal.str s => optStr s

/-- The generators' well-formed-`Program` test: `ast.body` must exist and be
an array.  `Program`, `Function` and `Block` nodes carry an array `body`;
every other node's `body` is missing (or, for loop bodies, a single node). -/
def bodyArr : Node → Option (List Node)
  | Node.program b => some b
  | Node.functionDef _ _ _ b => some b
  | Node.block b => some b
  | _ => none

/-- A node's `.value` field, when the node has one and it is a truthy
JavaScript value (`0`, `NaN`, `""`, `null` and a missing field are falsy). -/
def nodeValueTruthy : Node → Bool
  | Node.literal (LitVal.str (some s)) _ => if s = "" then false else true
  | Node.literal (LitVal.str none) _ => false
  | Node.literal (LitVal.num JNum.nan) _ => false
  | Node.literal (LitVal.num (JNum.jval m _)) _ => if m = 0 then false else true
  | Node.varDecl _ _ (some _) => true
  | Node.assignment _ _ (some _) => true
  | Node.returnStmt (some _) => true
  | _ => false

/-- A node's `.value` field as a string, when it is one (the only case in
which `value.includes(…)`/`value.replace(…)` do not raise `TypeError`). -/
def nodeValueStr : Node → Option String
  | Node.literal (LitVal.str (some s)) _ => some s
  | _ => none

/-- A node's `.name` field (`none` = the field is missing). -/
def nodeNameField : Node → Option (Option String)
  | Node.functionDef _ n _ _ => some n
  | Node.varDecl _ n _ => some n
  | Node.functionCall n _ => some n
  | Node.identifier n => some n
  | _ => none

/-- A node's `.identifier` field (`none` = the field is missing). -/
def nodeIdentifierField : Node → Option (Option String)
  | Node.assignment i _ _ => some i
  | _ => none

/-- Interpolation of a possibly-missing `string | null` field
(`undefined` prints as `"undefined"`). -/
def displayField : Option (Option String) → String
  | none => "undefined"
  | some none => "null"
  | some (some s) => s

/-- `node.init.name || node.init.identifier` in the indentation-dialect
for-loop emitter, as the interpolated loop-variable text. -/
def initVarText (init : Node) : String :=
  match nodeNameField init with
  | some (some s) => if s = "" then displayField (nodeIdentifierField init) else s
  | _ => displayField (nodeIdentifierField init)

/-- `mapJavaType`. -/
def mapJavaType (cType : Option String) : String :=
  if cType = some "int" then "int"
  else if cType = some "float" then "float"
  else if cType = some "double" then "double"
  else if cType = some "char" then "char"
  else if cType = some "void" then "void"
  else if cType = some "long" then "long"
  else if cType = some "short" then "short"
  else if cType = some "bool" then "boolean"
  else "Object"

/-- `getDefaultValue` (keyed by the mapped Java type). -/
def getDefaultValue (javaType : String) : String :=
  if javaType = "int" then "0"
  else if javaType = "float" then "0.0f"
  else if javaType = "double" then "0.0"
  else if javaType = "char" then "'\\0'"
  else if javaType = "boolean" then "false"
  else if javaType = "long" then "0L"
  else if javaType = "short" then "0"
  else "null"

/-- `getPythonDefaultValue` (keyed by the C type). -/
def getPythonDefaultValue (cType : Option String) : String :=
  if cType = some "int" then "0"
  else if cType = some "float" then "0.0"
  else if cType = some "double" then "0.0"
  else if cType = some "char" then "''"
  else if cType = some "void" then "None"
  else if cType = some "long" then "0"
  else if cType = some "short" then "0"
  else "None"

/-! ## The typed-block (Java) generator -/

mutual

/-- `generateJavaStatements`: concatenate the statements' code. -/
def generateJavaStatements (statements : List Node) (indent : String) :
    Except String String :=
  match statements with
  | [] => Except.ok ""
  | s :: rest =>
      match generateJavaStatement s indent with
      | Except.error e => Except.error e
      | Except.ok c1 =>
          match generateJavaStatements rest indent with
          | Except.error e => Except.error e
          | Except.ok c2 => Except.ok (c1 ++ c2)

/-- `generateJavaStatement`: one statement's code (unknown nodes emit
nothing). -/
def generateJavaStatement (node : Node) (indent : String) :
    Except String String :=
  match node with
  | Node.varDecl dataType name value =>
      Except.ok (indent ++ mapJavaType dataType ++ " " ++ optStr name ++ " = " ++
        (match value with
         | some v => generateJavaExpression (some v)
         | none => getDefaultValue (mapJavaType dataType)) ++ ";\n")
  | Node.assignment identV op value =>
      if op = "++" ∨ op = "--" then
        Except.ok (indent ++ optStr identV ++ op ++ ";\n")
      else
        Except.ok (indent ++ optStr identV ++ " " ++ op ++ " " ++
          generateJavaExpression value ++ ";\n")
  | Node.printfStmt args => generateJavaPrintf args indent
  | Node.scanfStmt args => generateJavaScanf args indent
  | Node.functionCall name args =>
      Except.ok (indent ++ optStr name ++ "(" ++
        joinSep ", " (generateJavaExpressionList args) ++ ");\n")
  | Node.ifStmt c t e => generateJavaIfStatement (Node.ifStmt c t e) indent
  | Node.whileLoop cond body =>
      match (match body with
             | some (Node.block b) => generateJavaStatements b (indent ++ "    ")
             | some other => generateJavaStatement other (indent ++ "    ")
             | none => Except.ok "") with
      | Except.error e => Except.error e
      | Except.ok bodyCode =>
          Except.ok (indent ++ "while (" ++ generateJavaExpression cond ++ ") \x7b\n" ++
            bodyCode ++ indent ++ "\x7d\n")
  | Node.forLoop i c u b => generateJavaForLoop (Node.forLoop i c u b) indent
  | Node.returnStmt value =>
      Except.ok (indent ++ "return " ++
        (match value with
         | some v => generateJavaExpression (some v)
         | none => "") ++ ";\n")
  | Node.block body => generateJavaStatements body indent
  | _ => Except.ok ""

/-- `generateJavaIfStatement` (an `else if` chain re-enters this function with
a trimmed, re-indented header). -/
def generateJavaIfStatement (node : Node) (indent : String) :
    Except String String :=
  match node with
  | Node.ifStmt cond thenS elseS =>
      match (match thenS with
             | some (Node.block b) => generateJavaStatements b (indent ++ "    ")
             | some other => generateJavaStatement other (indent ++ "    ")
             | none => Except.ok "") with
      | Except.error e => Except.error e
      | Except.ok thenCode =>
          match elseS with
          | none =>
              Except.ok (indent ++ "if (" ++ generateJavaExpression cond ++ ") \x7b\n" ++
                thenCode ++ indent ++ "\x7d" ++ "\n")
          | some els =>
              match (match els with
                     | Node.block b => generateJavaStatements b (indent ++ "    ")
                     | Node.ifStmt c2 t2 e2 =>
                         match generateJavaIfStatement (Node.ifStmt c2 t2 e2) "" with
                         | Except.error e => Except.error e
                         | Except.ok inner =>
                             Except.ok (indent ++ "    " ++ jsTrim inner ++ "\n")
                     | other => generateJavaStatement other (indent ++ "    ")) with
              | Except.error e => Except.error e
              | Except.ok elseCode =>
                  Except.ok (indent ++ "if (" ++ generateJavaExpression cond ++ ") \x7b\n" ++
                    thenCode ++ indent ++ "\x7d" ++ " else \x7b\n" ++ elseCode ++
                    indent ++ "\x7d" ++ "\n")
  | _ => Except.ok (indent ++ "if () \x7b\n" ++ indent ++ "\x7d" ++ "\n")

/-- `generateJavaForLoop`. -/
def generateJavaForLoop (node : Node) (indent : String) :
    Except String String :=
  match node with
  | Node.forLoop init cond upd body =>
      match (match init with
             | some i => generateJavaStatement i ""
             | none => Except.ok "") with
      | Except.error e => Except.error e
      | Except.ok initRaw =>
          match (match body with
                 | some (Node.block b) => generateJavaStatements b (indent ++ "    ")
                 | some other => generateJavaStatement other (indent ++ "    ")
                 | none => Except.ok "") with
          | Except.error e => Except.error e
          | Except.ok bodyCode =>
              Except.ok (indent ++ "for (" ++
                (match init with
                 | some _ => jsTrim (stripSemiEnd initRaw)
                 | none => "") ++ "; " ++
                (match cond with
                 | some c => generateJavaExpression (some c)
                 | none => "") ++ "; " ++
                (match upd with
                 | some u => generateJavaExpression (some u)
                 | none => "") ++ ") \x7b\n" ++ bodyCode ++ indent ++ "\x7d\n")
  | _ =>
      Except.ok (indent ++ "for (; ; ) \x7b\n" ++ indent ++ "\x7d\n")

/-- `generateJavaPrintf` (never faults: the format text is the already
rendered first argument). -/
def generateJavaPrintf (args : List Node) (indent : String) :
    Except String String :=
  match args with
  | [] => Except.ok (indent ++ "System.out.println();\n")
  | a0 :: rest =>
      if rest.length > 0 then
        Except.ok (indent ++ "System.out.printf(" ++
          generateJavaExpression (some a0) ++ ", " ++
          joinSep ", " (generateJavaExpressionList rest) ++ ");\n")
      else
        if containsSub ['%']
            (stripBackslashN (removeQuotes (generateJavaExpression (some a0))).toList) then
          Except.ok (indent ++ "System.out.printf(" ++
            generateJavaExpression (some a0) ++ ");\n")
        else
          Except.ok (indent ++ "System.out.println(" ++
            generateJavaExpression (some a0) ++ ");\n")

/-- `generateJavaScanf`: fewer than two arguments yields a placeholder
comment; a non-string truthy `value` on the format node faults
(`formatStr.value.includes('%d')`). -/
def generateJavaScanf (args : List Node) (indent : String) :
    Except String String :=
  match args with
  | a0 :: a1 :: _ =>
      if nodeValueTruthy a0 then
        match nodeValueStr a0 with
        | some s =>
            if containsSub ['%', 'd'] s.toList then
              Except.ok (indent ++ generateJavaExpression (some a1) ++
                " = scanner.nextInt();\n")
            else if containsSub ['%', 'f'] s.toList then
              Except.ok (indent ++ generateJavaExpression (some a1) ++
                " = scanner.nextFloat();\n")
            else if containsSub ['%', 's'] s.toList then
              Except.ok (indent ++ generateJavaExpression (some a1) ++
                " = scanner.next();\n")
            else
              Except.ok (indent ++ generateJavaExpression (some a1) ++
                " = scanner.nextInt();\n")
        | none => Except.error "TypeError"
      else
        Except.ok (indent ++ generateJavaExpression (some a1) ++
          " = scanner.nextInt();\n")
  | _ => Except.ok (indent ++ "// Scanner input needed\n")

/-- `generateJavaExpression` (total; a `null` expression prints as empty;
the non-null case is `generateJavaExpressionN`). -/
def generateJavaExpression (expr : Option Node) : String :=
  match expr with
  | none => ""
  | some e => generateJavaExpressionN e

def generateJavaExpressionN (e : Node) : String :=
  match e with
  | Node.literal v dt =>
      if dt = "string" then "\"" ++ jsLitValStr v ++ "\"" else jsLitValStr v
  | Node.identifier name => optStr name
  | Node.binaryExpr left op right =>
      generateJavaExpression left ++ " " ++ op ++ " " ++ generateJavaExpression right
  | Node.unaryExpr op operand =>
      if op = "&" then generateJavaExpression operand
      else op ++ generateJavaExpression operand
  | Node.functionCall name args =>
      optStr name ++ "(" ++ joinSep ", " (generateJavaExpressionList args) ++ ")"
  | _ => ""

/-- The `args.map(arg => generateJavaExpression(arg))` mappings. -/
def generateJavaExpressionList (args : List Node) : List String :=
  match args with
  | [] => []
  | a :: rest => generateJavaExpressionN a :: generateJavaExpressionList rest

end

/-- `generateJava`'s per-node loop over the root's body, accumulating the
class content and whether a `main` function was seen. -/
def generateJavaProgramLoop (body : List Node) : Except String (String × Bool) :=
  match body with
  | [] => Except.ok ("", false)
  | n :: rest =>
      match (match n with
             | Node.includeDir _ => Except.ok ("", false)
             | Node.functionDef returnType name params fbody =>
                 if name = some "main" then
                   match generateJavaStatements fbody "        " with
                   | Except.error e => Except.error e
                   | Except.ok inner =>
                       Except.ok ("    public static void main(String[] args) \x7b\n" ++
                         "        Scanner scanner = new Scanner(System.in);\n" ++
                         inner ++
                         "        scanner.close();\n" ++
                         "    \x7d\n\n", true)
                 else
                   match generateJavaStatements fbody "        " with
                   | Except.error e => Except.error e
                   | Except.ok inner =>
                       Except.ok ("    public static " ++ mapJavaType returnType ++
                         " " ++ optStr name ++ "(" ++
                         joinSep ", "
                           (params.map (fun p => mapJavaType (some p.type) ++ " " ++
                             optStr p.name)) ++ ") \x7b\n" ++
                         inner ++ "    \x7d\n\n", false)
             | other =>
                 match generateJavaStatement other "    " with
                 | Except.error e => Except.error e
                 | Except.ok c => Except.ok (c, false)) with
      | Except.error e => Except.error e
      | Except.ok (c1, h1) =>
          match generateJavaProgramLoop rest with
          | Except.error e => Except.error e
          | Except.ok (c2, h2) => Except.ok (c1 ++ c2, h1 || h2)

/-- `generateJava` on a well-formed root body: the emitted class content,
wrapped in the `Main` class boilerplate when a `main` function is present. -/
def generateJavaFromBody (body : List Node) : Except String String :=
  match generateJavaProgramLoop body with
  | Except.error e => Except.error e
  | Except.ok (classContent, hasMain) =>
      if hasMain then
        Except.ok ("import java.util.Scanner;" ++ "\n\n" ++
          "public class Main \x7b\n" ++ classContent ++ "\x7d")
      else Except.ok classContent

/-- `generateJava`: a malformed root (no array `body`) yields the single
diagnostic comment line; otherwise the body is emitted via
`generateJavaFromBody`. -/
def generateJava (ast : Node) : Except String String :=
  match bodyArr ast with
  | none => Except.ok "// Error: Invalid AST structure"
  | some body => generateJavaFromBody body

/-! ## The indentation-dialect (Python) generator -/

/-- `%d`/`%s`/`%f`/`%c` → `{}` (the four global replacements; the patterns
are disjoint, so one left-to-right scan agrees with the sequential passes). -/
def pyFormatReplace : List Char → List Char
  | [] => []
  | '%' :: 'd' :: rest => '\x7b' :: '\x7d' :: pyFormatReplace rest
  | '%' :: 's' :: rest => '\x7b' :: '\x7d' :: pyFormatReplace rest
  | '%' :: 'f' :: rest => '\x7b' :: '\x7d' :: pyFormatReplace rest
  | '%' :: 'c' :: rest => '\x7b' :: '\x7d' :: pyFormatReplace rest
  | c :: rest => c :: pyFormatReplace rest

/-- `node.init.value ? generatePythonExpression(node.init.value) : "0"` —
the initializer's start value text (a non-node `value`, as a `Literal`
carries, reaches `generatePythonExpression` as a non-AST value and renders
empty when truthy). -/
def pyStartVal (init : Node) (pyExprText : Option Node → String) : String :=
  match init with
  | Node.varDecl _ _ (some v) => pyExprText (some v)
  | Node.assignment _ _ (some v) => pyExprText (some v)
  | Node.returnStmt (some v) => pyExprText (some v)
  | Node.literal lv _ =>
      match lv with
      | LitVal.num JNum.nan => "0"
      | LitVal.num (JNum.jval m _) => if m = 0 then "0" else ""
      | LitVal.str none => "0"
      | LitVal.str (some s) => if s = "" then "0" else ""
  | _ => "0"

mutual

/-- `generatePythonExpression` (total; the non-null case is
`generatePythonExpressionN`). -/
def generatePythonExpression (expr : Option Node) : String :=
  match expr with
  | none => ""
  | some e => generatePythonExpressionN e

def generatePythonExpressionN (e : Node) : String :=
  match e with
  | Node.literal v dt =>
      if dt = "string" then "\"" ++ jsLitValStr v ++ "\"" else jsLitValStr v
  | Node.identifier name => optStr name
  | Node.binaryExpr left op right =>
      generatePythonExpression left ++ " " ++
        (if op = "&&" then "and" else if op = "||" then "or" else op) ++ " " ++
        generatePythonExpression right
  | Node.unaryExpr op operand =>
      if op = "&" then generatePythonExpression operand
      else op ++ generatePythonExpression operand
  | Node.functionCall name args =>
      optStr name ++ "(" ++ joinSep ", " (generatePythonExpressionList args) ++ ")"
  | _ => ""

def generatePythonExpressionList (args : List Node) : List String :=
  match args with
  | [] => []
  | a :: rest => generatePythonExpressionN a :: generatePythonExpressionList rest

end

mutual

/-- `generatePythonStatements`: concatenate the statements whose code is
nonblank; emit `pass` when nothing was. -/
def generatePythonStatements (statements : List Node) (indent : String) :
    Except String String :=
  match generatePythonStatementsLoop statements indent with
  | Except.error e => Except.error e
  | Except.ok (code, hasContent) =>
      Except.ok (if hasContent then code else code ++ indent ++ "pass\n")

def generatePythonStatementsLoop (statements : List Node) (indent : String) :
    Except String (String × Bool) :=
  match statements with
  | [] => Except.ok ("", false)
  | s :: rest =>
      match generatePythonStatement s indent with
      | Except.error e => Except.error e
      | Except.ok c1 =>
          match generatePythonStatementsLoop rest indent with
          | Except.error e => Except.error e
          | Except.ok (c2, h2) =>
              if jsTrim c1 = "" then Except.ok (c2, h2)
              else Except.ok (c1 ++ c2, true)

/-- `generatePythonStatement`. -/
def generatePythonStatement (node : Node) (indent : String) :
    Except String String :=
  match node with
  | Node.varDecl dataType name value =>
      Except.ok (indent ++ optStr name ++ " = " ++
        (match value with
         | some v => generatePythonExpression (some v)
         | none => getPythonDefaultValue dataType) ++ "\n")
  | Node.assignment identV op value =>
      if op = "++" then Except.ok (indent ++ optStr identV ++ " += 1\n")
      else if op = "--" then Except.ok (indent ++ optStr identV ++ " -= 1\n")
      else
        Except.ok (indent ++ optStr identV ++ " " ++ op ++ " " ++
          generatePythonExpression value ++ "\n")
  | Node.printfStmt args => generatePythonPrintf args indent
  | Node.scanfStmt args => generatePythonScanf args indent
  | Node.functionCall name args =>
      Except.ok (indent ++ optStr name ++ "(" ++
        joinSep ", " (generatePythonExpressionList args) ++ ")\n")
  | Node.ifStmt c t e => generatePythonIfStatement (Node.ifStmt c t e) indent
  | Node.whileLoop cond body =>
      match (match body with
             | some (Node.block b) => generatePythonStatements b (indent ++ "    ")
             | some other => generatePythonStatement other (indent ++ "    ")
             | none => Except.ok "") with
      | Except.error e => Except.error e
      | Except.ok bodyCode =>
          Except.ok (indent ++ "while " ++ generatePythonExpression cond ++ ":\n" ++
            bodyCode)
  | Node.forLoop i c u b => generatePythonForLoop (Node.forLoop i c u b) indent
  | Node.returnStmt value =>
      Except.ok (indent ++ "return " ++
        (match value with
         | some v => generatePythonExpression (some v)
         | none => "") ++ "\n")
  | Node.block body => generatePythonStatements body indent
  | _ => Except.ok ""

/-- `generatePythonIfStatement` (`elif` chains re-enter with a trimmed
header). -/
def generatePythonIfStatement (node : Node) (indent : String) :
    Except String String :=
  match node with
  | Node.ifStmt cond thenS elseS =>
      match (match thenS with
             | some (Node.block b) => generatePythonStatements b (indent ++ "    ")
             | some other => generatePythonStatement other (indent ++ "    ")
             | none => Except.ok "") with
      | Except.error e => Except.error e
      | Except.ok thenCode =>
          match elseS with
          | none =>
              Except.ok (indent ++ "if " ++ generatePythonExpression cond ++ ":\n" ++
                thenCode)
          | some (Node.ifStmt c2 t2 e2) =>
              match generatePythonIfStatement (Node.ifStmt c2 t2 e2) "" with
              | Except.error e => Except.error e
              | Except.ok inner =>
                  Except.ok (indent ++ "if " ++ generatePythonExpression cond ++ ":\n" ++
                    thenCode ++ indent ++ "el" ++ jsTrim inner ++ "\n")
          | some (Node.block b) =>
              match generatePythonStatements b (indent ++ "    ") with
              | Except.error e => Except.error e
              | Except.ok elseCode =>
                  Except.ok (indent ++ "if " ++ generatePythonExpression cond ++ ":\n" ++
                    thenCode ++ indent ++ "else:\n" ++ elseCode)
          | some other =>
              match generatePythonStatement other (indent ++ "    ") with
              | Except.error e => Except.error e
              | Except.ok elseCode =>
                  Except.ok (indent ++ "if " ++ generatePythonExpression cond ++ ":\n" ++
                    thenCode ++ indent ++ "else:\n" ++ elseCode)
  | _ => Except.ok (indent ++ "if " ++ ":\n")

/-- `generatePythonForLoop`: a three-clause loop becomes a bounded counting
iteration (`<` keeps the bound, `<=` appends `+ 1`, anything else counts to
`10`); otherwise a placeholder comment. -/
def generatePythonForLoop (node : Node) (indent : String) :
    Except String String :=
  match node with
  | Node.forLoop (some init) (some cond) (some upd) body =>
      match (match body with
             | some (Node.block b) => generatePythonStatements b (indent ++ "    ")
             | some other => generatePythonStatement other (indent ++ "    ")
             | none => Except.ok "") with
      | Except.error e => Except.error e
      | Except.ok bodyCode =>
          Except.ok (indent ++ "for " ++ initVarText init ++ " in range(" ++
            pyStartVal init generatePythonExpression ++ ", " ++
            (match cond with
             | Node.binaryExpr _ op right =>
                 if op = "<" then generatePythonExpression right
                 else if op = "<=" then generatePythonExpression right ++ " + 1"
                 else "10"
             | _ => "10") ++ "):\n" ++ bodyCode)
  | _ => Except.ok (indent ++ "# For loop conversion needed\n")

/-- `generatePythonPrintf`: with extra arguments the format text must be a
truthy string `value` (`pythonFormat.replace` faults otherwise). -/
def generatePythonPrintf (args : List Node) (indent : String) :
    Except String String :=
  match args with
  | [] => Except.ok (indent ++ "print()\n")
  | a0 :: rest =>
      if rest.length > 0 then
        if nodeValueTruthy a0 then
          match nodeValueStr a0 with
          | some s =>
              Except.ok (indent ++ "print(\"" ++
                String.mk (pyFormatReplace s.toList) ++ "\".format(" ++
                joinSep ", " (generatePythonExpressionList rest) ++ "))\n")
          | none => Except.error "TypeError"
        else Except.error "TypeError"
      else
        Except.ok (indent ++ "print(" ++ generatePythonExpression (some a0) ++ ")\n")

/-- `generatePythonScanf`. -/
def generatePythonScanf (args : List Node) (indent : String) :
    Except String String :=
  match args with
  | a0 :: a1 :: _ =>
      if nodeValueTruthy a0 then
        match nodeValueStr a0 with
        | some s =>
            if containsSub ['%', 'd'] s.toList then
              Except.ok (indent ++ generatePythonExpression (some a1) ++
                " = int(input())\n")
            else if containsSub ['%', 'f'] s.toList then
              Except.ok (indent ++ generatePythonExpression (some a1) ++
                " = float(input())\n")
            else if containsSub ['%', 's'] s.toList then
              Except.ok (indent ++ generatePythonExpression (some a1) ++
                " = input()\n")
            else
              Except.ok (indent ++ generatePythonExpression (some a1) ++
                " = int(input())\n")
        | none => Except.error "TypeError"
      else
        Except.ok (indent ++ generatePythonExpression (some a1) ++
          " = int(input())\n")
  | _ => Except.ok (indent ++ "# Input needed\n")

end

/-- `generatePython`'s per-node loop (`null` parameter names join as empty
text, as `Array.prototype.join` renders them). -/
def generatePythonProgramLoop (body : List Node) : Except String (String × Bool) :=
  match body with
  | [] => Except.ok ("", false)
  | n :: rest =>
      match (match n with
             | Node.includeDir _ => Except.ok ("", false)
             | Node.functionDef _ name params fbody =>
                 if name = some "main" then
                   match generatePythonStatements fbody "    " with
                   | Except.error e => Except.error e
                   | Except.ok inner =>
                       Except.ok ("def main():\n" ++ inner ++ "\n", true)
                 else
                   match generatePythonStatements fbody "    " with
                   | Except.error e => Except.error e
                   | Except.ok inner =>
                       Except.ok ("def " ++ optStr name ++ "(" ++
                         joinSep ", " (params.map (fun p => p.name.getD "")) ++
                         "):\n" ++ inner ++ "\n", false)
             | other =>
                 match generatePythonStatement other "" with
                 | Except.error e => Except.error e
                 | Except.ok c => Except.ok (c, false)) with
      | Except.error e => Except.error e
      | Except.ok (c1, h1) =>
          match generatePythonProgramLoop rest with
          | Except.error e => Except.error e
          | Except.ok (c2, h2) => Except.ok (c1 ++ c2, h1 || h2)

/-- `generatePython` on a well-formed root body: the emitted module text,
with the `if __name__` entry stanza when a `main` function is present. -/
def generatePythonFromBody (body : List Node) : Except String String :=
  match generatePythonProgramLoop body with
  | Except.error e => Except.error e
  | Except.ok (pythonCode, hasMain) =>
      if hasMain then
        Except.ok (pythonCode ++ "if __name__ == \"__main__\":\n    main()\n")
      else Except.ok pythonCode

/-- `generatePython`: a malformed root yields the single diagnostic comment
line; otherwise the body is emitted via `generatePythonFromBody`. -/
def generatePython (ast : Node) : Except String String :=
  match bodyArr ast with
  | none => Except.ok "# Error: Invalid AST structure"
  | some body => generatePythonFromBody body

/-- Decidable test for a token being an `EOF` token (by type). -/
def isEofTok (t : Token) : Bool :=
  match t.type with
  | TokenType.EOF => true
  | _ => false

/-- Whether the character list contains an adjacent `*/` pair (a block-comment
terminator that `skipMultiLineComment`'s scan can find). -/
def hasCommentClose : List Char -> Bool
  | [] => false
  | [_] => false
  | a :: b :: rest => (a = '*' && b = '/') || hasCommentClose (b :: rest)

mutual

/-- Whether any `IfStatement` node anywhere in the tree carries a non-null
`elseBranch`. -/
def anyIfHasElse : Node -> Bool
  | Node.program body => anyIfHasElseList body
  | Node.includeDir _ => false
  | Node.functionDef _ _ _ body => anyIfHasElseList body
  | Node.varDecl _ _ v => anyIfHasElseOpt v
  | Node.block body => anyIfHasElseList body
  | Node.ifStmt c t e =>
      (match e with | some _ => true | none => false) ||
      anyIfHasElseOpt c || anyIfHasElseOpt t || anyIfHasElseOpt e
  | Node.whileLoop c b => anyIfHasElseOpt c || anyIfHasElseOpt b
  | Node.forLoop i c u b =>
      anyIfHasElseOpt i || anyIfHasElseOpt c || anyIfHasElseOpt u || anyIfHasElseOpt b
  | Node.returnStmt v => anyIfHasElseOpt v
  | Node.printfStmt args => anyIfHasElseList args
  | Node.scanfStmt args => anyIfHasElseList args
  | Node.functionCall _ args => anyIfHasElseList args
  | Node.assignment _ _ v => anyIfHasElseOpt v
  | Node.binaryExpr l _ r => anyIfHasElseOpt l || anyIfHasElseOpt r
  | Node.unaryExpr _ v => anyIfHasElseOpt v
  | Node.literal _ _ => false
  | Node.identifier _ => false

/-- `anyIfHasElse` on an optional node. -/
def anyIfHasElseOpt : Option Node -> Bool
  | none => false
  | some n => anyIfHasElse n

/-- `anyIfHasElse` on a node list. -/
def anyIfHasElseList : List Node -> Bool
  | [] => false
  | n :: rest => anyIfHasElse n || anyIfHasElseList rest

end

/-! # Theorems -/

/-- Every token produced by the main tokenizer loop has a type other than `EOF`:
the loop only constructs `KEYWORD`, `IDENTIFIER`, `NUMBER`, `STRING`, `OPERATOR`,
`DELIMITER` and `NEWLINE` tokens. (Strong induction on the length of the input.) -/
theorem tokenizeLoop_no_eof_aux :
    ∀ n cs lc, List.length cs ≤ n → ∀ t ∈ tokenizeLoop cs lc, t.type ≠ TokenType.EOF := by
  intro n
  induction n with
  | zero =>
      intro cs lc hle t ht
      have hcs : cs = [] := List.length_eq_zero.mp (Nat.le_zero.mp hle)
      subst hcs
      rw [tokenizeLoop.eq_def] at ht
      simp [skipWhitespace] at ht
  | succ n ih =>
      intro cs lc hle t ht
      rw [tokenizeLoop.eq_def] at ht
      split at ht
      · simp at ht
      · rename_i c rest hsw
        have hlen : rest.length + 1 ≤ cs.length := by
          have := skipWhitespace_length_le cs
          rw [hsw] at this
          simpa using this
        split at ht
        · rename_i h1
          refine ih _ _ ?_ t ht
          obtain ⟨rfl, -⟩ := h1
          rw [skipSingleLineComment_cons '/' rest (by decide)]
          have := skipSingleLineComment_length_le rest
          omega
        · split at ht
          · refine ih _ _ ?_ t ht
            have := skipMultiLineComment_length_le rest.tail
            have := List.length_tail rest
            omega
          · split at ht
            · rcases List.mem_cons.mp ht with rfl | ht2
              · simp only [ne_eq]
                split <;> simp
              · refine ih _ _ ?_ t ht2
                have := dropWhile_len_le isIdentChar rest
                omega
            · split at ht
              · rcases List.mem_cons.mp ht with rfl | ht2
                · simp
                · refine ih _ _ ?_ t ht2
                  have := readNumber_length_le rest false
                  omega
              · split at ht
                · rcases List.mem_cons.mp ht with rfl | ht2
                  · simp
                  · refine ih _ _ ?_ t ht2
                    have := readString_length_le '"' rest
                    omega
                · split at ht
                  · rcases List.mem_cons.mp ht with rfl | ht2
                    · simp
                    · refine ih _ _ ?_ t ht2
                      have := readString_length_le '\'' rest
                      omega
                  · split at ht
                    · rcases List.mem_cons.mp ht with rfl | ht2
                      · simp
                      · refine ih _ _ ?_ t ht2
                        have := readOperator_length_le c rest
                        omega
                    · split at ht
                      · rcases List.mem_cons.mp ht with rfl | ht2
                        · simp
                        · exact ih _ _ (by omega) t ht2
                      · split at ht
                        · rcases List.mem_cons.mp ht with rfl | ht2
                          · simp
                          · exact ih _ _ (by omega) t ht2
                        · exact ih _ _ (by omega) t ht

/-- The main tokenizer loop never emits an `EOF` token. -/
theorem tokenizeLoop_no_eof (cs : List Char) (lc : Nat × Nat) :
    ∀ t ∈ tokenizeLoop cs lc, t.type ≠ TokenType.EOF :=
  tokenizeLoop_no_eof_aux cs.length cs lc (Nat.le_refl _)

/-- C1: for every finite input string, `tokenize` (a total Lean function)
returns a token sequence whose last element is the `EOF` token with value
`null` (`none`), and no other token of the sequence has type `EOF`: the list
of `EOF`-typed tokens in the output has length exactly one. -/
theorem tokenize_ends_in_unique_eof (code : String) :
    (tokenize code).getLast? = some eofToken ∧
    eofToken.value = none ∧
    ((tokenize code).filter isEofTok).length = 1 := by
  refine ⟨?_, rfl, ?_⟩
  · rw [tokenize, List.getLast?_concat]
  · rw [tokenize, List.filter_append]
    have h1 : (tokenizeLoop code.toList (1, 1)).filter isEofTok = [] := by
      rw [List.filter_eq_nil]
      intro t ht
      have hne := tokenizeLoop_no_eof code.toList (1, 1) t ht
      cases htt : t.type <;>
        first
          | exact absurd htt hne
          | simp [isEofTok, htt]
    rw [h1]
    rfl
theorem tokenizeLoop_strip_lc_aux :
    ∀ n cs, List.length cs ≤ n → ∀ lcA lcB : Nat × Nat,
      (tokenizeLoop cs lcA).map (fun t => (t.type, t.value)) =
      (tokenizeLoop cs lcB).map (fun t => (t.type, t.value)) := by
  intro n
  induction n with
  | zero =>
      intro cs hle lcA lcB
      have hcs : cs = [] := List.length_eq_zero.mp (Nat.le_zero.mp hle)
      subst hcs
      rw [tokenizeLoop.eq_def, tokenizeLoop.eq_def]
      simp [skipWhitespace]
  | succ n ih =>
      intro cs hle lcA lcB
      rw [tokenizeLoop.eq_def, tokenizeLoop.eq_def]
      split
      · rfl
      · rename_i c rest hsw
        have hlen : rest.length + 1 ≤ cs.length := by
          have := skipWhitespace_length_le cs
          rw [hsw] at this
          simpa using this
        by_cases h1 : c = '/' ∧ rest.head? = some '/'
        · simp only [if_pos h1]
          refine ih _ ?_ _ _
          obtain ⟨rfl, -⟩ := h1
          rw [skipSingleLineComment_cons '/' rest (by decide)]
          have := skipSingleLineComment_length_le rest
          omega
        · simp only [if_neg h1]
          by_cases h2 : c = '/' ∧ rest.head? = some '*'
          · simp only [if_pos h2]
            refine ih _ ?_ _ _
            have := skipMultiLineComment_length_le rest.tail
            have := List.length_tail rest
            omega
          · simp only [if_neg h2]
            by_cases h3 : (isLetter c || decide (c.toNat = 95)) = true
            · simp only [if_pos h3, List.map_cons]
              refine congrArg _ (ih _ ?_ _ _)
              have := dropWhile_len_le isIdentChar rest
              omega
            · simp only [if_neg h3]
              by_cases h4 : isDigit c = true
              · simp only [if_pos h4, List.map_cons]
                refine congrArg _ (ih _ ?_ _ _)
                have := readNumber_length_le rest false
                omega
              · simp only [if_neg h4]
                by_cases h5 : c = '"'
                · simp only [if_pos h5, List.map_cons]
                  refine congrArg _ (ih _ ?_ _ _)
                  have := readString_length_le '"' rest
                  omega
                · simp only [if_neg h5]
                  by_cases h6 : c = '\''
                  · simp only [if_pos h6, List.map_cons]
                    refine congrArg _ (ih _ ?_ _ _)
                    have := readString_length_le '\'' rest
                    omega
                  · simp only [if_neg h6]
                    by_cases h7 : isOperator c = true
                    · simp only [if_pos h7, List.map_cons]
                      refine congrArg _ (ih _ ?_ _ _)
                      have := readOperator_length_le c rest
                      omega
                    · simp only [if_neg h7]
                      by_cases h8 : isDelimiter c = true
                      · simp only [if_pos h8, List.map_cons]
                        exact congrArg _ (ih _ (by omega) _ _)
                      · simp only [if_neg h8]
                        by_cases h9 : c.toNat = 10
                        · simp only [if_pos h9, List.map_cons]
                          exact congrArg _ (ih _ (by omega) _ _)
                        · simp only [if_neg h9]
                          exact ih _ (by omega) _ _

theorem tokenizeLoop_strip_lc (cs : List Char) (lcA lcB : Nat × Nat) :
    (tokenizeLoop cs lcA).map (fun t => (t.type, t.value)) =
    (tokenizeLoop cs lcB).map (fun t => (t.type, t.value)) :=
  tokenizeLoop_strip_lc_aux cs.length cs (Nat.le_refl _) lcA lcB
theorem tokenizeLoop_junk_cons (c : Char) (rest : List Char) (lc : Nat × Nat)
    (h1 : isLetter c = false) (h2 : c.toNat ≠ 95) (h3 : isDigit c = false)
    (h4 : c ≠ '"') (h5 : c ≠ '\'') (h6 : isOperator c = false)
    (h7 : isDelimiter c = false) (h8 : c.toNat ≠ 10) (h9 : isJsWhitespace c = false) :
    (tokenizeLoop (c :: rest) lc).map (fun t => (t.type, t.value)) =
    (tokenizeLoop rest lc).map (fun t => (t.type, t.value)) := by
  have hsw : skipWhitespace (c :: rest) = c :: rest := by
    rw [skipWhitespace]
    simp [h9]
  have hslash : c ≠ '/' := by
    intro h
    subst h
    simp [isOperator] at h6
  have n1 : ¬(c = '/' ∧ rest.head? = some '/') := fun h => hslash h.1
  have n2 : ¬(c = '/' ∧ rest.head? = some '*') := fun h => hslash h.1
  have n3 : ¬((isLetter c || decide (c.toNat = 95)) = true) := by simp [h1, h2]
  have n4 : ¬(isDigit c = true) := by simp [h3]
  have n6 : ¬(isOperator c = true) := by simp [h6]
  have n7 : ¬(isDelimiter c = true) := by simp [h7]
  conv_lhs => rw [tokenizeLoop.eq_def]
  split
  · rename_i hsw2
    rw [hsw] at hsw2
    cases hsw2
  · rename_i c2 rest2 hsw2
    rw [hsw] at hsw2
    injection hsw2 with hc hr
    subst hc
    subst hr
    simp only [if_neg n1, if_neg n2, if_neg n3, if_neg n4, if_neg h4, if_neg h5,
      if_neg n6, if_neg n7, if_neg h8]
    exact tokenizeLoop_strip_lc rest _ lc
/-- C7 (counterexample): for the input `a @ b` and the same input with the
stray `@` removed (`a  b`), the full token streams are NOT identical: the
column of the token for `b` differs (5 versus 4). -/
theorem tokenize_stray_at_counterexample :
    tokenize "a @ b" ≠ tokenize "a  b" := by
  have hA : tokenize "a @ b" =
      [⟨TokenType.IDENTIFIER, some "a", some 1, some 1⟩,
       ⟨TokenType.IDENTIFIER, some "b", some 1, some 5⟩, eofToken] := by
    simp [tokenize, tokenizeLoop, skipWhitespace, consumed, advanceLC, isLetter, isDigit,
          isOperator, isDelimiter, isIdentChar, isJsWhitespace, keywords, eofToken,
          List.takeWhile, List.dropWhile, readNumber, readString, readOperator,
          skipSingleLineComment, skipMultiLineComment, twoCharOps]
  have hB : tokenize "a  b" =
      [⟨TokenType.IDENTIFIER, some "a", some 1, some 1⟩,
       ⟨TokenType.IDENTIFIER, some "b", some 1, some 4⟩, eofToken] := by
    simp [tokenize, tokenizeLoop, skipWhitespace, consumed, advanceLC, isLetter, isDigit,
          isOperator, isDelimiter, isIdentChar, isJsWhitespace, keywords, eofToken,
          List.takeWhile, List.dropWhile, readNumber, readString, readOperator,
          skipSingleLineComment, skipMultiLineComment, twoCharOps]
  rw [hA, hB]
  decide

/-- C7 (amended): a stray unsupported symbol — a character that is not a
letter, underscore, digit, quote, operator, delimiter, newline or whitespace —
reached by the tokenizer's main loop is silently skipped and contributes no
token: the `(type, value)` projection of the token stream (token kinds and
spellings, ignoring the line/column coordinates, which DO shift) is the same
as for the input with the symbol removed; consequently `tokenize` of an input
beginning with such a symbol yields the same `(type, value)` stream as the
input without it. -/
theorem tokenize_stray_symbol_stripped (c : Char)
    (h1 : isLetter c = false) (h2 : c.toNat ≠ 95) (h3 : isDigit c = false)
    (h4 : c ≠ '"') (h5 : c ≠ '\'') (h6 : isOperator c = false)
    (h7 : isDelimiter c = false) (h8 : c.toNat ≠ 10) (h9 : isJsWhitespace c = false) :
    (∀ rest lc, (tokenizeLoop (c :: rest) lc).map (fun t => (t.type, t.value)) =
      (tokenizeLoop rest lc).map (fun t => (t.type, t.value))) ∧
    ∀ s : String, (tokenize (String.mk (c :: s.toList))).map (fun t => (t.type, t.value)) =
      (tokenize s).map (fun t => (t.type, t.value)) := by
  refine ⟨fun rest lc => tokenizeLoop_junk_cons c rest lc h1 h2 h3 h4 h5 h6 h7 h8 h9,
    fun s => ?_⟩
  rw [tokenize, tokenize, List.map_append, List.map_append]
  exact congrArg (· ++ List.map (fun t => (t.type, t.value)) [eofToken])
    (tokenizeLoop_junk_cons c s.toList (1, 1) h1 h2 h3 h4 h5 h6 h7 h8 h9)

/-- C7 witness: instantiating the amended theorem at the stray symbol `@` and
the input `@b`: the `(type, value)` stream of `tokenize "@b"` equals that of
`tokenize "b"`. -/
theorem tokenize_stray_symbol_stripped_witness :
    (tokenize "@b").map (fun t => (t.type, t.value)) =
    (tokenize "b").map (fun t => (t.type, t.value)) :=
  (tokenize_stray_symbol_stripped '@' (by decide) (by decide) (by decide) (by decide)
    (by decide) (by decide) (by decide) (by decide) (by decide)).2 "b"
/-- On input with no `*/` pair, `skipMultiLineComment`'s `position < length - 1`
scan stops one character early: it consumes everything EXCEPT the final
character, which is left to be tokenized. -/
theorem skipMultiLineComment_no_close (cs : List Char) (h : hasCommentClose cs = false) :
    skipMultiLineComment cs = cs.drop (cs.length - 1) := by
  induction cs using skipMultiLineComment.induct with
  | case1 => rfl
  | case2 a => rfl
  | case3 a b rest hcond =>
      rw [hasCommentClose] at h
      simp [hcond] at h
  | case4 a b rest hcond ih =>
      rw [hasCommentClose] at h
      simp at h
      rw [skipMultiLineComment, if_neg hcond, ih h.2]
      simp only [List.length_cons, Nat.add_sub_cancel, List.drop_succ_cons]

/-- C8 (counterexample): for the input `/*abc` (a `/*` never followed by
`*/`), the tokenizer does NOT consume all characters of the comment: the final
character `c` escapes the comment skipper and is emitted as an IDENTIFIER
token, so the output is not the bare EOF stream. -/
theorem tokenize_unterminated_comment_counterexample :
    tokenize "/*abc" = [⟨TokenType.IDENTIFIER, some "c", some 1, some 5⟩, eofToken] ∧
    tokenize "/*abc" ≠ [eofToken] := by
  have hA : tokenize "/*abc" =
      [⟨TokenType.IDENTIFIER, some "c", some 1, some 5⟩, eofToken] := by
    simp [tokenize, tokenizeLoop, skipWhitespace, consumed, advanceLC, isLetter, isDigit,
          isOperator, isDelimiter, isIdentChar, isJsWhitespace, keywords, eofToken,
          List.takeWhile, List.dropWhile, readNumber, readString, readOperator,
          skipSingleLineComment, skipMultiLineComment, twoCharOps]
  refine ⟨hA, ?_⟩
  rw [hA]
  decide

/-- C8 (amended): when the main loop reaches a `/*` opener whose remaining
input `tail` contains no `*/` pair, the comment skipper silently consumes the
comment text WITHOUT the final character of the input: the resulting
`(type, value)` token stream is that of the input's final character alone
(`tail.drop (tail.length - 1)`), not the empty stream, and no diagnostic is
produced (the result is an ordinary token list). -/
theorem tokenize_unterminated_block_comment (tail : List Char) (lc : Nat × Nat)
    (h : hasCommentClose tail = false) :
    (tokenizeLoop ('/' :: '*' :: tail) lc).map (fun t => (t.type, t.value)) =
    (tokenizeLoop (tail.drop (tail.length - 1)) lc).map (fun t => (t.type, t.value)) := by
  have hsw : skipWhitespace ('/' :: '*' :: tail) = '/' :: '*' :: tail := by
    rw [skipWhitespace]
    simp [isJsWhitespace]
  have n1 : ¬('/' = '/' ∧ ('*' :: tail).head? = some '/') := by simp
  have p2 : ('/' = '/' ∧ ('*' :: tail).head? = some '*') := ⟨rfl, rfl⟩
  conv_lhs => rw [tokenizeLoop.eq_def]
  split
  · rename_i hsw2
    rw [hsw] at hsw2
    cases hsw2
  · rename_i c2 rest2 hsw2
    rw [hsw] at hsw2
    injection hsw2 with hc hr
    subst hc
    subst hr
    simp only [if_neg n1, if_pos p2, List.tail_cons]
    rw [skipMultiLineComment_no_close tail h]
    exact tokenizeLoop_strip_lc _ _ lc

/-- C8 witness: the amended theorem at `tail = "abc"` (no `*/` present): the
stream for `/*abc` equals the stream for the final character `c`. -/
theorem tokenize_unterminated_block_comment_witness :
    hasCommentClose ['a', 'b', 'c'] = false ∧
    (tokenizeLoop ['/', '*', 'a', 'b', 'c'] (1, 1)).map (fun t => (t.type, t.value)) =
    (tokenizeLoop (['a', 'b', 'c'].drop (['a', 'b', 'c'].length - 1)) (1, 1)).map
      (fun t => (t.type, t.value)) :=
  ⟨by decide, tokenize_unterminated_block_comment ['a', 'b', 'c'] (1, 1) (by decide)⟩
/-- When the remaining input contains no closing quote `q`, the string-reading
loop copies every remaining character (backslash pairs raw) and leaves nothing
unconsumed. -/
theorem readString_no_quote (q : Char) (cs : List Char) (h : q ∉ cs) :
    readString q cs = (cs, []) := by
  induction cs using readString.induct q with
  | case1 => rfl
  | case2 rest => simp at h
  | case3 hne =>
      rw [readString.eq_def]
      simp [hne]
  | case4 d rest2 v r hx hne ih =>
      have h3 : q ∉ rest2 := by
        simp at h
        tauto
      rw [readString.eq_def]
      simp [hne, ih h3]
  | case5 d rest2 h1 h2 v r hx ih =>
      have h3 : q ∉ rest2 := by
        simp at h
        tauto
      rw [readString.eq_def]
      have h1s : ¬(d = q) := h1
      simp [h1, h2, ih h3]

/-- `tokenizeLoop` on the empty input yields no tokens. -/
theorem tokenizeLoop_nil (lc : Nat × Nat) : tokenizeLoop [] lc = [] := by
  rw [tokenizeLoop.eq_def]
  simp [skipWhitespace]
/-- C10: on an unterminated string literal — an opening `"` whose remaining
input `tail` contains no closing `"` — the tokenizer terminates and emits a
single STRING token whose value is ALL remaining characters after the opening
quote, copied raw (backslashes included), with no error; at the `tokenize`
level the output is that token followed by the EOF token. -/
theorem tokenize_unterminated_string (tail : List Char) (lc : Nat × Nat)
    (h : '"' ∉ tail) :
    tokenizeLoop ('"' :: tail) lc =
      [⟨TokenType.STRING, some (String.mk tail), some lc.1, some lc.2⟩] ∧
    tokenize (String.mk ('"' :: tail)) =
      [⟨TokenType.STRING, some (String.mk tail), some 1, some 1⟩, eofToken] := by
  have hmain : ∀ lc2 : Nat × Nat, tokenizeLoop ('"' :: tail) lc2 =
      [⟨TokenType.STRING, some (String.mk tail), some lc2.1, some lc2.2⟩] := by
    intro lc2
    have hsw : skipWhitespace ('"' :: tail) = '"' :: tail := by
      rw [skipWhitespace]
      simp [isJsWhitespace]
    have n1 : ¬('"' = '/' ∧ tail.head? = some '/') := by simp
    have n2 : ¬('"' = '/' ∧ tail.head? = some '*') := by simp
    have n3 : ¬((isLetter '"' || decide ('"'.toNat = 95)) = true) := by decide
    have n4 : ¬(isDigit '"' = true) := by decide
    conv_lhs => rw [tokenizeLoop.eq_def]
    split
    · rename_i hsw2
      rw [hsw] at hsw2
      cases hsw2
    · rename_i c2 rest2 hsw2
      rw [hsw] at hsw2
      injection hsw2 with hc hr
      subst hc
      subst hr
      simp only [if_neg n1, if_neg n2, if_neg n3, if_neg n4, if_pos rfl, if_true,
        readString_no_quote '"' tail h, tokenizeLoop_nil, hsw, consumed,
        Nat.sub_self, List.take_zero, advanceLC]
  refine ⟨hmain lc, ?_⟩
  rw [tokenize]
  rw [show (String.mk ('"' :: tail)).toList = '"' :: tail from rfl]
  rw [hmain (1, 1)]
  rfl
/-- C10 witness: the unterminated literal `"a\n` (raw backslash, no closing
quote): one STRING token holding the three raw characters, then EOF. -/
theorem tokenize_unterminated_string_witness :
    ('"' ∉ ['a', '\\', 'n']) ∧
    tokenize (String.mk ['"', 'a', '\\', 'n']) =
      [⟨TokenType.STRING, some (String.mk ['a', '\\', 'n']), some 1, some 1⟩, eofToken] :=
  ⟨by decide, (tokenize_unterminated_string ['a', '\\', 'n'] (1, 1) (by decide)).2⟩
/-- C2 (counterexample): the token sequence `KEYWORD return` followed by a
`NUMBER` token with a null value makes the parser fault: `parseReturnStatement`
reaches `parsePrimaryExpression`, which calls `token.value.includes('.')` on
the null value and raises a `TypeError` — `parse` does not return a `Program`
node on this input. -/
theorem parse_return_null_number_counterexample :
    parse [⟨TokenType.KEYWORD, some "return", none, none⟩,
           ⟨TokenType.NUMBER, none, none, none⟩] = Except.error "TypeError" := by
  simp [parse, parseProgramLoop, parseStatement, parseDeclarationOrFunction,
        parseFunction, parseVariable, parseBlock, parseBlockLoop, parseIfStatement,
        parseWhileStatement, parseForStatement, parseForTail, parseReturnStatement,
        parsePrintfStatement, parseScanfStatement, parseArgsLoop,
        parseAssignmentOrFunctionCall, parseAssignTail, parseExpression,
        parseOrExpression, parseOrLoop, parseAndExpression, parseAndLoop,
        parseEqualityExpression, parseEqLoop, parseRelationalExpression, parseRelLoop,
        parseAdditiveExpression, parseAddLoop, parseMultiplicativeExpression,
        parseMulLoop, parsePrimaryExpression, parseInclude, parseParamsLoop,
        skipToken, typeKeywords, jsParseFloat, readDigits, readFrac, List.filter]

/-- C2 (amended): on every token sequence the parser terminates, and either
faults with an error (the `TypeError` cases) or returns a `Program` node whose
body length is at most the number of input tokens. -/
theorem parse_terminates_body_bounded (ts : List Token) :
    (∃ e, parse ts = Except.error e) ∨
    ∃ body, parse ts = Except.ok (Node.program body) ∧ body.length ≤ ts.length := by
  unfold parse
  rcases hres : parseProgramLoop (ts.filter (fun t =>
      match t.type with
      | TokenType.NEWLINE => false
      | _ => true)) with ⟨r, hb⟩
  cases r with
  | error e => exact Or.inl ⟨e, rfl⟩
  | ok pr =>
      obtain ⟨body, rest⟩ := pr
      refine Or.inr ⟨body, rfl, ?_⟩
      have hlen := hb body rest rfl
      have hfil := List.length_filter_le (fun t =>
        match t.type with
        | TokenType.NEWLINE => false
        | _ => true) ts
      omega
/-- C9: every successful `parse` result is a `Program` node with an array
body; consequently both generators take the `generate…FromBody` path on it and
the invalid-AST diagnostic branch is unreachable for parser output. -/
theorem parse_output_is_program (ts : List Token) (n : Node)
    (h : parse ts = Except.ok n) :
    ∃ body, n = Node.program body ∧
      generateJava n = generateJavaFromBody body ∧
      generatePython n = generatePythonFromBody body := by
  unfold parse at h
  split at h
  · simp at h
  · rename_i body rest hb heq
    injection h with h2
    subst h2
    exact ⟨body, rfl, rfl, rfl⟩

/-- C9 witness: the empty token list parses to the empty `Program`, and the
generators process it through the body path. -/
theorem parse_output_is_program_witness :
    parse [] = Except.ok (Node.program []) ∧
    ∃ body, Node.program [] = Node.program body ∧
      generateJava (Node.program []) = generateJavaFromBody body ∧
      generatePython (Node.program []) = generatePythonFromBody body :=
  ⟨by simp [parse, parseProgramLoop, List.filter],
   parse_output_is_program [] (Node.program [])
     (by simp [parse, parseProgramLoop, List.filter])⟩
/-- Assembly: a computed `parseProgramLoop` value determines `parse`'s result. -/
theorem parse_of_programLoop (ts : List Token) (body : List Node) (rest : List Token)
    (h : (parseProgramLoop (ts.filter (fun t =>
        match t.type with
        | TokenType.NEWLINE => false
        | _ => true))).val = Except.ok (body, rest)) :
    parse ts = Except.ok (Node.program body) := by
  unfold parse
  rcases hres : parseProgramLoop (ts.filter (fun t =>
      match t.type with
      | TokenType.NEWLINE => false
      | _ => true)) with ⟨r, hb⟩
  rw [hres] at h
  cases r with
  | error e => simp at h
  | ok pr =>
      obtain ⟨b2, r2⟩ := pr
      simp at h
      obtain ⟨h1, h2⟩ := h
      subst h1
      rfl
/-- Evaluation helper: a subtype-valued parser call equals the literal element
packaging its computed value (proof components by proof irrelevance). -/
theorem subtype_eval {α : Type} {P : α → Prop} (x : {a // P a}) (v : α)
    (h : x.val = v) (hp : P v) : x = ⟨v, hp⟩ := Subtype.ext h

set_option maxHeartbeats 4000000 in
set_option maxRecDepth 100000 in
/-- C4: tokenizing `int add(int a, int b) { return a + b; }` yields exactly
the claimed kind/spelling sequence (KEYWORD int, IDENTIFIER add, …, DELIMITER
closing brace) followed by the EOF token, and parsing those tokens yields a
`Program` whose body is one `Function` node named `add` with two parameters
(`int a`, `int b`) and a body of one `ReturnStatement` wrapping
`BinaryExpression(+)` over identifiers `a` and `b`. -/
theorem function_pipeline_c4 :
    (tokenize "int add(int a, int b) \x7b return a + b; \x7d").map
        (fun t => (t.type, t.value)) =
      [(TokenType.KEYWORD, some "int"), (TokenType.IDENTIFIER, some "add"),
       (TokenType.DELIMITER, some "("), (TokenType.KEYWORD, some "int"),
       (TokenType.IDENTIFIER, some "a"), (TokenType.DELIMITER, some ","),
       (TokenType.KEYWORD, some "int"), (TokenType.IDENTIFIER, some "b"),
       (TokenType.DELIMITER, some ")"), (TokenType.DELIMITER, some "\x7b"),
       (TokenType.KEYWORD, some "return"), (TokenType.IDENTIFIER, some "a"),
       (TokenType.OPERATOR, some "+"), (TokenType.IDENTIFIER, some "b"),
       (TokenType.DELIMITER, some ";"), (TokenType.DELIMITER, some "\x7d"),
       (TokenType.EOF, none)] ∧
    parse (tokenize "int add(int a, int b) \x7b return a + b; \x7d") =
      Except.ok (Node.program [(Node.functionDef (some "int") (some "add") [⟨"int", some "a"⟩, ⟨"int", some "b"⟩] [(Node.returnStmt (some (Node.binaryExpr (some (Node.identifier (some "a"))) "+" (some (Node.identifier (some "b"))))))])]) := by
  have ht : tokenize "int add(int a, int b) \x7b return a + b; \x7d" =
      [⟨TokenType.KEYWORD, some "int", some 1, some 1⟩,
       ⟨TokenType.IDENTIFIER, some "add", some 1, some 5⟩,
       ⟨TokenType.DELIMITER, some "(", some 1, some 8⟩,
       ⟨TokenType.KEYWORD, some "int", some 1, some 9⟩,
       ⟨TokenType.IDENTIFIER, some "a", some 1, some 13⟩,
       ⟨TokenType.DELIMITER, some ",", some 1, some 14⟩,
       ⟨TokenType.KEYWORD, some "int", some 1, some 16⟩,
       ⟨TokenType.IDENTIFIER, some "b", some 1, some 20⟩,
       ⟨TokenType.DELIMITER, some ")", some 1, some 21⟩,
       ⟨TokenType.DELIMITER, some "\x7b", some 1, some 23⟩,
       ⟨TokenType.KEYWORD, some "return", some 1, some 25⟩,
       ⟨TokenType.IDENTIFIER, some "a", some 1, some 32⟩,
       ⟨TokenType.OPERATOR, some "+", some 1, some 34⟩,
       ⟨TokenType.IDENTIFIER, some "b", some 1, some 36⟩,
       ⟨TokenType.DELIMITER, some ";", some 1, some 37⟩,
       ⟨TokenType.DELIMITER, some "\x7d", some 1, some 39⟩,
       eofToken] := by
    simp [tokenize, tokenizeLoop, skipWhitespace, consumed, advanceLC, isLetter, isDigit,
          isOperator, isDelimiter, isIdentChar, isJsWhitespace, keywords, eofToken,
          List.takeWhile, List.dropWhile, readNumber, readString, readOperator,
          skipSingleLineComment, skipMultiLineComment, twoCharOps]
  have hExpr := subtype_eval (parseExpression
      [⟨TokenType.IDENTIFIER, some "a", some 1, some 32⟩,
       ⟨TokenType.OPERATOR, some "+", some 1, some 34⟩,
       ⟨TokenType.IDENTIFIER, some "b", some 1, some 36⟩,
       ⟨TokenType.DELIMITER, some ";", some 1, some 37⟩,
       ⟨TokenType.DELIMITER, some "\x7d", some 1, some 39⟩,
       eofToken])
      (Except.ok (some (Node.binaryExpr (some (Node.identifier (some "a"))) "+" (some (Node.identifier (some "b")))), [⟨TokenType.DELIMITER, some ";", some 1, some 37⟩,
       ⟨TokenType.DELIMITER, some "\x7d", some 1, some 39⟩,
       eofToken]))
      (by simp [parseExpression, parseOrExpression, parseOrLoop, parseAndExpression,
        parseAndLoop, parseEqualityExpression, parseEqLoop, parseRelationalExpression,
        parseRelLoop, parseAdditiveExpression, parseAddLoop,
        parseMultiplicativeExpression, parseMulLoop, parsePrimaryExpression,
        jsParseFloat, readDigits, readFrac, skipToken, typeKeywords, eofToken])
      (okBound_mk (by simp) (fun x => by simp))
  have hRet := subtype_eval (parseReturnStatement
      [⟨TokenType.KEYWORD, some "return", some 1, some 25⟩,
       ⟨TokenType.IDENTIFIER, some "a", some 1, some 32⟩,
       ⟨TokenType.OPERATOR, some "+", some 1, some 34⟩,
       ⟨TokenType.IDENTIFIER, some "b", some 1, some 36⟩,
       ⟨TokenType.DELIMITER, some ";", some 1, some 37⟩,
       ⟨TokenType.DELIMITER, some "\x7d", some 1, some 39⟩,
       eofToken])
      (Except.ok (some (Node.returnStmt (some (Node.binaryExpr (some (Node.identifier (some "a"))) "+" (some (Node.identifier (some "b")))))), [⟨TokenType.DELIMITER, some "\x7d", some 1, some 39⟩,
       eofToken]))
      (by simp [parseReturnStatement, hExpr, skipToken])
      (okBound_mk (by simp) (fun x => by simp))
  have hBlockLoop := subtype_eval (parseBlockLoop
      [⟨TokenType.KEYWORD, some "return", some 1, some 25⟩,
       ⟨TokenType.IDENTIFIER, some "a", some 1, some 32⟩,
       ⟨TokenType.OPERATOR, some "+", some 1, some 34⟩,
       ⟨TokenType.IDENTIFIER, some "b", some 1, some 36⟩,
       ⟨TokenType.DELIMITER, some ";", some 1, some 37⟩,
       ⟨TokenType.DELIMITER, some "\x7d", some 1, some 39⟩,
       eofToken])
      (Except.ok ([(Node.returnStmt (some (Node.binaryExpr (some (Node.identifier (some "a"))) "+" (some (Node.identifier (some "b"))))))], [eofToken]))
      (by simp [parseBlockLoop, parseStatement, hRet])
      (okBoundList_mk (by simp))
  have hBlock := subtype_eval (parseBlock
      [⟨TokenType.DELIMITER, some "\x7b", some 1, some 23⟩,
       ⟨TokenType.KEYWORD, some "return", some 1, some 25⟩,
       ⟨TokenType.IDENTIFIER, some "a", some 1, some 32⟩,
       ⟨TokenType.OPERATOR, some "+", some 1, some 34⟩,
       ⟨TokenType.IDENTIFIER, some "b", some 1, some 36⟩,
       ⟨TokenType.DELIMITER, some ";", some 1, some 37⟩,
       ⟨TokenType.DELIMITER, some "\x7d", some 1, some 39⟩,
       eofToken])
      (Except.ok (some (Node.block [(Node.returnStmt (some (Node.binaryExpr (some (Node.identifier (some "a"))) "+" (some (Node.identifier (some "b"))))))]), [eofToken]))
      (by simp [parseBlock, hBlockLoop])
      (okBound_mk (by simp) (fun x => by simp))
  have hParams := subtype_eval (parseParamsLoop
      [⟨TokenType.KEYWORD, some "int", some 1, some 9⟩,
       ⟨TokenType.IDENTIFIER, some "a", some 1, some 13⟩,
       ⟨TokenType.DELIMITER, some ",", some 1, some 14⟩,
       ⟨TokenType.KEYWORD, some "int", some 1, some 16⟩,
       ⟨TokenType.IDENTIFIER, some "b", some 1, some 20⟩,
       ⟨TokenType.DELIMITER, some ")", some 1, some 21⟩,
       ⟨TokenType.DELIMITER, some "\x7b", some 1, some 23⟩,
       ⟨TokenType.KEYWORD, some "return", some 1, some 25⟩,
       ⟨TokenType.IDENTIFIER, some "a", some 1, some 32⟩,
       ⟨TokenType.OPERATOR, some "+", some 1, some 34⟩,
       ⟨TokenType.IDENTIFIER, some "b", some 1, some 36⟩,
       ⟨TokenType.DELIMITER, some ";", some 1, some 37⟩,
       ⟨TokenType.DELIMITER, some "\x7d", some 1, some 39⟩,
       eofToken])
      (([⟨"int", some "a"⟩, ⟨"int", some "b"⟩], [⟨TokenType.DELIMITER, some "\x7b", some 1, some 23⟩,
       ⟨TokenType.KEYWORD, some "return", some 1, some 25⟩,
       ⟨TokenType.IDENTIFIER, some "a", some 1, some 32⟩,
       ⟨TokenType.OPERATOR, some "+", some 1, some 34⟩,
       ⟨TokenType.IDENTIFIER, some "b", some 1, some 36⟩,
       ⟨TokenType.DELIMITER, some ";", some 1, some 37⟩,
       ⟨TokenType.DELIMITER, some "\x7d", some 1, some 39⟩,
       eofToken]))
      (by simp [parseParamsLoop, typeKeywords])
      (by simp)
  have hFun := subtype_eval (parseFunction (some "int") (some "add")
      [⟨TokenType.DELIMITER, some "(", some 1, some 8⟩,
       ⟨TokenType.KEYWORD, some "int", some 1, some 9⟩,
       ⟨TokenType.IDENTIFIER, some "a", some 1, some 13⟩,
       ⟨TokenType.DELIMITER, some ",", some 1, some 14⟩,
       ⟨TokenType.KEYWORD, some "int", some 1, some 16⟩,
       ⟨TokenType.IDENTIFIER, some "b", some 1, some 20⟩,
       ⟨TokenType.DELIMITER, some ")", some 1, some 21⟩,
       ⟨TokenType.DELIMITER, some "\x7b", some 1, some 23⟩,
       ⟨TokenType.KEYWORD, some "return", some 1, some 25⟩,
       ⟨TokenType.IDENTIFIER, some "a", some 1, some 32⟩,
       ⟨TokenType.OPERATOR, some "+", some 1, some 34⟩,
       ⟨TokenType.IDENTIFIER, some "b", some 1, some 36⟩,
       ⟨TokenType.DELIMITER, some ";", some 1, some 37⟩,
       ⟨TokenType.DELIMITER, some "\x7d", some 1, some 39⟩,
       eofToken])
      (Except.ok (some (Node.functionDef (some "int") (some "add") [⟨"int", some "a"⟩, ⟨"int", some "b"⟩] [(Node.returnStmt (some (Node.binaryExpr (some (Node.identifier (some "a"))) "+" (some (Node.identifier (some "b"))))))]), [eofToken]))
      (by
        simp only [parseFunction]
        rw [hParams]
        simp [hBlock, blockBody])
      (okBoundLe_mk (by simp))
  have hDoF := subtype_eval (parseDeclarationOrFunction
      [⟨TokenType.KEYWORD, some "int", some 1, some 1⟩,
       ⟨TokenType.IDENTIFIER, some "add", some 1, some 5⟩,
       ⟨TokenType.DELIMITER, some "(", some 1, some 8⟩,
       ⟨TokenType.KEYWORD, some "int", some 1, some 9⟩,
       ⟨TokenType.IDENTIFIER, some "a", some 1, some 13⟩,
       ⟨TokenType.DELIMITER, some ",", some 1, some 14⟩,
       ⟨TokenType.KEYWORD, some "int", some 1, some 16⟩,
       ⟨TokenType.IDENTIFIER, some "b", some 1, some 20⟩,
       ⟨TokenType.DELIMITER, some ")", some 1, some 21⟩,
       ⟨TokenType.DELIMITER, some "\x7b", some 1, some 23⟩,
       ⟨TokenType.KEYWORD, some "return", some 1, some 25⟩,
       ⟨TokenType.IDENTIFIER, some "a", some 1, some 32⟩,
       ⟨TokenType.OPERATOR, some "+", some 1, some 34⟩,
       ⟨TokenType.IDENTIFIER, some "b", some 1, some 36⟩,
       ⟨TokenType.DELIMITER, some ";", some 1, some 37⟩,
       ⟨TokenType.DELIMITER, some "\x7d", some 1, some 39⟩,
       eofToken])
      (Except.ok (some (Node.functionDef (some "int") (some "add") [⟨"int", some "a"⟩, ⟨"int", some "b"⟩] [(Node.returnStmt (some (Node.binaryExpr (some (Node.identifier (some "a"))) "+" (some (Node.identifier (some "b"))))))]), [eofToken]))
      (by simp [parseDeclarationOrFunction, hFun])
      (okBound_mk (by simp) (fun x => by simp))
  have hStmt := subtype_eval (parseStatement
      [⟨TokenType.KEYWORD, some "int", some 1, some 1⟩,
       ⟨TokenType.IDENTIFIER, some "add", some 1, some 5⟩,
       ⟨TokenType.DELIMITER, some "(", some 1, some 8⟩,
       ⟨TokenType.KEYWORD, some "int", some 1, some 9⟩,
       ⟨TokenType.IDENTIFIER, some "a", some 1, some 13⟩,
       ⟨TokenType.DELIMITER, some ",", some 1, some 14⟩,
       ⟨TokenType.KEYWORD, some "int", some 1, some 16⟩,
       ⟨TokenType.IDENTIFIER, some "b", some 1, some 20⟩,
       ⟨TokenType.DELIMITER, some ")", some 1, some 21⟩,
       ⟨TokenType.DELIMITER, some "\x7b", some 1, some 23⟩,
       ⟨TokenType.KEYWORD, some "return", some 1, some 25⟩,
       ⟨TokenType.IDENTIFIER, some "a", some 1, some 32⟩,
       ⟨TokenType.OPERATOR, some "+", some 1, some 34⟩,
       ⟨TokenType.IDENTIFIER, some "b", some 1, some 36⟩,
       ⟨TokenType.DELIMITER, some ";", some 1, some 37⟩,
       ⟨TokenType.DELIMITER, some "\x7d", some 1, some 39⟩,
       eofToken])
      (Except.ok (some (Node.functionDef (some "int") (some "add") [⟨"int", some "a"⟩, ⟨"int", some "b"⟩] [(Node.returnStmt (some (Node.binaryExpr (some (Node.identifier (some "a"))) "+" (some (Node.identifier (some "b"))))))]), [eofToken]))
      (by simp [parseStatement, hDoF])
      (okBound_mk (by simp) (fun x => by simp))
  have hProg := subtype_eval (parseProgramLoop
      [⟨TokenType.KEYWORD, some "int", some 1, some 1⟩,
       ⟨TokenType.IDENTIFIER, some "add", some 1, some 5⟩,
       ⟨TokenType.DELIMITER, some "(", some 1, some 8⟩,
       ⟨TokenType.KEYWORD, some "int", some 1, some 9⟩,
       ⟨TokenType.IDENTIFIER, some "a", some 1, some 13⟩,
       ⟨TokenType.DELIMITER, some ",", some 1, some 14⟩,
       ⟨TokenType.KEYWORD, some "int", some 1, some 16⟩,
       ⟨TokenType.IDENTIFIER, some "b", some 1, some 20⟩,
       ⟨TokenType.DELIMITER, some ")", some 1, some 21⟩,
       ⟨TokenType.DELIMITER, some "\x7b", some 1, some 23⟩,
       ⟨TokenType.KEYWORD, some "return", some 1, some 25⟩,
       ⟨TokenType.IDENTIFIER, some "a", some 1, some 32⟩,
       ⟨TokenType.OPERATOR, some "+", some 1, some 34⟩,
       ⟨TokenType.IDENTIFIER, some "b", some 1, some 36⟩,
       ⟨TokenType.DELIMITER, some ";", some 1, some 37⟩,
       ⟨TokenType.DELIMITER, some "\x7d", some 1, some 39⟩,
       eofToken])
      (Except.ok ([(Node.functionDef (some "int") (some "add") [⟨"int", some "a"⟩, ⟨"int", some "b"⟩] [(Node.returnStmt (some (Node.binaryExpr (some (Node.identifier (some "a"))) "+" (some (Node.identifier (some "b"))))))])], [eofToken]))
      (by
        simp only [parseProgramLoop]
        rw [hStmt]
        simp [parseProgramLoop, eofToken])
      (by
        intro ns rest h
        injection h with h2
        injection h2 with ha hb
        subst ha
        subst hb
        simp)
  refine ⟨?_, ?_⟩
  · rw [ht]
    rfl
  · rw [ht]
    exact parse_of_programLoop _ _ _ (by
      show (parseProgramLoop
        [⟨TokenType.KEYWORD, some "int", some 1, some 1⟩,
       ⟨TokenType.IDENTIFIER, some "add", some 1, some 5⟩,
       ⟨TokenType.DELIMITER, some "(", some 1, some 8⟩,
       ⟨TokenType.KEYWORD, some "int", some 1, some 9⟩,
       ⟨TokenType.IDENTIFIER, some "a", some 1, some 13⟩,
       ⟨TokenType.DELIMITER, some ",", some 1, some 14⟩,
       ⟨TokenType.KEYWORD, some "int", some 1, some 16⟩,
       ⟨TokenType.IDENTIFIER, some "b", some 1, some 20⟩,
       ⟨TokenType.DELIMITER, some ")", some 1, some 21⟩,
       ⟨TokenType.DELIMITER, some "\x7b", some 1, some 23⟩,
       ⟨TokenType.KEYWORD, some "return", some 1, some 25⟩,
       ⟨TokenType.IDENTIFIER, some "a", some 1, some 32⟩,
       ⟨TokenType.OPERATOR, some "+", some 1, some 34⟩,
       ⟨TokenType.IDENTIFIER, some "b", some 1, some 36⟩,
       ⟨TokenType.DELIMITER, some ";", some 1, some 37⟩,
       ⟨TokenType.DELIMITER, some "\x7d", some 1, some 39⟩,
       eofToken]).val = Except.ok ([(Node.functionDef (some "int") (some "add") [⟨"int", some "a"⟩, ⟨"int", some "b"⟩] [(Node.returnStmt (some (Node.binaryExpr (some (Node.identifier (some "a"))) "+" (some (Node.identifier (some "b"))))))])], [eofToken])
      rw [hProg])
set_option maxHeartbeats 4000000 in
set_option maxRecDepth 100000 in
/-- C3 (counterexample): for `if (a) if (b) s1; else s2;` the parsed AST
contains NO else branch at all: the bare-identifier statement `s1;` does not
consume its `;`, so the inner `if` ends before the `;` and the later `else`
never meets an `if` frame — it is skipped as an unknown keyword and `s2`
becomes a stray expression statement.  In particular the else is NOT attached
to the inner `if`. -/
theorem dangling_else_counterexample :
    parse (tokenize "if (a) if (b) s1; else s2;") =
      Except.ok (Node.program [(Node.ifStmt (some (Node.identifier (some "a"))) (some (Node.ifStmt (some (Node.identifier (some "b"))) (some (Node.identifier (some "s1"))) none)) none), (Node.identifier (some "s2"))]) ∧
    anyIfHasElse (Node.program [(Node.ifStmt (some (Node.identifier (some "a"))) (some (Node.ifStmt (some (Node.identifier (some "b"))) (some (Node.identifier (some "s1"))) none)) none), (Node.identifier (some "s2"))]) = false := by
  have ht : tokenize "if (a) if (b) s1; else s2;" =
      [⟨TokenType.KEYWORD, some "if", some 1, some 1⟩,
       ⟨TokenType.DELIMITER, some "(", some 1, some 4⟩,
       ⟨TokenType.IDENTIFIER, some "a", some 1, some 5⟩,
       ⟨TokenType.DELIMITER, some ")", some 1, some 6⟩,
       ⟨TokenType.KEYWORD, some "if", some 1, some 8⟩,
       ⟨TokenType.DELIMITER, some "(", some 1, some 11⟩,
       ⟨TokenType.IDENTIFIER, some "b", some 1, some 12⟩,
       ⟨TokenType.DELIMITER, some ")", some 1, some 13⟩,
       ⟨TokenType.IDENTIFIER, some "s1", some 1, some 15⟩,
       ⟨TokenType.DELIMITER, some ";", some 1, some 17⟩,
       ⟨TokenType.KEYWORD, some "else", some 1, some 19⟩,
       ⟨TokenType.IDENTIFIER, some "s2", some 1, some 24⟩,
       ⟨TokenType.DELIMITER, some ";", some 1, some 26⟩,
       eofToken] := by
    simp [tokenize, tokenizeLoop, skipWhitespace, consumed, advanceLC, isLetter, isDigit,
          isOperator, isDelimiter, isIdentChar, isJsWhitespace, keywords, eofToken,
          List.takeWhile, List.dropWhile, readNumber, readString, readOperator,
          skipSingleLineComment, skipMultiLineComment, twoCharOps]
  have hEs1 := subtype_eval (parseExpression
      [⟨TokenType.IDENTIFIER, some "s1", some 1, some 15⟩,
       ⟨TokenType.DELIMITER, some ";", some 1, some 17⟩,
       ⟨TokenType.KEYWORD, some "else", some 1, some 19⟩,
       ⟨TokenType.IDENTIFIER, some "s2", some 1, some 24⟩,
       ⟨TokenType.DELIMITER, some ";", some 1, some 26⟩,
       eofToken])
      (Except.ok (some (Node.identifier (some "s1")), [⟨TokenType.DELIMITER, some ";", some 1, some 17⟩,
       ⟨TokenType.KEYWORD, some "else", some 1, some 19⟩,
       ⟨TokenType.IDENTIFIER, some "s2", some 1, some 24⟩,
       ⟨TokenType.DELIMITER, some ";", some 1, some 26⟩,
       eofToken]))
      (by simp [parseExpression, parseOrExpression, parseOrLoop, parseAndExpression,
        parseAndLoop, parseEqualityExpression, parseEqLoop, parseRelationalExpression,
        parseRelLoop, parseAdditiveExpression, parseAddLoop,
        parseMultiplicativeExpression, parseMulLoop, parsePrimaryExpression,
        jsParseFloat, readDigits, readFrac, skipToken, typeKeywords, eofToken])
      (okBound_mk (by simp) (fun x => by simp))
  have hCall1 := subtype_eval (parseAssignmentOrFunctionCall
      [⟨TokenType.IDENTIFIER, some "s1", some 1, some 15⟩,
       ⟨TokenType.DELIMITER, some ";", some 1, some 17⟩,
       ⟨TokenType.KEYWORD, some "else", some 1, some 19⟩,
       ⟨TokenType.IDENTIFIER, some "s2", some 1, some 24⟩,
       ⟨TokenType.DELIMITER, some ";", some 1, some 26⟩,
       eofToken])
      (Except.ok (some (Node.identifier (some "s1")), [⟨TokenType.DELIMITER, some ";", some 1, some 17⟩,
       ⟨TokenType.KEYWORD, some "else", some 1, some 19⟩,
       ⟨TokenType.IDENTIFIER, some "s2", some 1, some 24⟩,
       ⟨TokenType.DELIMITER, some ";", some 1, some 26⟩,
       eofToken]))
      (by simp [parseAssignmentOrFunctionCall, hEs1])
      (okBound_mk (by simp) (fun x => by simp))
  have hStmtS1 := subtype_eval (parseStatement
      [⟨TokenType.IDENTIFIER, some "s1", some 1, some 15⟩,
       ⟨TokenType.DELIMITER, some ";", some 1, some 17⟩,
       ⟨TokenType.KEYWORD, some "else", some 1, some 19⟩,
       ⟨TokenType.IDENTIFIER, some "s2", some 1, some 24⟩,
       ⟨TokenType.DELIMITER, some ";", some 1, some 26⟩,
       eofToken])
      (Except.ok (some (Node.identifier (some "s1")), [⟨TokenType.DELIMITER, some ";", some 1, some 17⟩,
       ⟨TokenType.KEYWORD, some "else", some 1, some 19⟩,
       ⟨TokenType.IDENTIFIER, some "s2", some 1, some 24⟩,
       ⟨TokenType.DELIMITER, some ";", some 1, some 26⟩,
       eofToken]))
      (by simp [parseStatement, hCall1])
      (okBound_mk (by simp) (fun x => by simp))
  have hEb := subtype_eval (parseExpression
      [⟨TokenType.IDENTIFIER, some "b", some 1, some 12⟩,
       ⟨TokenType.DELIMITER, some ")", some 1, some 13⟩,
       ⟨TokenType.IDENTIFIER, some "s1", some 1, some 15⟩,
       ⟨TokenType.DELIMITER, some ";", some 1, some 17⟩,
       ⟨TokenType.KEYWORD, some "else", some 1, some 19⟩,
       ⟨TokenType.IDENTIFIER, some "s2", some 1, some 24⟩,
       ⟨TokenType.DELIMITER, some ";", some 1, some 26⟩,
       eofToken])
      (Except.ok (some (Node.identifier (some "b")), [⟨TokenType.DELIMITER, some ")", some 1, some 13⟩,
       ⟨TokenType.IDENTIFIER, some "s1", some 1, some 15⟩,
       ⟨TokenType.DELIMITER, some ";", some 1, some 17⟩,
       ⟨TokenType.KEYWORD, some "else", some 1, some 19⟩,
       ⟨TokenType.IDENTIFIER, some "s2", some 1, some 24⟩,
       ⟨TokenType.DELIMITER, some ";", some 1, some 26⟩,
       eofToken]))
      (by simp [parseExpression, parseOrExpression, parseOrLoop, parseAndExpression,
        parseAndLoop, parseEqualityExpression, parseEqLoop, parseRelationalExpression,
        parseRelLoop, parseAdditiveExpression, parseAddLoop,
        parseMultiplicativeExpression, parseMulLoop, parsePrimaryExpression,
        jsParseFloat, readDigits, readFrac, skipToken, typeKeywords, eofToken])
      (okBound_mk (by simp) (fun x => by simp))
  have hIfInner := subtype_eval (parseIfStatement
      [⟨TokenType.KEYWORD, some "if", some 1, some 8⟩,
       ⟨TokenType.DELIMITER, some "(", some 1, some 11⟩,
       ⟨TokenType.IDENTIFIER, some "b", some 1, some 12⟩,
       ⟨TokenType.DELIMITER, some ")", some 1, some 13⟩,
       ⟨TokenType.IDENTIFIER, some "s1", some 1, some 15⟩,
       ⟨TokenType.DELIMITER, some ";", some 1, some 17⟩,
       ⟨TokenType.KEYWORD, some "else", some 1, some 19⟩,
       ⟨TokenType.IDENTIFIER, some "s2", some 1, some 24⟩,
       ⟨TokenType.DELIMITER, some ";", some 1, some 26⟩,
       eofToken])
      (Except.ok (some (Node.ifStmt (some (Node.identifier (some "b"))) (some (Node.identifier (some "s1"))) none), [⟨TokenType.DELIMITER, some ";", some 1, some 17⟩,
       ⟨TokenType.KEYWORD, some "else", some 1, some 19⟩,
       ⟨TokenType.IDENTIFIER, some "s2", some 1, some 24⟩,
       ⟨TokenType.DELIMITER, some ";", some 1, some 26⟩,
       eofToken]))
      (by simp [parseIfStatement, skipToken, hEb, hStmtS1])
      (okBound_mk (by simp) (fun x => by simp))
  have hStmtInner := subtype_eval (parseStatement
      [⟨TokenType.KEYWORD, some "if", some 1, some 8⟩,
       ⟨TokenType.DELIMITER, some "(", some 1, some 11⟩,
       ⟨TokenType.IDENTIFIER, some "b", some 1, some 12⟩,
       ⟨TokenType.DELIMITER, some ")", some 1, some 13⟩,
       ⟨TokenType.IDENTIFIER, some "s1", some 1, some 15⟩,
       ⟨TokenType.DELIMITER, some ";", some 1, some 17⟩,
       ⟨TokenType.KEYWORD, some "else", some 1, some 19⟩,
       ⟨TokenType.IDENTIFIER, some "s2", some 1, some 24⟩,
       ⟨TokenType.DELIMITER, some ";", some 1, some 26⟩,
       eofToken])
      (Except.ok (some (Node.ifStmt (some (Node.identifier (some "b"))) (some (Node.identifier (some "s1"))) none), [⟨TokenType.DELIMITER, some ";", some 1, some 17⟩,
       ⟨TokenType.KEYWORD, some "else", some 1, some 19⟩,
       ⟨TokenType.IDENTIFIER, some "s2", some 1, some 24⟩,
       ⟨TokenType.DELIMITER, some ";", some 1, some 26⟩,
       eofToken]))
      (by simp [parseStatement, hIfInner])
      (okBound_mk (by simp) (fun x => by simp))
  have hEa := subtype_eval (parseExpression
      [⟨TokenType.IDENTIFIER, some "a", some 1, some 5⟩,
       ⟨TokenType.DELIMITER, some ")", some 1, some 6⟩,
       ⟨TokenType.KEYWORD, some "if", some 1, some 8⟩,
       ⟨TokenType.DELIMITER, some "(", some 1, some 11⟩,
       ⟨TokenType.IDENTIFIER, some "b", some 1, some 12⟩,
       ⟨TokenType.DELIMITER, some ")", some 1, some 13⟩,
       ⟨TokenType.IDENTIFIER, some "s1", some 1, some 15⟩,
       ⟨TokenType.DELIMITER, some ";", some 1, some 17⟩,
       ⟨TokenType.KEYWORD, some "else", some 1, some 19⟩,
       ⟨TokenType.IDENTIFIER, some "s2", some 1, some 24⟩,
       ⟨TokenType.DELIMITER, some ";", some 1, some 26⟩,
       eofToken])
      (Except.ok (some (Node.identifier (some "a")), [⟨TokenType.DELIMITER, some ")", some 1, some 6⟩,
       ⟨TokenType.KEYWORD, some "if", some 1, some 8⟩,
       ⟨TokenType.DELIMITER, some "(", some 1, some 11⟩,
       ⟨TokenType.IDENTIFIER, some "b", some 1, some 12⟩,
       ⟨TokenType.DELIMITER, some ")", some 1, some 13⟩,
       ⟨TokenType.IDENTIFIER, some "s1", some 1, some 15⟩,
       ⟨TokenType.DELIMITER, some ";", some 1, some 17⟩,
       ⟨TokenType.KEYWORD, some "else", some 1, some 19⟩,
       ⟨TokenType.IDENTIFIER, some "s2", some 1, some 24⟩,
       ⟨TokenType.DELIMITER, some ";", some 1, some 26⟩,
       eofToken]))
      (by simp [parseExpression, parseOrExpression, parseOrLoop, parseAndExpression,
        parseAndLoop, parseEqualityExpression, parseEqLoop, parseRelationalExpression,
        parseRelLoop, parseAdditiveExpression, parseAddLoop,
        parseMultiplicativeExpression, parseMulLoop, parsePrimaryExpression,
        jsParseFloat, readDigits, readFrac, skipToken, typeKeywords, eofToken])
      (okBound_mk (by simp) (fun x => by simp))
  have hIfOuter := subtype_eval (parseIfStatement
      [⟨TokenType.KEYWORD, some "if", some 1, some 1⟩,
       ⟨TokenType.DELIMITER, some "(", some 1, some 4⟩,
       ⟨TokenType.IDENTIFIER, some "a", some 1, some 5⟩,
       ⟨TokenType.DELIMITER, some ")", some 1, some 6⟩,
       ⟨TokenType.KEYWORD, some "if", some 1, some 8⟩,
       ⟨TokenType.DELIMITER, some "(", some 1, some 11⟩,
       ⟨TokenType.IDENTIFIER, some "b", some 1, some 12⟩,
       ⟨TokenType.DELIMITER, some ")", some 1, some 13⟩,
       ⟨TokenType.IDENTIFIER, some "s1", some 1, some 15⟩,
       ⟨TokenType.DELIMITER, some ";", some 1, some 17⟩,
       ⟨TokenType.KEYWORD, some "else", some 1, some 19⟩,
       ⟨TokenType.IDENTIFIER, some "s2", some 1, some 24⟩,
       ⟨TokenType.DELIMITER, some ";", some 1, some 26⟩,
       eofToken])
      (Except.ok (some (Node.ifStmt (some (Node.identifier (some "a"))) (some (Node.ifStmt (some (Node.identifier (some "b"))) (some (Node.identifier (some "s1"))) none)) none), [⟨TokenType.DELIMITER, some ";", some 1, some 17⟩,
       ⟨TokenType.KEYWORD, some "else", some 1, some 19⟩,
       ⟨TokenType.IDENTIFIER, some "s2", some 1, some 24⟩,
       ⟨TokenType.DELIMITER, some ";", some 1, some 26⟩,
       eofToken]))
      (by simp [parseIfStatement, skipToken, hEa, hStmtInner])
      (okBound_mk (by simp) (fun x => by simp))
  have hStmtOuter := subtype_eval (parseStatement
      [⟨TokenType.KEYWORD, some "if", some 1, some 1⟩,
       ⟨TokenType.DELIMITER, some "(", some 1, some 4⟩,
       ⟨TokenType.IDENTIFIER, some "a", some 1, some 5⟩,
       ⟨TokenType.DELIMITER, some ")", some 1, some 6⟩,
       ⟨TokenType.KEYWORD, some "if", some 1, some 8⟩,
       ⟨TokenType.DELIMITER, some "(", some 1, some 11⟩,
       ⟨TokenType.IDENTIFIER, some "b", some 1, some 12⟩,
       ⟨TokenType.DELIMITER, some ")", some 1, some 13⟩,
       ⟨TokenType.IDENTIFIER, some "s1", some 1, some 15⟩,
       ⟨TokenType.DELIMITER, some ";", some 1, some 17⟩,
       ⟨TokenType.KEYWORD, some "else", some 1, some 19⟩,
       ⟨TokenType.IDENTIFIER, some "s2", some 1, some 24⟩,
       ⟨TokenType.DELIMITER, some ";", some 1, some 26⟩,
       eofToken])
      (Except.ok (some (Node.ifStmt (some (Node.identifier (some "a"))) (some (Node.ifStmt (some (Node.identifier (some "b"))) (some (Node.identifier (some "s1"))) none)) none), [⟨TokenType.DELIMITER, some ";", some 1, some 17⟩,
       ⟨TokenType.KEYWORD, some "else", some 1, some 19⟩,
       ⟨TokenType.IDENTIFIER, some "s2", some 1, some 24⟩,
       ⟨TokenType.DELIMITER, some ";", some 1, some 26⟩,
       eofToken]))
      (by simp [parseStatement, hIfOuter])
      (okBound_mk (by simp) (fun x => by simp))
  have hStmtSemi1 := subtype_eval (parseStatement
      [⟨TokenType.DELIMITER, some ";", some 1, some 17⟩,
       ⟨TokenType.KEYWORD, some "else", some 1, some 19⟩,
       ⟨TokenType.IDENTIFIER, some "s2", some 1, some 24⟩,
       ⟨TokenType.DELIMITER, some ";", some 1, some 26⟩,
       eofToken])
      (Except.ok (none, [⟨TokenType.KEYWORD, some "else", some 1, some 19⟩,
       ⟨TokenType.IDENTIFIER, some "s2", some 1, some 24⟩,
       ⟨TokenType.DELIMITER, some ";", some 1, some 26⟩,
       eofToken]))
      (by simp [parseStatement])
      (okBound_mk (by simp) (fun x => by simp))
  have hStmtElse := subtype_eval (parseStatement
      [⟨TokenType.KEYWORD, some "else", some 1, some 19⟩,
       ⟨TokenType.IDENTIFIER, some "s2", some 1, some 24⟩,
       ⟨TokenType.DELIMITER, some ";", some 1, some 26⟩,
       eofToken])
      (Except.ok (none, [⟨TokenType.IDENTIFIER, some "s2", some 1, some 24⟩,
       ⟨TokenType.DELIMITER, some ";", some 1, some 26⟩,
       eofToken]))
      (by simp [parseStatement])
      (okBound_mk (by simp) (fun x => by simp))
  have hEs2 := subtype_eval (parseExpression
      [⟨TokenType.IDENTIFIER, some "s2", some 1, some 24⟩,
       ⟨TokenType.DELIMITER, some ";", some 1, some 26⟩,
       eofToken])
      (Except.ok (some (Node.identifier (some "s2")), [⟨TokenType.DELIMITER, some ";", some 1, some 26⟩,
       eofToken]))
      (by simp [parseExpression, parseOrExpression, parseOrLoop, parseAndExpression,
        parseAndLoop, parseEqualityExpression, parseEqLoop, parseRelationalExpression,
        parseRelLoop, parseAdditiveExpression, parseAddLoop,
        parseMultiplicativeExpression, parseMulLoop, parsePrimaryExpression,
        jsParseFloat, readDigits, readFrac, skipToken, typeKeywords, eofToken])
      (okBound_mk (by simp) (fun x => by simp))
  have hCall2 := subtype_eval (parseAssignmentOrFunctionCall
      [⟨TokenType.IDENTIFIER, some "s2", some 1, some 24⟩,
       ⟨TokenType.DELIMITER, some ";", some 1, some 26⟩,
       eofToken])
      (Except.ok (some (Node.identifier (some "s2")), [⟨TokenType.DELIMITER, some ";", some 1, some 26⟩,
       eofToken]))
      (by simp [parseAssignmentOrFunctionCall, hEs2])
      (okBound_mk (by simp) (fun x => by simp))
  have hStmtS2 := subtype_eval (parseStatement
      [⟨TokenType.IDENTIFIER, some "s2", some 1, some 24⟩,
       ⟨TokenType.DELIMITER, some ";", some 1, some 26⟩,
       eofToken])
      (Except.ok (some (Node.identifier (some "s2")), [⟨TokenType.DELIMITER, some ";", some 1, some 26⟩,
       eofToken]))
      (by simp [parseStatement, hCall2])
      (okBound_mk (by simp) (fun x => by simp))
  have hStmtSemi2 := subtype_eval (parseStatement
      [⟨TokenType.DELIMITER, some ";", some 1, some 26⟩,
       eofToken])
      (Except.ok (none, [eofToken]))
      (by simp [parseStatement])
      (okBound_mk (by simp) (fun x => by simp))
  have hProg := subtype_eval (parseProgramLoop
      [⟨TokenType.KEYWORD, some "if", some 1, some 1⟩,
       ⟨TokenType.DELIMITER, some "(", some 1, some 4⟩,
       ⟨TokenType.IDENTIFIER, some "a", some 1, some 5⟩,
       ⟨TokenType.DELIMITER, some ")", some 1, some 6⟩,
       ⟨TokenType.KEYWORD, some "if", some 1, some 8⟩,
       ⟨TokenType.DELIMITER, some "(", some 1, some 11⟩,
       ⟨TokenType.IDENTIFIER, some "b", some 1, some 12⟩,
       ⟨TokenType.DELIMITER, some ")", some 1, some 13⟩,
       ⟨TokenType.IDENTIFIER, some "s1", some 1, some 15⟩,
       ⟨TokenType.DELIMITER, some ";", some 1, some 17⟩,
       ⟨TokenType.KEYWORD, some "else", some 1, some 19⟩,
       ⟨TokenType.IDENTIFIER, some "s2", some 1, some 24⟩,
       ⟨TokenType.DELIMITER, some ";", some 1, some 26⟩,
       eofToken])
      (Except.ok ([(Node.ifStmt (some (Node.identifier (some "a"))) (some (Node.ifStmt (some (Node.identifier (some "b"))) (some (Node.identifier (some "s1"))) none)) none), (Node.identifier (some "s2"))], [eofToken]))
      (by
        simp only [parseProgramLoop]
        rw [hStmtOuter]
        simp only [parseProgramLoop]
        rw [hStmtSemi1]
        simp only [parseProgramLoop]
        rw [hStmtElse]
        simp only [parseProgramLoop]
        rw [hStmtS2]
        simp only [parseProgramLoop]
        rw [hStmtSemi2]
        simp [parseProgramLoop, eofToken])
      (by
        intro ns rest h
        injection h with h2
        injection h2 with ha hb
        subst ha
        subst hb
        simp)
  refine ⟨?_, by simp [anyIfHasElse, anyIfHasElseOpt, anyIfHasElseList]⟩
  rw [ht]
  exact parse_of_programLoop _ _ _ (by
    show (parseProgramLoop
      [⟨TokenType.KEYWORD, some "if", some 1, some 1⟩,
       ⟨TokenType.DELIMITER, some "(", some 1, some 4⟩,
       ⟨TokenType.IDENTIFIER, some "a", some 1, some 5⟩,
       ⟨TokenType.DELIMITER, some ")", some 1, some 6⟩,
       ⟨TokenType.KEYWORD, some "if", some 1, some 8⟩,
       ⟨TokenType.DELIMITER, some "(", some 1, some 11⟩,
       ⟨TokenType.IDENTIFIER, some "b", some 1, some 12⟩,
       ⟨TokenType.DELIMITER, some ")", some 1, some 13⟩,
       ⟨TokenType.IDENTIFIER, some "s1", some 1, some 15⟩,
       ⟨TokenType.DELIMITER, some ";", some 1, some 17⟩,
       ⟨TokenType.KEYWORD, some "else", some 1, some 19⟩,
       ⟨TokenType.IDENTIFIER, some "s2", some 1, some 24⟩,
       ⟨TokenType.DELIMITER, some ";", some 1, some 26⟩,
       eofToken]).val = Except.ok ([(Node.ifStmt (some (Node.identifier (some "a"))) (some (Node.ifStmt (some (Node.identifier (some "b"))) (some (Node.identifier (some "s1"))) none)) none), (Node.identifier (some "s2"))], [eofToken])
    rw [hProg])
set_option maxHeartbeats 4000000 in
set_option maxRecDepth 100000 in
/-- C3 (amended): with statements that consume their semicolon — assignments
`x = 1;` and `y = 2;` — the dangling else DOES bind to the nearest enclosing
`if`: parsing `if (a) if (b) x = 1; else y = 2;` attaches the else branch
(`y = 2`) to the inner `IfStatement` (condition `b`) and the outer
`IfStatement` has no else branch. -/
theorem dangling_else_inner_binding :
    parse (tokenize "if (a) if (b) x = 1; else y = 2;") =
      Except.ok (Node.program [(Node.ifStmt (some (Node.identifier (some "a"))) (some (Node.ifStmt (some (Node.identifier (some "b"))) (some (Node.assignment (some "x") "=" (some (Node.literal (LitVal.num (JNum.jval 1 0)) "int")))) (some (Node.assignment (some "y") "=" (some (Node.literal (LitVal.num (JNum.jval 2 0)) "int")))))) none)]) := by
  have ht : tokenize "if (a) if (b) x = 1; else y = 2;" =
      [⟨TokenType.KEYWORD, some "if", some 1, some 1⟩,
       ⟨TokenType.DELIMITER, some "(", some 1, some 4⟩,
       ⟨TokenType.IDENTIFIER, some "a", some 1, some 5⟩,
       ⟨TokenType.DELIMITER, some ")", some 1, some 6⟩,
       ⟨TokenType.KEYWORD, some "if", some 1, some 8⟩,
       ⟨TokenType.DELIMITER, some "(", some 1, some 11⟩,
       ⟨TokenType.IDENTIFIER, some "b", some 1, some 12⟩,
       ⟨TokenType.DELIMITER, some ")", some 1, some 13⟩,
       ⟨TokenType.IDENTIFIER, some "x", some 1, some 15⟩,
       ⟨TokenType.OPERATOR, some "=", some 1, some 17⟩,
       ⟨TokenType.NUMBER, some "1", some 1, some 19⟩,
       ⟨TokenType.DELIMITER, some ";", some 1, some 20⟩,
       ⟨TokenType.KEYWORD, some "else", some 1, some 22⟩,
       ⟨TokenType.IDENTIFIER, some "y", some 1, some 27⟩,
       ⟨TokenType.OPERATOR, some "=", some 1, some 29⟩,
       ⟨TokenType.NUMBER, some "2", some 1, some 31⟩,
       ⟨TokenType.DELIMITER, some ";", some 1, some 32⟩,
       eofToken] := by
    simp [tokenize, tokenizeLoop, skipWhitespace, consumed, advanceLC, isLetter, isDigit,
          isOperator, isDelimiter, isIdentChar, isJsWhitespace, keywords, eofToken,
          List.takeWhile, List.dropWhile, readNumber, readString, readOperator,
          skipSingleLineComment, skipMultiLineComment, twoCharOps]
  have hE1 := subtype_eval (parseExpression
      [⟨TokenType.NUMBER, some "1", some 1, some 19⟩,
       ⟨TokenType.DELIMITER, some ";", some 1, some 20⟩,
       ⟨TokenType.KEYWORD, some "else", some 1, some 22⟩,
       ⟨TokenType.IDENTIFIER, some "y", some 1, some 27⟩,
       ⟨TokenType.OPERATOR, some "=", some 1, some 29⟩,
       ⟨TokenType.NUMBER, some "2", some 1, some 31⟩,
       ⟨TokenType.DELIMITER, some ";", some 1, some 32⟩,
       eofToken])
      (Except.ok (some (Node.literal (LitVal.num (JNum.jval 1 0)) "int"), [⟨TokenType.DELIMITER, some ";", some 1, some 20⟩,
       ⟨TokenType.KEYWORD, some "else", some 1, some 22⟩,
       ⟨TokenType.IDENTIFIER, some "y", some 1, some 27⟩,
       ⟨TokenType.OPERATOR, some "=", some 1, some 29⟩,
       ⟨TokenType.NUMBER, some "2", some 1, some 31⟩,
       ⟨TokenType.DELIMITER, some ";", some 1, some 32⟩,
       eofToken]))
      (by simp [parseExpression, parseOrExpression, parseOrLoop, parseAndExpression,
        parseAndLoop, parseEqualityExpression, parseEqLoop, parseRelationalExpression,
        parseRelLoop, parseAdditiveExpression, parseAddLoop,
        parseMultiplicativeExpression, parseMulLoop, parsePrimaryExpression,
        jsParseFloat, readDigits, readFrac, isDigit, skipToken, typeKeywords, eofToken])
      (okBound_mk (by simp) (fun x => by simp))
  have hAT1 := subtype_eval (parseAssignTail (some "x") "="
      [⟨TokenType.NUMBER, some "1", some 1, some 19⟩,
       ⟨TokenType.DELIMITER, some ";", some 1, some 20⟩,
       ⟨TokenType.KEYWORD, some "else", some 1, some 22⟩,
       ⟨TokenType.IDENTIFIER, some "y", some 1, some 27⟩,
       ⟨TokenType.OPERATOR, some "=", some 1, some 29⟩,
       ⟨TokenType.NUMBER, some "2", some 1, some 31⟩,
       ⟨TokenType.DELIMITER, some ";", some 1, some 32⟩,
       eofToken])
      (Except.ok (some (Node.assignment (some "x") "=" (some (Node.literal (LitVal.num (JNum.jval 1 0)) "int"))), [⟨TokenType.KEYWORD, some "else", some 1, some 22⟩,
       ⟨TokenType.IDENTIFIER, some "y", some 1, some 27⟩,
       ⟨TokenType.OPERATOR, some "=", some 1, some 29⟩,
       ⟨TokenType.NUMBER, some "2", some 1, some 31⟩,
       ⟨TokenType.DELIMITER, some ";", some 1, some 32⟩,
       eofToken]))
      (by simp [parseAssignTail, hE1, skipToken])
      (okBoundLe_mk (by simp))
  have hCallX := subtype_eval (parseAssignmentOrFunctionCall
      [⟨TokenType.IDENTIFIER, some "x", some 1, some 15⟩,
       ⟨TokenType.OPERATOR, some "=", some 1, some 17⟩,
       ⟨TokenType.NUMBER, some "1", some 1, some 19⟩,
       ⟨TokenType.DELIMITER, some ";", some 1, some 20⟩,
       ⟨TokenType.KEYWORD, some "else", some 1, some 22⟩,
       ⟨TokenType.IDENTIFIER, some "y", some 1, some 27⟩,
       ⟨TokenType.OPERATOR, some "=", some 1, some 29⟩,
       ⟨TokenType.NUMBER, some "2", some 1, some 31⟩,
       ⟨TokenType.DELIMITER, some ";", some 1, some 32⟩,
       eofToken])
      (Except.ok (some (Node.assignment (some "x") "=" (some (Node.literal (LitVal.num (JNum.jval 1 0)) "int"))), [⟨TokenType.KEYWORD, some "else", some 1, some 22⟩,
       ⟨TokenType.IDENTIFIER, some "y", some 1, some 27⟩,
       ⟨TokenType.OPERATOR, some "=", some 1, some 29⟩,
       ⟨TokenType.NUMBER, some "2", some 1, some 31⟩,
       ⟨TokenType.DELIMITER, some ";", some 1, some 32⟩,
       eofToken]))
      (by simp [parseAssignmentOrFunctionCall, hAT1])
      (okBound_mk (by simp) (fun x => by simp))
  have hStmtX := subtype_eval (parseStatement
      [⟨TokenType.IDENTIFIER, some "x", some 1, some 15⟩,
       ⟨TokenType.OPERATOR, some "=", some 1, some 17⟩,
       ⟨TokenType.NUMBER, some "1", some 1, some 19⟩,
       ⟨TokenType.DELIMITER, some ";", some 1, some 20⟩,
       ⟨TokenType.KEYWORD, some "else", some 1, some 22⟩,
       ⟨TokenType.IDENTIFIER, some "y", some 1, some 27⟩,
       ⟨TokenType.OPERATOR, some "=", some 1, some 29⟩,
       ⟨TokenType.NUMBER, some "2", some 1, some 31⟩,
       ⟨TokenType.DELIMITER, some ";", some 1, some 32⟩,
       eofToken])
      (Except.ok (some (Node.assignment (some "x") "=" (some (Node.literal (LitVal.num (JNum.jval 1 0)) "int"))), [⟨TokenType.KEYWORD, some "else", some 1, some 22⟩,
       ⟨TokenType.IDENTIFIER, some "y", some 1, some 27⟩,
       ⟨TokenType.OPERATOR, some "=", some 1, some 29⟩,
       ⟨TokenType.NUMBER, some "2", some 1, some 31⟩,
       ⟨TokenType.DELIMITER, some ";", some 1, some 32⟩,
       eofToken]))
      (by simp [parseStatement, hCallX])
      (okBound_mk (by simp) (fun x => by simp))
  have hE2 := subtype_eval (parseExpression
      [⟨TokenType.NUMBER, some "2", some 1, some 31⟩,
       ⟨TokenType.DELIMITER, some ";", some 1, some 32⟩,
       eofToken])
      (Except.ok (some (Node.literal (LitVal.num (JNum.jval 2 0)) "int"), [⟨TokenType.DELIMITER, some ";", some 1, some 32⟩,
       eofToken]))
      (by simp [parseExpression, parseOrExpression, parseOrLoop, parseAndExpression,
        parseAndLoop, parseEqualityExpression, parseEqLoop, parseRelationalExpression,
        parseRelLoop, parseAdditiveExpression, parseAddLoop,
        parseMultiplicativeExpression, parseMulLoop, parsePrimaryExpression,
        jsParseFloat, readDigits, readFrac, isDigit, skipToken, typeKeywords, eofToken])
      (okBound_mk (by simp) (fun x => by simp))
  have hAT2 := subtype_eval (parseAssignTail (some "y") "="
      [⟨TokenType.NUMBER, some "2", some 1, some 31⟩,
       ⟨TokenType.DELIMITER, some ";", some 1, some 32⟩,
       eofToken])
      (Except.ok (some (Node.assignment (some "y") "=" (some (Node.literal (LitVal.num (JNum.jval 2 0)) "int"))), [eofToken]))
      (by simp [parseAssignTail, hE2, skipToken])
      (okBoundLe_mk (by simp))
  have hCallY := subtype_eval (parseAssignmentOrFunctionCall
      [⟨TokenType.IDENTIFIER, some "y", some 1, some 27⟩,
       ⟨TokenType.OPERATOR, some "=", some 1, some 29⟩,
       ⟨TokenType.NUMBER, some "2", some 1, some 31⟩,
       ⟨TokenType.DELIMITER, some ";", some 1, some 32⟩,
       eofToken])
      (Except.ok (some (Node.assignment (some "y") "=" (some (Node.literal (LitVal.num (JNum.jval 2 0)) "int"))), [eofToken]))
      (by simp [parseAssignmentOrFunctionCall, hAT2])
      (okBound_mk (by simp) (fun x => by simp))
  have hStmtY := subtype_eval (parseStatement
      [⟨TokenType.IDENTIFIER, some "y", some 1, some 27⟩,
       ⟨TokenType.OPERATOR, some "=", some 1, some 29⟩,
       ⟨TokenType.NUMBER, some "2", some 1, some 31⟩,
       ⟨TokenType.DELIMITER, some ";", some 1, some 32⟩,
       eofToken])
      (Except.ok (some (Node.assignment (some "y") "=" (some (Node.literal (LitVal.num (JNum.jval 2 0)) "int"))), [eofToken]))
      (by simp [parseStatement, hCallY])
      (okBound_mk (by simp) (fun x => by simp))
  have hEb := subtype_eval (parseExpression
      [⟨TokenType.IDENTIFIER, some "b", some 1, some 12⟩,
       ⟨TokenType.DELIMITER, some ")", some 1, some 13⟩,
       ⟨TokenType.IDENTIFIER, some "x", some 1, some 15⟩,
       ⟨TokenType.OPERATOR, some "=", some 1, some 17⟩,
       ⟨TokenType.NUMBER, some "1", some 1, some 19⟩,
       ⟨TokenType.DELIMITER, some ";", some 1, some 20⟩,
       ⟨TokenType.KEYWORD, some "else", some 1, some 22⟩,
       ⟨TokenType.IDENTIFIER, some "y", some 1, some 27⟩,
       ⟨TokenType.OPERATOR, some "=", some 1, some 29⟩,
       ⟨TokenType.NUMBER, some "2", some 1, some 31⟩,
       ⟨TokenType.DELIMITER, some ";", some 1, some 32⟩,
       eofToken])
      (Except.ok (some (Node.identifier (some "b")), [⟨TokenType.DELIMITER, some ")", some 1, some 13⟩,
       ⟨TokenType.IDENTIFIER, some "x", some 1, some 15⟩,
       ⟨TokenType.OPERATOR, some "=", some 1, some 17⟩,
       ⟨TokenType.NUMBER, some "1", some 1, some 19⟩,
       ⟨TokenType.DELIMITER, some ";", some 1, some 20⟩,
       ⟨TokenType.KEYWORD, some "else", some 1, some 22⟩,
       ⟨TokenType.IDENTIFIER, some "y", some 1, some 27⟩,
       ⟨TokenType.OPERATOR, some "=", some 1, some 29⟩,
       ⟨TokenType.NUMBER, some "2", some 1, some 31⟩,
       ⟨TokenType.DELIMITER, some ";", some 1, some 32⟩,
       eofToken]))
      (by simp [parseExpression, parseOrExpression, parseOrLoop, parseAndExpression,
        parseAndLoop, parseEqualityExpression, parseEqLoop, parseRelationalExpression,
        parseRelLoop, parseAdditiveExpression, parseAddLoop,
        parseMultiplicativeExpression, parseMulLoop, parsePrimaryExpression,
        jsParseFloat, readDigits, readFrac, isDigit, skipToken, typeKeywords, eofToken])
      (okBound_mk (by simp) (fun x => by simp))
  have hIfInner := subtype_eval (parseIfStatement
      [⟨TokenType.KEYWORD, some "if", some 1, some 8⟩,
       ⟨TokenType.DELIMITER, some "(", some 1, some 11⟩,
       ⟨TokenType.IDENTIFIER, some "b", some 1, some 12⟩,
       ⟨TokenType.DELIMITER, some ")", some 1, some 13⟩,
       ⟨TokenType.IDENTIFIER, some "x", some 1, some 15⟩,
       ⟨TokenType.OPERATOR, some "=", some 1, some 17⟩,
       ⟨TokenType.NUMBER, some "1", some 1, some 19⟩,
       ⟨TokenType.DELIMITER, some ";", some 1, some 20⟩,
       ⟨TokenType.KEYWORD, some "else", some 1, some 22⟩,
       ⟨TokenType.IDENTIFIER, some "y", some 1, some 27⟩,
       ⟨TokenType.OPERATOR, some "=", some 1, some 29⟩,
       ⟨TokenType.NUMBER, some "2", some 1, some 31⟩,
       ⟨TokenType.DELIMITER, some ";", some 1, some 32⟩,
       eofToken])
      (Except.ok (some (Node.ifStmt (some (Node.identifier (some "b"))) (some (Node.assignment (some "x") "=" (some (Node.literal (LitVal.num (JNum.jval 1 0)) "int")))) (some (Node.assignment (some "y") "=" (some (Node.literal (LitVal.num (JNum.jval 2 0)) "int"))))), [eofToken]))
      (by simp [parseIfStatement, skipToken, hEb, hStmtX, hStmtY])
      (okBound_mk (by simp) (fun x => by simp))
  have hStmtInner := subtype_eval (parseStatement
      [⟨TokenType.KEYWORD, some "if", some 1, some 8⟩,
       ⟨TokenType.DELIMITER, some "(", some 1, some 11⟩,
       ⟨TokenType.IDENTIFIER, some "b", some 1, some 12⟩,
       ⟨TokenType.DELIMITER, some ")", some 1, some 13⟩,
       ⟨TokenType.IDENTIFIER, some "x", some 1, some 15⟩,
       ⟨TokenType.OPERATOR, some "=", some 1, some 17⟩,
       ⟨TokenType.NUMBER, some "1", some 1, some 19⟩,
       ⟨TokenType.DELIMITER, some ";", some 1, some 20⟩,
       ⟨TokenType.KEYWORD, some "else", some 1, some 22⟩,
       ⟨TokenType.IDENTIFIER, some "y", some 1, some 27⟩,
       ⟨TokenType.OPERATOR, some "=", some 1, some 29⟩,
       ⟨TokenType.NUMBER, some "2", some 1, some 31⟩,
       ⟨TokenType.DELIMITER, some ";", some 1, some 32⟩,
       eofToken])
      (Except.ok (some (Node.ifStmt (some (Node.identifier (some "b"))) (some (Node.assignment (some "x") "=" (some (Node.literal (LitVal.num (JNum.jval 1 0)) "int")))) (some (Node.assignment (some "y") "=" (some (Node.literal (LitVal.num (JNum.jval 2 0)) "int"))))), [eofToken]))
      (by simp [parseStatement, hIfInner])
      (okBound_mk (by simp) (fun x => by simp))
  have hEa := subtype_eval (parseExpression
      [⟨TokenType.IDENTIFIER, some "a", some 1, some 5⟩,
       ⟨TokenType.DELIMITER, some ")", some 1, some 6⟩,
       ⟨TokenType.KEYWORD, some "if", some 1, some 8⟩,
       ⟨TokenType.DELIMITER, some "(", some 1, some 11⟩,
       ⟨TokenType.IDENTIFIER, some "b", some 1, some 12⟩,
       ⟨TokenType.DELIMITER, some ")", some 1, some 13⟩,
       ⟨TokenType.IDENTIFIER, some "x", some 1, some 15⟩,
       ⟨TokenType.OPERATOR, some "=", some 1, some 17⟩,
       ⟨TokenType.NUMBER, some "1", some 1, some 19⟩,
       ⟨TokenType.DELIMITER, some ";", some 1, some 20⟩,
       ⟨TokenType.KEYWORD, some "else", some 1, some 22⟩,
       ⟨TokenType.IDENTIFIER, some "y", some 1, some 27⟩,
       ⟨TokenType.OPERATOR, some "=", some 1, some 29⟩,
       ⟨TokenType.NUMBER, some "2", some 1, some 31⟩,
       ⟨TokenType.DELIMITER, some ";", some 1, some 32⟩,
       eofToken])
      (Except.ok (some (Node.identifier (some "a")), [⟨TokenType.DELIMITER, some ")", some 1, some 6⟩,
       ⟨TokenType.KEYWORD, some "if", some 1, some 8⟩,
       ⟨TokenType.DELIMITER, some "(", some 1, some 11⟩,
       ⟨TokenType.IDENTIFIER, some "b", some 1, some 12⟩,
       ⟨TokenType.DELIMITER, some ")", some 1, some 13⟩,
       ⟨TokenType.IDENTIFIER, some "x", some 1, some 15⟩,
       ⟨TokenType.OPERATOR, some "=", some 1, some 17⟩,
       ⟨TokenType.NUMBER, some "1", some 1, some 19⟩,
       ⟨TokenType.DELIMITER, some ";", some 1, some 20⟩,
       ⟨TokenType.KEYWORD, some "else", some 1, some 22⟩,
       ⟨TokenType.IDENTIFIER, some "y", some 1, some 27⟩,
       ⟨TokenType.OPERATOR, some "=", some 1, some 29⟩,
       ⟨TokenType.NUMBER, some "2", some 1, some 31⟩,
       ⟨TokenType.DELIMITER, some ";", some 1, some 32⟩,
       eofToken]))
      (by simp [parseExpression, parseOrExpression, parseOrLoop, parseAndExpression,
        parseAndLoop, parseEqualityExpression, parseEqLoop, parseRelationalExpression,
        parseRelLoop, parseAdditiveExpression, parseAddLoop,
        parseMultiplicativeExpression, parseMulLoop, parsePrimaryExpression,
        jsParseFloat, readDigits, readFrac, isDigit, skipToken, typeKeywords, eofToken])
      (okBound_mk (by simp) (fun x => by simp))
  have hIfOuter := subtype_eval (parseIfStatement
      [⟨TokenType.KEYWORD, some "if", some 1, some 1⟩,
       ⟨TokenType.DELIMITER, some "(", some 1, some 4⟩,
       ⟨TokenType.IDENTIFIER, some "a", some 1, some 5⟩,
       ⟨TokenType.DELIMITER, some ")", some 1, some 6⟩,
       ⟨TokenType.KEYWORD, some "if", some 1, some 8⟩,
       ⟨TokenType.DELIMITER, some "(", some 1, some 11⟩,
       ⟨TokenType.IDENTIFIER, some "b", some 1, some 12⟩,
       ⟨TokenType.DELIMITER, some ")", some 1, some 13⟩,
       ⟨TokenType.IDENTIFIER, some "x", some 1, some 15⟩,
       ⟨TokenType.OPERATOR, some "=", some 1, some 17⟩,
       ⟨TokenType.NUMBER, some "1", some 1, some 19⟩,
       ⟨TokenType.DELIMITER, some ";", some 1, some 20⟩,
       ⟨TokenType.KEYWORD, some "else", some 1, some 22⟩,
       ⟨TokenType.IDENTIFIER, some "y", some 1, some 27⟩,
       ⟨TokenType.OPERATOR, some "=", some 1, some 29⟩,
       ⟨TokenType.NUMBER, some "2", some 1, some 31⟩,
       ⟨TokenType.DELIMITER, some ";", some 1, some 32⟩,
       eofToken])
      (Except.ok (some (Node.ifStmt (some (Node.identifier (some "a"))) (some (Node.ifStmt (some (Node.identifier (some "b"))) (some (Node.assignment (some "x") "=" (some (Node.literal (LitVal.num (JNum.jval 1 0)) "int")))) (some (Node.assignment (some "y") "=" (some (Node.literal (LitVal.num (JNum.jval 2 0)) "int")))))) none), [eofToken]))
      (by
        have hev : eofToken.value = none := rfl
        simp [parseIfStatement, skipToken, hEa, hStmtInner, hev])
      (okBound_mk (by simp) (fun x => by simp))
  have hStmtOuter := subtype_eval (parseStatement
      [⟨TokenType.KEYWORD, some "if", some 1, some 1⟩,
       ⟨TokenType.DELIMITER, some "(", some 1, some 4⟩,
       ⟨TokenType.IDENTIFIER, some "a", some 1, some 5⟩,
       ⟨TokenType.DELIMITER, some ")", some 1, some 6⟩,
       ⟨TokenType.KEYWORD, some "if", some 1, some 8⟩,
       ⟨TokenType.DELIMITER, some "(", some 1, some 11⟩,
       ⟨TokenType.IDENTIFIER, some "b", some 1, some 12⟩,
       ⟨TokenType.DELIMITER, some ")", some 1, some 13⟩,
       ⟨TokenType.IDENTIFIER, some "x", some 1, some 15⟩,
       ⟨TokenType.OPERATOR, some "=", some 1, some 17⟩,
       ⟨TokenType.NUMBER, some "1", some 1, some 19⟩,
       ⟨TokenType.DELIMITER, some ";", some 1, some 20⟩,
       ⟨TokenType.KEYWORD, some "else", some 1, some 22⟩,
       ⟨TokenType.IDENTIFIER, some "y", some 1, some 27⟩,
       ⟨TokenType.OPERATOR, some "=", some 1, some 29⟩,
       ⟨TokenType.NUMBER, some "2", some 1, some 31⟩,
       ⟨TokenType.DELIMITER, some ";", some 1, some 32⟩,
       eofToken])
      (Except.ok (some (Node.ifStmt (some (Node.identifier (some "a"))) (some (Node.ifStmt (some (Node.identifier (some "b"))) (some (Node.assignment (some "x") "=" (some (Node.literal (LitVal.num (JNum.jval 1 0)) "int")))) (some (Node.assignment (some "y") "=" (some (Node.literal (LitVal.num (JNum.jval 2 0)) "int")))))) none), [eofToken]))
      (by simp [parseStatement, hIfOuter])
      (okBound_mk (by simp) (fun x => by simp))
  have hProg := subtype_eval (parseProgramLoop
      [⟨TokenType.KEYWORD, some "if", some 1, some 1⟩,
       ⟨TokenType.DELIMITER, some "(", some 1, some 4⟩,
       ⟨TokenType.IDENTIFIER, some "a", some 1, some 5⟩,
       ⟨TokenType.DELIMITER, some ")", some 1, some 6⟩,
       ⟨TokenType.KEYWORD, some "if", some 1, some 8⟩,
       ⟨TokenType.DELIMITER, some "(", some 1, some 11⟩,
       ⟨TokenType.IDENTIFIER, some "b", some 1, some 12⟩,
       ⟨TokenType.DELIMITER, some ")", some 1, some 13⟩,
       ⟨TokenType.IDENTIFIER, some "x", some 1, some 15⟩,
       ⟨TokenType.OPERATOR, some "=", some 1, some 17⟩,
       ⟨TokenType.NUMBER, some "1", some 1, some 19⟩,
       ⟨TokenType.DELIMITER, some ";", some 1, some 20⟩,
       ⟨TokenType.KEYWORD, some "else", some 1, some 22⟩,
       ⟨TokenType.IDENTIFIER, some "y", some 1, some 27⟩,
       ⟨TokenType.OPERATOR, some "=", some 1, some 29⟩,
       ⟨TokenType.NUMBER, some "2", some 1, some 31⟩,
       ⟨TokenType.DELIMITER, some ";", some 1, some 32⟩,
       eofToken])
      (Except.ok ([(Node.ifStmt (some (Node.identifier (some "a"))) (some (Node.ifStmt (some (Node.identifier (some "b"))) (some (Node.assignment (some "x") "=" (some (Node.literal (LitVal.num (JNum.jval 1 0)) "int")))) (some (Node.assignment (some "y") "=" (some (Node.literal (LitVal.num (JNum.jval 2 0)) "int")))))) none)], [eofToken]))
      (by
        simp only [parseProgramLoop]
        rw [hStmtOuter]
        simp [parseProgramLoop, eofToken])
      (by
        intro ns rest h
        injection h with h2
        injection h2 with ha hb
        subst ha
        subst hb
        simp)
  rw [ht]
  exact parse_of_programLoop _ _ _ (by
    show (parseProgramLoop
      [⟨TokenType.KEYWORD, some "if", some 1, some 1⟩,
       ⟨TokenType.DELIMITER, some "(", some 1, some 4⟩,
       ⟨TokenType.IDENTIFIER, some "a", some 1, some 5⟩,
       ⟨TokenType.DELIMITER, some ")", some 1, some 6⟩,
       ⟨TokenType.KEYWORD, some "if", some 1, some 8⟩,
       ⟨TokenType.DELIMITER, some "(", some 1, some 11⟩,
       ⟨TokenType.IDENTIFIER, some "b", some 1, some 12⟩,
       ⟨TokenType.DELIMITER, some ")", some 1, some 13⟩,
       ⟨TokenType.IDENTIFIER, some "x", some 1, some 15⟩,
       ⟨TokenType.OPERATOR, some "=", some 1, some 17⟩,
       ⟨TokenType.NUMBER, some "1", some 1, some 19⟩,
       ⟨TokenType.DELIMITER, some ";", some 1, some 20⟩,
       ⟨TokenType.KEYWORD, some "else", some 1, some 22⟩,
       ⟨TokenType.IDENTIFIER, some "y", some 1, some 27⟩,
       ⟨TokenType.OPERATOR, some "=", some 1, some 29⟩,
       ⟨TokenType.NUMBER, some "2", some 1, some 31⟩,
       ⟨TokenType.DELIMITER, some ";", some 1, some 32⟩,
       eofToken]).val = Except.ok ([(Node.ifStmt (some (Node.identifier (some "a"))) (some (Node.ifStmt (some (Node.identifier (some "b"))) (some (Node.assignment (some "x") "=" (some (Node.literal (LitVal.num (JNum.jval 1 0)) "int")))) (some (Node.assignment (some "y") "=" (some (Node.literal (LitVal.num (JNum.jval 2 0)) "int")))))) none)], [eofToken])
    rw [hProg])
set_option maxHeartbeats 4000000 in
set_option maxRecDepth 100000 in
/-- C5: the actual end-to-end behavior on
`for (i = 0; i < 5; i++) \x7b printf("%d", i); \x7d`.  The update `i++` is not
parsable as an expression, so the parser's cursor never reaches the loop body:
the ForLoop node gets a null body and the brace block is parsed as a separate
top-level statement.  The Python output therefore contains the counting
iteration header `for i in range(0, 5):` but the print statement follows it
at top level, OUTSIDE the iteration (no indentation); with `<=` the range
header's upper bound becomes `5 + 1`. -/
theorem for_loop_python_pipeline :
    parse (tokenize "for (i = 0; i < 5; i++) \x7b printf(\"%d\", i); \x7d") =
      Except.ok (Node.program [(Node.forLoop (some (Node.assignment (some "i") "=" (some (Node.literal (LitVal.num (JNum.jval 0 0)) "int")))) (some (Node.binaryExpr (some (Node.identifier (some "i"))) "<" (some (Node.literal (LitVal.num (JNum.jval 5 0)) "int")))) (some (Node.identifier (some "i"))) none), (Node.block [(Node.printfStmt [(Node.literal (LitVal.str (some "%d")) "string"), (Node.identifier (some "i"))])])]) ∧
    generatePython (Node.program [(Node.forLoop (some (Node.assignment (some "i") "=" (some (Node.literal (LitVal.num (JNum.jval 0 0)) "int")))) (some (Node.binaryExpr (some (Node.identifier (some "i"))) "<" (some (Node.literal (LitVal.num (JNum.jval 5 0)) "int")))) (some (Node.identifier (some "i"))) none), (Node.block [(Node.printfStmt [(Node.literal (LitVal.str (some "%d")) "string"), (Node.identifier (some "i"))])])]) =
      Except.ok "for i in range(0, 5):\nprint(\"\x7b\x7d\".format(i))\n" ∧
    parse (tokenize "for (i = 0; i <= 5; i++) \x7b printf(\"%d\", i); \x7d") =
      Except.ok (Node.program [(Node.forLoop (some (Node.assignment (some "i") "=" (some (Node.literal (LitVal.num (JNum.jval 0 0)) "int")))) (some (Node.binaryExpr (some (Node.identifier (some "i"))) "<=" (some (Node.literal (LitVal.num (JNum.jval 5 0)) "int")))) (some (Node.identifier (some "i"))) none), (Node.block [(Node.printfStmt [(Node.literal (LitVal.str (some "%d")) "string"), (Node.identifier (some "i"))])])]) ∧
    generatePython (Node.program [(Node.forLoop (some (Node.assignment (some "i") "=" (some (Node.literal (LitVal.num (JNum.jval 0 0)) "int")))) (some (Node.binaryExpr (some (Node.identifier (some "i"))) "<=" (some (Node.literal (LitVal.num (JNum.jval 5 0)) "int")))) (some (Node.identifier (some "i"))) none), (Node.block [(Node.printfStmt [(Node.literal (LitVal.str (some "%d")) "string"), (Node.identifier (some "i"))])])]) =
      Except.ok "for i in range(0, 5 + 1):\nprint(\"\x7b\x7d\".format(i))\n" := by
  have htA : tokenize "for (i = 0; i < 5; i++) \x7b printf(\"%d\", i); \x7d" =
      [⟨TokenType.KEYWORD, some "for", some 1, some 1⟩,
       ⟨TokenType.DELIMITER, some "(", some 1, some 5⟩,
       ⟨TokenType.IDENTIFIER, some "i", some 1, some 6⟩,
       ⟨TokenType.OPERATOR, some "=", some 1, some 8⟩,
       ⟨TokenType.NUMBER, some "0", some 1, some 10⟩,
       ⟨TokenType.DELIMITER, some ";", some 1, some 11⟩,
       ⟨TokenType.IDENTIFIER, some "i", some 1, some 13⟩,
       ⟨TokenType.OPERATOR, some "<", some 1, some 15⟩,
       ⟨TokenType.NUMBER, some "5", some 1, some 17⟩,
       ⟨TokenType.DELIMITER, some ";", some 1, some 18⟩,
       ⟨TokenType.IDENTIFIER, some "i", some 1, some 20⟩,
       ⟨TokenType.OPERATOR, some "++", some 1, some 21⟩,
       ⟨TokenType.DELIMITER, some ")", some 1, some 23⟩,
       ⟨TokenType.DELIMITER, some "\x7b", some 1, some 25⟩,
       ⟨TokenType.KEYWORD, some "printf", some 1, some 27⟩,
       ⟨TokenType.DELIMITER, some "(", some 1, some 33⟩,
       ⟨TokenType.STRING, some "%d", some 1, some 34⟩,
       ⟨TokenType.DELIMITER, some ",", some 1, some 38⟩,
       ⟨TokenType.IDENTIFIER, some "i", some 1, some 40⟩,
       ⟨TokenType.DELIMITER, some ")", some 1, some 41⟩,
       ⟨TokenType.DELIMITER, some ";", some 1, some 42⟩,
       ⟨TokenType.DELIMITER, some "\x7d", some 1, some 44⟩,
       eofToken] := by
    simp [tokenize, tokenizeLoop, skipWhitespace, consumed, advanceLC, isLetter, isDigit,
          isOperator, isDelimiter, isIdentChar, isJsWhitespace, keywords, eofToken,
          List.takeWhile, List.dropWhile, readNumber, readString, readOperator,
          skipSingleLineComment, skipMultiLineComment, twoCharOps]
  have htB : tokenize "for (i = 0; i <= 5; i++) \x7b printf(\"%d\", i); \x7d" =
      [⟨TokenType.KEYWORD, some "for", some 1, some 1⟩,
       ⟨TokenType.DELIMITER, some "(", some 1, some 5⟩,
       ⟨TokenType.IDENTIFIER, some "i", some 1, some 6⟩,
       ⟨TokenType.OPERATOR, some "=", some 1, some 8⟩,
       ⟨TokenType.NUMBER, some "0", some 1, some 10⟩,
       ⟨TokenType.DELIMITER, some ";", some 1, some 11⟩,
       ⟨TokenType.IDENTIFIER, some "i", some 1, some 13⟩,
       ⟨TokenType.OPERATOR, some "<=", some 1, some 15⟩,
       ⟨TokenType.NUMBER, some "5", some 1, some 18⟩,
       ⟨TokenType.DELIMITER, some ";", some 1, some 19⟩,
       ⟨TokenType.IDENTIFIER, some "i", some 1, some 21⟩,
       ⟨TokenType.OPERATOR, some "++", some 1, some 22⟩,
       ⟨TokenType.DELIMITER, some ")", some 1, some 24⟩,
       ⟨TokenType.DELIMITER, some "\x7b", some 1, some 26⟩,
       ⟨TokenType.KEYWORD, some "printf", some 1, some 28⟩,
       ⟨TokenType.DELIMITER, some "(", some 1, some 34⟩,
       ⟨TokenType.STRING, some "%d", some 1, some 35⟩,
       ⟨TokenType.DELIMITER, some ",", some 1, some 39⟩,
       ⟨TokenType.IDENTIFIER, some "i", some 1, some 41⟩,
       ⟨TokenType.DELIMITER, some ")", some 1, some 42⟩,
       ⟨TokenType.DELIMITER, some ";", some 1, some 43⟩,
       ⟨TokenType.DELIMITER, some "\x7d", some 1, some 45⟩,
       eofToken] := by
    simp [tokenize, tokenizeLoop, skipWhitespace, consumed, advanceLC, isLetter, isDigit,
          isOperator, isDelimiter, isIdentChar, isJsWhitespace, keywords, eofToken,
          List.takeWhile, List.dropWhile, readNumber, readString, readOperator,
          skipSingleLineComment, skipMultiLineComment, twoCharOps]
  have hE0A := subtype_eval (parseExpression
      [⟨TokenType.NUMBER, some "0", some 1, some 10⟩,
       ⟨TokenType.DELIMITER, some ";", some 1, some 11⟩,
       ⟨TokenType.IDENTIFIER, some "i", some 1, some 13⟩,
       ⟨TokenType.OPERATOR, some "<", some 1, some 15⟩,
       ⟨TokenType.NUMBER, some "5", some 1, some 17⟩,
       ⟨TokenType.DELIMITER, some ";", some 1, some 18⟩,
       ⟨TokenType.IDENTIFIER, some "i", some 1, some 20⟩,
       ⟨TokenType.OPERATOR, some "++", some 1, some 21⟩,
       ⟨TokenType.DELIMITER, some ")", some 1, some 23⟩,
       ⟨TokenType.DELIMITER, some "\x7b", some 1, some 25⟩,
       ⟨TokenType.KEYWORD, some "printf", some 1, some 27⟩,
       ⟨TokenType.DELIMITER, some "(", some 1, some 33⟩,
       ⟨TokenType.STRING, some "%d", some 1, some 34⟩,
       ⟨TokenType.DELIMITER, some ",", some 1, some 38⟩,
       ⟨TokenType.IDENTIFIER, some "i", some 1, some 40⟩,
       ⟨TokenType.DELIMITER, some ")", some 1, some 41⟩,
       ⟨TokenType.DELIMITER, some ";", some 1, some 42⟩,
       ⟨TokenType.DELIMITER, some "\x7d", some 1, some 44⟩,
       eofToken])
      (Except.ok (some (Node.literal (LitVal.num (JNum.jval 0 0)) "int"), [⟨TokenType.DELIMITER, some ";", some 1, some 11⟩,
       ⟨TokenType.IDENTIFIER, some "i", some 1, some 13⟩,
       ⟨TokenType.OPERATOR, some "<", some 1, some 15⟩,
       ⟨TokenType.NUMBER, some "5", some 1, some 17⟩,
       ⟨TokenType.DELIMITER, some ";", some 1, some 18⟩,
       ⟨TokenType.IDENTIFIER, some "i", some 1, some 20⟩,
       ⟨TokenType.OPERATOR, some "++", some 1, some 21⟩,
       ⟨TokenType.DELIMITER, some ")", some 1, some 23⟩,
       ⟨TokenType.DELIMITER, some "\x7b", some 1, some 25⟩,
       ⟨TokenType.KEYWORD, some "printf", some 1, some 27⟩,
       ⟨TokenType.DELIMITER, some "(", some 1, some 33⟩,
       ⟨TokenType.STRING, some "%d", some 1, some 34⟩,
       ⟨TokenType.DELIMITER, some ",", some 1, some 38⟩,
       ⟨TokenType.IDENTIFIER, some "i", some 1, some 40⟩,
       ⟨TokenType.DELIMITER, some ")", some 1, some 41⟩,
       ⟨TokenType.DELIMITER, some ";", some 1, some 42⟩,
       ⟨TokenType.DELIMITER, some "\x7d", some 1, some 44⟩,
       eofToken]))
      (by simp [parseExpression, parseOrExpression, parseOrLoop, parseAndExpression,
        parseAndLoop, parseEqualityExpression, parseEqLoop, parseRelationalExpression,
        parseRelLoop, parseAdditiveExpression, parseAddLoop,
        parseMultiplicativeExpression, parseMulLoop, parsePrimaryExpression,
        jsParseFloat, readDigits, readFrac, isDigit, skipToken, typeKeywords, eofToken])
      (okBound_mk (by simp) (fun x => by simp))
  have hAT0A := subtype_eval (parseAssignTail (some "i") "="
      [⟨TokenType.NUMBER, some "0", some 1, some 10⟩,
       ⟨TokenType.DELIMITER, some ";", some 1, some 11⟩,
       ⟨TokenType.IDENTIFIER, some "i", some 1, some 13⟩,
       ⟨TokenType.OPERATOR, some "<", some 1, some 15⟩,
       ⟨TokenType.NUMBER, some "5", some 1, some 17⟩,
       ⟨TokenType.DELIMITER, some ";", some 1, some 18⟩,
       ⟨TokenType.IDENTIFIER, some "i", some 1, some 20⟩,
       ⟨TokenType.OPERATOR, some "++", some 1, some 21⟩,
       ⟨TokenType.DELIMITER, some ")", some 1, some 23⟩,
       ⟨TokenType.DELIMITER, some "\x7b", some 1, some 25⟩,
       ⟨TokenType.KEYWORD, some "printf", some 1, some 27⟩,
       ⟨TokenType.DELIMITER, some "(", some 1, some 33⟩,
       ⟨TokenType.STRING, some "%d", some 1, some 34⟩,
       ⟨TokenType.DELIMITER, some ",", some 1, some 38⟩,
       ⟨TokenType.IDENTIFIER, some "i", some 1, some 40⟩,
       ⟨TokenType.DELIMITER, some ")", some 1, some 41⟩,
       ⟨TokenType.DELIMITER, some ";", some 1, some 42⟩,
       ⟨TokenType.DELIMITER, some "\x7d", some 1, some 44⟩,
       eofToken])
      (Except.ok (some (Node.assignment (some "i") "=" (some (Node.literal (LitVal.num (JNum.jval 0 0)) "int"))), [⟨TokenType.IDENTIFIER, some "i", some 1, some 13⟩,
       ⟨TokenType.OPERATOR, some "<", some 1, some 15⟩,
       ⟨TokenType.NUMBER, some "5", some 1, some 17⟩,
       ⟨TokenType.DELIMITER, some ";", some 1, some 18⟩,
       ⟨TokenType.IDENTIFIER, some "i", some 1, some 20⟩,
       ⟨TokenType.OPERATOR, some "++", some 1, some 21⟩,
       ⟨TokenType.DELIMITER, some ")", some 1, some 23⟩,
       ⟨TokenType.DELIMITER, some "\x7b", some 1, some 25⟩,
       ⟨TokenType.KEYWORD, some "printf", some 1, some 27⟩,
       ⟨TokenType.DELIMITER, some "(", some 1, some 33⟩,
       ⟨TokenType.STRING, some "%d", some 1, some 34⟩,
       ⟨TokenType.DELIMITER, some ",", some 1, some 38⟩,
       ⟨TokenType.IDENTIFIER, some "i", some 1, some 40⟩,
       ⟨TokenType.DELIMITER, some ")", some 1, some 41⟩,
       ⟨TokenType.DELIMITER, some ";", some 1, some 42⟩,
       ⟨TokenType.DELIMITER, some "\x7d", some 1, some 44⟩,
       eofToken]))
      (by simp [parseAssignTail, hE0A, skipToken])
      (okBoundLe_mk (by simp))
  have hCall0A := subtype_eval (parseAssignmentOrFunctionCall
      [⟨TokenType.IDENTIFIER, some "i", some 1, some 6⟩,
       ⟨TokenType.OPERATOR, some "=", some 1, some 8⟩,
       ⟨TokenType.NUMBER, some "0", some 1, some 10⟩,
       ⟨TokenType.DELIMITER, some ";", some 1, some 11⟩,
       ⟨TokenType.IDENTIFIER, some "i", some 1, some 13⟩,
       ⟨TokenType.OPERATOR, some "<", some 1, some 15⟩,
       ⟨TokenType.NUMBER, some "5", some 1, some 17⟩,
       ⟨TokenType.DELIMITER, some ";", some 1, some 18⟩,
       ⟨TokenType.IDENTIFIER, some "i", some 1, some 20⟩,
       ⟨TokenType.OPERATOR, some "++", some 1, some 21⟩,
       ⟨TokenType.DELIMITER, some ")", some 1, some 23⟩,
       ⟨TokenType.DELIMITER, some "\x7b", some 1, some 25⟩,
       ⟨TokenType.KEYWORD, some "printf", some 1, some 27⟩,
       ⟨TokenType.DELIMITER, some "(", some 1, some 33⟩,
       ⟨TokenType.STRING, some "%d", some 1, some 34⟩,
       ⟨TokenType.DELIMITER, some ",", some 1, some 38⟩,
       ⟨TokenType.IDENTIFIER, some "i", some 1, some 40⟩,
       ⟨TokenType.DELIMITER, some ")", some 1, some 41⟩,
       ⟨TokenType.DELIMITER, some ";", some 1, some 42⟩,
       ⟨TokenType.DELIMITER, some "\x7d", some 1, some 44⟩,
       eofToken])
      (Except.ok (some (Node.assignment (some "i") "=" (some (Node.literal (LitVal.num (JNum.jval 0 0)) "int"))), [⟨TokenType.IDENTIFIER, some "i", some 1, some 13⟩,
       ⟨TokenType.OPERATOR, some "<", some 1, some 15⟩,
       ⟨TokenType.NUMBER, some "5", some 1, some 17⟩,
       ⟨TokenType.DELIMITER, some ";", some 1, some 18⟩,
       ⟨TokenType.IDENTIFIER, some "i", some 1, some 20⟩,
       ⟨TokenType.OPERATOR, some "++", some 1, some 21⟩,
       ⟨TokenType.DELIMITER, some ")", some 1, some 23⟩,
       ⟨TokenType.DELIMITER, some "\x7b", some 1, some 25⟩,
       ⟨TokenType.KEYWORD, some "printf", some 1, some 27⟩,
       ⟨TokenType.DELIMITER, some "(", some 1, some 33⟩,
       ⟨TokenType.STRING, some "%d", some 1, some 34⟩,
       ⟨TokenType.DELIMITER, some ",", some 1, some 38⟩,
       ⟨TokenType.IDENTIFIER, some "i", some 1, some 40⟩,
       ⟨TokenType.DELIMITER, some ")", some 1, some 41⟩,
       ⟨TokenType.DELIMITER, some ";", some 1, some 42⟩,
       ⟨TokenType.DELIMITER, some "\x7d", some 1, some 44⟩,
       eofToken]))
      (by simp [parseAssignmentOrFunctionCall, hAT0A])
      (okBound_mk (by simp) (fun x => by simp))
  have hECondA := subtype_eval (parseExpression
      [⟨TokenType.IDENTIFIER, some "i", some 1, some 13⟩,
       ⟨TokenType.OPERATOR, some "<", some 1, some 15⟩,
       ⟨TokenType.NUMBER, some "5", some 1, some 17⟩,
       ⟨TokenType.DELIMITER, some ";", some 1, some 18⟩,
       ⟨TokenType.IDENTIFIER, some "i", some 1, some 20⟩,
       ⟨TokenType.OPERATOR, some "++", some 1, some 21⟩,
       ⟨TokenType.DELIMITER, some ")", some 1, some 23⟩,
       ⟨TokenType.DELIMITER, some "\x7b", some 1, some 25⟩,
       ⟨TokenType.KEYWORD, some "printf", some 1, some 27⟩,
       ⟨TokenType.DELIMITER, some "(", some 1, some 33⟩,
       ⟨TokenType.STRING, some "%d", some 1, some 34⟩,
       ⟨TokenType.DELIMITER, some ",", some 1, some 38⟩,
       ⟨TokenType.IDENTIFIER, some "i", some 1, some 40⟩,
       ⟨TokenType.DELIMITER, some ")", some 1, some 41⟩,
       ⟨TokenType.DELIMITER, some ";", some 1, some 42⟩,
       ⟨TokenType.DELIMITER, some "\x7d", some 1, some 44⟩,
       eofToken])
      (Except.ok (some (Node.binaryExpr (some (Node.identifier (some "i"))) "<" (some (Node.literal (LitVal.num (JNum.jval 5 0)) "int"))), [⟨TokenType.DELIMITER, some ";", some 1, some 18⟩,
       ⟨TokenType.IDENTIFIER, some "i", some 1, some 20⟩,
       ⟨TokenType.OPERATOR, some "++", some 1, some 21⟩,
       ⟨TokenType.DELIMITER, some ")", some 1, some 23⟩,
       ⟨TokenType.DELIMITER, some "\x7b", some 1, some 25⟩,
       ⟨TokenType.KEYWORD, some "printf", some 1, some 27⟩,
       ⟨TokenType.DELIMITER, some "(", some 1, some 33⟩,
       ⟨TokenType.STRING, some "%d", some 1, some 34⟩,
       ⟨TokenType.DELIMITER, some ",", some 1, some 38⟩,
       ⟨TokenType.IDENTIFIER, some "i", some 1, some 40⟩,
       ⟨TokenType.DELIMITER, some ")", some 1, some 41⟩,
       ⟨TokenType.DELIMITER, some ";", some 1, some 42⟩,
       ⟨TokenType.DELIMITER, some "\x7d", some 1, some 44⟩,
       eofToken]))
      (by simp [parseExpression, parseOrExpression, parseOrLoop, parseAndExpression,
        parseAndLoop, parseEqualityExpression, parseEqLoop, parseRelationalExpression,
        parseRelLoop, parseAdditiveExpression, parseAddLoop,
        parseMultiplicativeExpression, parseMulLoop, parsePrimaryExpression,
        jsParseFloat, readDigits, readFrac, isDigit, skipToken, typeKeywords, eofToken])
      (okBound_mk (by simp) (fun x => by simp))
  have hEUpdA := subtype_eval (parseExpression
      [⟨TokenType.IDENTIFIER, some "i", some 1, some 20⟩,
       ⟨TokenType.OPERATOR, some "++", some 1, some 21⟩,
       ⟨TokenType.DELIMITER, some ")", some 1, some 23⟩,
       ⟨TokenType.DELIMITER, some "\x7b", some 1, some 25⟩,
       ⟨TokenType.KEYWORD, some "printf", some 1, some 27⟩,
       ⟨TokenType.DELIMITER, some "(", some 1, some 33⟩,
       ⟨TokenType.STRING, some "%d", some 1, some 34⟩,
       ⟨TokenType.DELIMITER, some ",", some 1, some 38⟩,
       ⟨TokenType.IDENTIFIER, some "i", some 1, some 40⟩,
       ⟨TokenType.DELIMITER, some ")", some 1, some 41⟩,
       ⟨TokenType.DELIMITER, some ";", some 1, some 42⟩,
       ⟨TokenType.DELIMITER, some "\x7d", some 1, some 44⟩,
       eofToken])
      (Except.ok (some (Node.identifier (some "i")), [⟨TokenType.OPERATOR, some "++", some 1, some 21⟩,
       ⟨TokenType.DELIMITER, some ")", some 1, some 23⟩,
       ⟨TokenType.DELIMITER, some "\x7b", some 1, some 25⟩,
       ⟨TokenType.KEYWORD, some "printf", some 1, some 27⟩,
       ⟨TokenType.DELIMITER, some "(", some 1, some 33⟩,
       ⟨TokenType.STRING, some "%d", some 1, some 34⟩,
       ⟨TokenType.DELIMITER, some ",", some 1, some 38⟩,
       ⟨TokenType.IDENTIFIER, some "i", some 1, some 40⟩,
       ⟨TokenType.DELIMITER, some ")", some 1, some 41⟩,
       ⟨TokenType.DELIMITER, some ";", some 1, some 42⟩,
       ⟨TokenType.DELIMITER, some "\x7d", some 1, some 44⟩,
       eofToken]))
      (by simp [parseExpression, parseOrExpression, parseOrLoop, parseAndExpression,
        parseAndLoop, parseEqualityExpression, parseEqLoop, parseRelationalExpression,
        parseRelLoop, parseAdditiveExpression, parseAddLoop,
        parseMultiplicativeExpression, parseMulLoop, parsePrimaryExpression,
        jsParseFloat, readDigits, readFrac, isDigit, skipToken, typeKeywords, eofToken])
      (okBound_mk (by simp) (fun x => by simp))
  have hStmtPPA := subtype_eval (parseStatement
      [⟨TokenType.OPERATOR, some "++", some 1, some 21⟩,
       ⟨TokenType.DELIMITER, some ")", some 1, some 23⟩,
       ⟨TokenType.DELIMITER, some "\x7b", some 1, some 25⟩,
       ⟨TokenType.KEYWORD, some "printf", some 1, some 27⟩,
       ⟨TokenType.DELIMITER, some "(", some 1, some 33⟩,
       ⟨TokenType.STRING, some "%d", some 1, some 34⟩,
       ⟨TokenType.DELIMITER, some ",", some 1, some 38⟩,
       ⟨TokenType.IDENTIFIER, some "i", some 1, some 40⟩,
       ⟨TokenType.DELIMITER, some ")", some 1, some 41⟩,
       ⟨TokenType.DELIMITER, some ";", some 1, some 42⟩,
       ⟨TokenType.DELIMITER, some "\x7d", some 1, some 44⟩,
       eofToken])
      (Except.ok (none, [⟨TokenType.DELIMITER, some ")", some 1, some 23⟩,
       ⟨TokenType.DELIMITER, some "\x7b", some 1, some 25⟩,
       ⟨TokenType.KEYWORD, some "printf", some 1, some 27⟩,
       ⟨TokenType.DELIMITER, some "(", some 1, some 33⟩,
       ⟨TokenType.STRING, some "%d", some 1, some 34⟩,
       ⟨TokenType.DELIMITER, some ",", some 1, some 38⟩,
       ⟨TokenType.IDENTIFIER, some "i", some 1, some 40⟩,
       ⟨TokenType.DELIMITER, some ")", some 1, some 41⟩,
       ⟨TokenType.DELIMITER, some ";", some 1, some 42⟩,
       ⟨TokenType.DELIMITER, some "\x7d", some 1, some 44⟩,
       eofToken]))
      (by simp [parseStatement])
      (okBound_mk (by simp) (fun x => by simp))
  have hForTailA := subtype_eval (parseForTail (some (Node.assignment (some "i") "=" (some (Node.literal (LitVal.num (JNum.jval 0 0)) "int"))))
      [⟨TokenType.IDENTIFIER, some "i", some 1, some 13⟩,
       ⟨TokenType.OPERATOR, some "<", some 1, some 15⟩,
       ⟨TokenType.NUMBER, some "5", some 1, some 17⟩,
       ⟨TokenType.DELIMITER, some ";", some 1, some 18⟩,
       ⟨TokenType.IDENTIFIER, some "i", some 1, some 20⟩,
       ⟨TokenType.OPERATOR, some "++", some 1, some 21⟩,
       ⟨TokenType.DELIMITER, some ")", some 1, some 23⟩,
       ⟨TokenType.DELIMITER, some "\x7b", some 1, some 25⟩,
       ⟨TokenType.KEYWORD, some "printf", some 1, some 27⟩,
       ⟨TokenType.DELIMITER, some "(", some 1, some 33⟩,
       ⟨TokenType.STRING, some "%d", some 1, some 34⟩,
       ⟨TokenType.DELIMITER, some ",", some 1, some 38⟩,
       ⟨TokenType.IDENTIFIER, some "i", some 1, some 40⟩,
       ⟨TokenType.DELIMITER, some ")", some 1, some 41⟩,
       ⟨TokenType.DELIMITER, some ";", some 1, some 42⟩,
       ⟨TokenType.DELIMITER, some "\x7d", some 1, some 44⟩,
       eofToken])
      (Except.ok (some (Node.forLoop (some (Node.assignment (some "i") "=" (some (Node.literal (LitVal.num (JNum.jval 0 0)) "int")))) (some (Node.binaryExpr (some (Node.identifier (some "i"))) "<" (some (Node.literal (LitVal.num (JNum.jval 5 0)) "int")))) (some (Node.identifier (some "i"))) none), [⟨TokenType.DELIMITER, some ")", some 1, some 23⟩,
       ⟨TokenType.DELIMITER, some "\x7b", some 1, some 25⟩,
       ⟨TokenType.KEYWORD, some "printf", some 1, some 27⟩,
       ⟨TokenType.DELIMITER, some "(", some 1, some 33⟩,
       ⟨TokenType.STRING, some "%d", some 1, some 34⟩,
       ⟨TokenType.DELIMITER, some ",", some 1, some 38⟩,
       ⟨TokenType.IDENTIFIER, some "i", some 1, some 40⟩,
       ⟨TokenType.DELIMITER, some ")", some 1, some 41⟩,
       ⟨TokenType.DELIMITER, some ";", some 1, some 42⟩,
       ⟨TokenType.DELIMITER, some "\x7d", some 1, some 44⟩,
       eofToken]))
      (by simp [parseForTail, skipToken, hECondA, hEUpdA, hStmtPPA])
      (okBoundLe_mk (by simp))
  have hForStmtA := subtype_eval (parseForStatement
      [⟨TokenType.KEYWORD, some "for", some 1, some 1⟩,
       ⟨TokenType.DELIMITER, some "(", some 1, some 5⟩,
       ⟨TokenType.IDENTIFIER, some "i", some 1, some 6⟩,
       ⟨TokenType.OPERATOR, some "=", some 1, some 8⟩,
       ⟨TokenType.NUMBER, some "0", some 1, some 10⟩,
       ⟨TokenType.DELIMITER, some ";", some 1, some 11⟩,
       ⟨TokenType.IDENTIFIER, some "i", some 1, some 13⟩,
       ⟨TokenType.OPERATOR, some "<", some 1, some 15⟩,
       ⟨TokenType.NUMBER, some "5", some 1, some 17⟩,
       ⟨TokenType.DELIMITER, some ";", some 1, some 18⟩,
       ⟨TokenType.IDENTIFIER, some "i", some 1, some 20⟩,
       ⟨TokenType.OPERATOR, some "++", some 1, some 21⟩,
       ⟨TokenType.DELIMITER, some ")", some 1, some 23⟩,
       ⟨TokenType.DELIMITER, some "\x7b", some 1, some 25⟩,
       ⟨TokenType.KEYWORD, some "printf", some 1, some 27⟩,
       ⟨TokenType.DELIMITER, some "(", some 1, some 33⟩,
       ⟨TokenType.STRING, some "%d", some 1, some 34⟩,
       ⟨TokenType.DELIMITER, some ",", some 1, some 38⟩,
       ⟨TokenType.IDENTIFIER, some "i", some 1, some 40⟩,
       ⟨TokenType.DELIMITER, some ")", some 1, some 41⟩,
       ⟨TokenType.DELIMITER, some ";", some 1, some 42⟩,
       ⟨TokenType.DELIMITER, some "\x7d", some 1, some 44⟩,
       eofToken])
      (Except.ok (some (Node.forLoop (some (Node.assignment (some "i") "=" (some (Node.literal (LitVal.num (JNum.jval 0 0)) "int")))) (some (Node.binaryExpr (some (Node.identifier (some "i"))) "<" (some (Node.literal (LitVal.num (JNum.jval 5 0)) "int")))) (some (Node.identifier (some "i"))) none), [⟨TokenType.DELIMITER, some ")", some 1, some 23⟩,
       ⟨TokenType.DELIMITER, some "\x7b", some 1, some 25⟩,
       ⟨TokenType.KEYWORD, some "printf", some 1, some 27⟩,
       ⟨TokenType.DELIMITER, some "(", some 1, some 33⟩,
       ⟨TokenType.STRING, some "%d", some 1, some 34⟩,
       ⟨TokenType.DELIMITER, some ",", some 1, some 38⟩,
       ⟨TokenType.IDENTIFIER, some "i", some 1, some 40⟩,
       ⟨TokenType.DELIMITER, some ")", some 1, some 41⟩,
       ⟨TokenType.DELIMITER, some ";", some 1, some 42⟩,
       ⟨TokenType.DELIMITER, some "\x7d", some 1, some 44⟩,
       eofToken]))
      (by simp [parseForStatement, skipToken, hCall0A, hForTailA])
      (okBound_mk (by simp) (fun x => by simp))
  have hStmtForA := subtype_eval (parseStatement
      [⟨TokenType.KEYWORD, some "for", some 1, some 1⟩,
       ⟨TokenType.DELIMITER, some "(", some 1, some 5⟩,
       ⟨TokenType.IDENTIFIER, some "i", some 1, some 6⟩,
       ⟨TokenType.OPERATOR, some "=", some 1, some 8⟩,
       ⟨TokenType.NUMBER, some "0", some 1, some 10⟩,
       ⟨TokenType.DELIMITER, some ";", some 1, some 11⟩,
       ⟨TokenType.IDENTIFIER, some "i", some 1, some 13⟩,
       ⟨TokenType.OPERATOR, some "<", some 1, some 15⟩,
       ⟨TokenType.NUMBER, some "5", some 1, some 17⟩,
       ⟨TokenType.DELIMITER, some ";", some 1, some 18⟩,
       ⟨TokenType.IDENTIFIER, some "i", some 1, some 20⟩,
       ⟨TokenType.OPERATOR, some "++", some 1, some 21⟩,
       ⟨TokenType.DELIMITER, some ")", some 1, some 23⟩,
       ⟨TokenType.DELIMITER, some "\x7b", some 1, some 25⟩,
       ⟨TokenType.KEYWORD, some "printf", some 1, some 27⟩,
       ⟨TokenType.DELIMITER, some "(", some 1, some 33⟩,
       ⟨TokenType.STRING, some "%d", some 1, some 34⟩,
       ⟨TokenType.DELIMITER, some ",", some 1, some 38⟩,
       ⟨TokenType.IDENTIFIER, some "i", some 1, some 40⟩,
       ⟨TokenType.DELIMITER, some ")", some 1, some 41⟩,
       ⟨TokenType.DELIMITER, some ";", some 1, some 42⟩,
       ⟨TokenType.DELIMITER, some "\x7d", some 1, some 44⟩,
       eofToken])
      (Except.ok (some (Node.forLoop (some (Node.assignment (some "i") "=" (some (Node.literal (LitVal.num (JNum.jval 0 0)) "int")))) (some (Node.binaryExpr (some (Node.identifier (some "i"))) "<" (some (Node.literal (LitVal.num (JNum.jval 5 0)) "int")))) (some (Node.identifier (some "i"))) none), [⟨TokenType.DELIMITER, some ")", some 1, some 23⟩,
       ⟨TokenType.DELIMITER, some "\x7b", some 1, some 25⟩,
       ⟨TokenType.KEYWORD, some "printf", some 1, some 27⟩,
       ⟨TokenType.DELIMITER, some "(", some 1, some 33⟩,
       ⟨TokenType.STRING, some "%d", some 1, some 34⟩,
       ⟨TokenType.DELIMITER, some ",", some 1, some 38⟩,
       ⟨TokenType.IDENTIFIER, some "i", some 1, some 40⟩,
       ⟨TokenType.DELIMITER, some ")", some 1, some 41⟩,
       ⟨TokenType.DELIMITER, some ";", some 1, some 42⟩,
       ⟨TokenType.DELIMITER, some "\x7d", some 1, some 44⟩,
       eofToken]))
      (by simp [parseStatement, hForStmtA])
      (okBound_mk (by simp) (fun x => by simp))
  have hStmtRPA := subtype_eval (parseStatement
      [⟨TokenType.DELIMITER, some ")", some 1, some 23⟩,
       ⟨TokenType.DELIMITER, some "\x7b", some 1, some 25⟩,
       ⟨TokenType.KEYWORD, some "printf", some 1, some 27⟩,
       ⟨TokenType.DELIMITER, some "(", some 1, some 33⟩,
       ⟨TokenType.STRING, some "%d", some 1, some 34⟩,
       ⟨TokenType.DELIMITER, some ",", some 1, some 38⟩,
       ⟨TokenType.IDENTIFIER, some "i", some 1, some 40⟩,
       ⟨TokenType.DELIMITER, some ")", some 1, some 41⟩,
       ⟨TokenType.DELIMITER, some ";", some 1, some 42⟩,
       ⟨TokenType.DELIMITER, some "\x7d", some 1, some 44⟩,
       eofToken])
      (Except.ok (none, [⟨TokenType.DELIMITER, some "\x7b", some 1, some 25⟩,
       ⟨TokenType.KEYWORD, some "printf", some 1, some 27⟩,
       ⟨TokenType.DELIMITER, some "(", some 1, some 33⟩,
       ⟨TokenType.STRING, some "%d", some 1, some 34⟩,
       ⟨TokenType.DELIMITER, some ",", some 1, some 38⟩,
       ⟨TokenType.IDENTIFIER, some "i", some 1, some 40⟩,
       ⟨TokenType.DELIMITER, some ")", some 1, some 41⟩,
       ⟨TokenType.DELIMITER, some ";", some 1, some 42⟩,
       ⟨TokenType.DELIMITER, some "\x7d", some 1, some 44⟩,
       eofToken]))
      (by simp [parseStatement])
      (okBound_mk (by simp) (fun x => by simp))
  have hEStrA := subtype_eval (parseExpression
      [⟨TokenType.STRING, some "%d", some 1, some 34⟩,
       ⟨TokenType.DELIMITER, some ",", some 1, some 38⟩,
       ⟨TokenType.IDENTIFIER, some "i", some 1, some 40⟩,
       ⟨TokenType.DELIMITER, some ")", some 1, some 41⟩,
       ⟨TokenType.DELIMITER, some ";", some 1, some 42⟩,
       ⟨TokenType.DELIMITER, some "\x7d", some 1, some 44⟩,
       eofToken])
      (Except.ok (some (Node.literal (LitVal.str (some "%d")) "string"), [⟨TokenType.DELIMITER, some ",", some 1, some 38⟩,
       ⟨TokenType.IDENTIFIER, some "i", some 1, some 40⟩,
       ⟨TokenType.DELIMITER, some ")", some 1, some 41⟩,
       ⟨TokenType.DELIMITER, some ";", some 1, some 42⟩,
       ⟨TokenType.DELIMITER, some "\x7d", some 1, some 44⟩,
       eofToken]))
      (by simp [parseExpression, parseOrExpression, parseOrLoop, parseAndExpression,
        parseAndLoop, parseEqualityExpression, parseEqLoop, parseRelationalExpression,
        parseRelLoop, parseAdditiveExpression, parseAddLoop,
        parseMultiplicativeExpression, parseMulLoop, parsePrimaryExpression,
        jsParseFloat, readDigits, readFrac, isDigit, skipToken, typeKeywords, eofToken])
      (okBound_mk (by simp) (fun x => by simp))
  have hEiA := subtype_eval (parseExpression
      [⟨TokenType.IDENTIFIER, some "i", some 1, some 40⟩,
       ⟨TokenType.DELIMITER, some ")", some 1, some 41⟩,
       ⟨TokenType.DELIMITER, some ";", some 1, some 42⟩,
       ⟨TokenType.DELIMITER, some "\x7d", some 1, some 44⟩,
       eofToken])
      (Except.ok (some (Node.identifier (some "i")), [⟨TokenType.DELIMITER, some ")", some 1, some 41⟩,
       ⟨TokenType.DELIMITER, some ";", some 1, some 42⟩,
       ⟨TokenType.DELIMITER, some "\x7d", some 1, some 44⟩,
       eofToken]))
      (by simp [parseExpression, parseOrExpression, parseOrLoop, parseAndExpression,
        parseAndLoop, parseEqualityExpression, parseEqLoop, parseRelationalExpression,
        parseRelLoop, parseAdditiveExpression, parseAddLoop,
        parseMultiplicativeExpression, parseMulLoop, parsePrimaryExpression,
        jsParseFloat, readDigits, readFrac, isDigit, skipToken, typeKeywords, eofToken])
      (okBound_mk (by simp) (fun x => by simp))
  have hArgsA := subtype_eval (parseArgsLoop
      [⟨TokenType.STRING, some "%d", some 1, some 34⟩,
       ⟨TokenType.DELIMITER, some ",", some 1, some 38⟩,
       ⟨TokenType.IDENTIFIER, some "i", some 1, some 40⟩,
       ⟨TokenType.DELIMITER, some ")", some 1, some 41⟩,
       ⟨TokenType.DELIMITER, some ";", some 1, some 42⟩,
       ⟨TokenType.DELIMITER, some "\x7d", some 1, some 44⟩,
       eofToken])
      (Except.ok ([(Node.literal (LitVal.str (some "%d")) "string"), (Node.identifier (some "i"))], [⟨TokenType.DELIMITER, some ";", some 1, some 42⟩,
       ⟨TokenType.DELIMITER, some "\x7d", some 1, some 44⟩,
       eofToken]))
      (by
        simp only [parseArgsLoop]
        rw [hEStrA]
        simp only [parseArgsLoop]
        rw [hEiA]
        simp [parseArgsLoop])
      (okBoundList_mk (by simp))
  have hPrintfA := subtype_eval (parsePrintfStatement
      [⟨TokenType.KEYWORD, some "printf", some 1, some 27⟩,
       ⟨TokenType.DELIMITER, some "(", some 1, some 33⟩,
       ⟨TokenType.STRING, some "%d", some 1, some 34⟩,
       ⟨TokenType.DELIMITER, some ",", some 1, some 38⟩,
       ⟨TokenType.IDENTIFIER, some "i", some 1, some 40⟩,
       ⟨TokenType.DELIMITER, some ")", some 1, some 41⟩,
       ⟨TokenType.DELIMITER, some ";", some 1, some 42⟩,
       ⟨TokenType.DELIMITER, some "\x7d", some 1, some 44⟩,
       eofToken])
      (Except.ok (some (Node.printfStmt [(Node.literal (LitVal.str (some "%d")) "string"), (Node.identifier (some "i"))]), [⟨TokenType.DELIMITER, some "\x7d", some 1, some 44⟩,
       eofToken]))
      (by simp [parsePrintfStatement, skipToken, hArgsA])
      (okBound_mk (by simp) (fun x => by simp))
  have hStmtPrintfA := subtype_eval (parseStatement
      [⟨TokenType.KEYWORD, some "printf", some 1, some 27⟩,
       ⟨TokenType.DELIMITER, some "(", some 1, some 33⟩,
       ⟨TokenType.STRING, some "%d", some 1, some 34⟩,
       ⟨TokenType.DELIMITER, some ",", some 1, some 38⟩,
       ⟨TokenType.IDENTIFIER, some "i", some 1, some 40⟩,
       ⟨TokenType.DELIMITER, some ")", some 1, some 41⟩,
       ⟨TokenType.DELIMITER, some ";", some 1, some 42⟩,
       ⟨TokenType.DELIMITER, some "\x7d", some 1, some 44⟩,
       eofToken])
      (Except.ok (some (Node.printfStmt [(Node.literal (LitVal.str (some "%d")) "string"), (Node.identifier (some "i"))]), [⟨TokenType.DELIMITER, some "\x7d", some 1, some 44⟩,
       eofToken]))
      (by simp [parseStatement, hPrintfA])
      (okBound_mk (by simp) (fun x => by simp))
  have hBlockLoopA := subtype_eval (parseBlockLoop
      [⟨TokenType.KEYWORD, some "printf", some 1, some 27⟩,
       ⟨TokenType.DELIMITER, some "(", some 1, some 33⟩,
       ⟨TokenType.STRING, some "%d", some 1, some 34⟩,
       ⟨TokenType.DELIMITER, some ",", some 1, some 38⟩,
       ⟨TokenType.IDENTIFIER, some "i", some 1, some 40⟩,
       ⟨TokenType.DELIMITER, some ")", some 1, some 41⟩,
       ⟨TokenType.DELIMITER, some ";", some 1, some 42⟩,
       ⟨TokenType.DELIMITER, some "\x7d", some 1, some 44⟩,
       eofToken])
      (Except.ok ([(Node.printfStmt [(Node.literal (LitVal.str (some "%d")) "string"), (Node.identifier (some "i"))])], [eofToken]))
      (by
        simp only [parseBlockLoop]
        rw [hStmtPrintfA]
        simp [parseBlockLoop])
      (okBoundList_mk (by simp))
  have hBlockA := subtype_eval (parseBlock
      [⟨TokenType.DELIMITER, some "\x7b", some 1, some 25⟩,
       ⟨TokenType.KEYWORD, some "printf", some 1, some 27⟩,
       ⟨TokenType.DELIMITER, some "(", some 1, some 33⟩,
       ⟨TokenType.STRING, some "%d", some 1, some 34⟩,
       ⟨TokenType.DELIMITER, some ",", some 1, some 38⟩,
       ⟨TokenType.IDENTIFIER, some "i", some 1, some 40⟩,
       ⟨TokenType.DELIMITER, some ")", some 1, some 41⟩,
       ⟨TokenType.DELIMITER, some ";", some 1, some 42⟩,
       ⟨TokenType.DELIMITER, some "\x7d", some 1, some 44⟩,
       eofToken])
      (Except.ok (some (Node.block [(Node.printfStmt [(Node.literal (LitVal.str (some "%d")) "string"), (Node.identifier (some "i"))])]), [eofToken]))
      (by simp [parseBlock, hBlockLoopA])
      (okBound_mk (by simp) (fun x => by simp))
  have hStmtLBA := subtype_eval (parseStatement
      [⟨TokenType.DELIMITER, some "\x7b", some 1, some 25⟩,
       ⟨TokenType.KEYWORD, some "printf", some 1, some 27⟩,
       ⟨TokenType.DELIMITER, some "(", some 1, some 33⟩,
       ⟨TokenType.STRING, some "%d", some 1, some 34⟩,
       ⟨TokenType.DELIMITER, some ",", some 1, some 38⟩,
       ⟨TokenType.IDENTIFIER, some "i", some 1, some 40⟩,
       ⟨TokenType.DELIMITER, some ")", some 1, some 41⟩,
       ⟨TokenType.DELIMITER, some ";", some 1, some 42⟩,
       ⟨TokenType.DELIMITER, some "\x7d", some 1, some 44⟩,
       eofToken])
      (Except.ok (some (Node.block [(Node.printfStmt [(Node.literal (LitVal.str (some "%d")) "string"), (Node.identifier (some "i"))])]), [eofToken]))
      (by simp [parseStatement, hBlockA])
      (okBound_mk (by simp) (fun x => by simp))
  have hProgA := subtype_eval (parseProgramLoop
      [⟨TokenType.KEYWORD, some "for", some 1, some 1⟩,
       ⟨TokenType.DELIMITER, some "(", some 1, some 5⟩,
       ⟨TokenType.IDENTIFIER, some "i", some 1, some 6⟩,
       ⟨TokenType.OPERATOR, some "=", some 1, some 8⟩,
       ⟨TokenType.NUMBER, some "0", some 1, some 10⟩,
       ⟨TokenType.DELIMITER, some ";", some 1, some 11⟩,
       ⟨TokenType.IDENTIFIER, some "i", some 1, some 13⟩,
       ⟨TokenType.OPERATOR, some "<", some 1, some 15⟩,
       ⟨TokenType.NUMBER, some "5", some 1, some 17⟩,
       ⟨TokenType.DELIMITER, some ";", some 1, some 18⟩,
       ⟨TokenType.IDENTIFIER, some "i", some 1, some 20⟩,
       ⟨TokenType.OPERATOR, some "++", some 1, some 21⟩,
       ⟨TokenType.DELIMITER, some ")", some 1, some 23⟩,
       ⟨TokenType.DELIMITER, some "\x7b", some 1, some 25⟩,
       ⟨TokenType.KEYWORD, some "printf", some 1, some 27⟩,
       ⟨TokenType.DELIMITER, some "(", some 1, some 33⟩,
       ⟨TokenType.STRING, some "%d", some 1, some 34⟩,
       ⟨TokenType.DELIMITER, some ",", some 1, some 38⟩,
       ⟨TokenType.IDENTIFIER, some "i", some 1, some 40⟩,
       ⟨TokenType.DELIMITER, some ")", some 1, some 41⟩,
       ⟨TokenType.DELIMITER, some ";", some 1, some 42⟩,
       ⟨TokenType.DELIMITER, some "\x7d", some 1, some 44⟩,
       eofToken])
      (Except.ok ([(Node.forLoop (some (Node.assignment (some "i") "=" (some (Node.literal (LitVal.num (JNum.jval 0 0)) "int")))) (some (Node.binaryExpr (some (Node.identifier (some "i"))) "<" (some (Node.literal (LitVal.num (JNum.jval 5 0)) "int")))) (some (Node.identifier (some "i"))) none), (Node.block [(Node.printfStmt [(Node.literal (LitVal.str (some "%d")) "string"), (Node.identifier (some "i"))])])], [eofToken]))
      (by
        simp only [parseProgramLoop]
        rw [hStmtForA]
        simp only [parseProgramLoop]
        rw [hStmtRPA]
        simp only [parseProgramLoop]
        rw [hStmtLBA]
        simp [parseProgramLoop, eofToken])
      (by
        intro ns rest h
        injection h with h2
        injection h2 with ha hb
        subst ha
        subst hb
        simp)
  have hE0B := subtype_eval (parseExpression
      [⟨TokenType.NUMBER, some "0", some 1, some 10⟩,
       ⟨TokenType.DELIMITER, some ";", some 1, some 11⟩,
       ⟨TokenType.IDENTIFIER, some "i", some 1, some 13⟩,
       ⟨TokenType.OPERATOR, some "<=", some 1, some 15⟩,
       ⟨TokenType.NUMBER, some "5", some 1, some 18⟩,
       ⟨TokenType.DELIMITER, some ";", some 1, some 19⟩,
       ⟨TokenType.IDENTIFIER, some "i", some 1, some 21⟩,
       ⟨TokenType.OPERATOR, some "++", some 1, some 22⟩,
       ⟨TokenType.DELIMITER, some ")", some 1, some 24⟩,
       ⟨TokenType.DELIMITER, some "\x7b", some 1, some 26⟩,
       ⟨TokenType.KEYWORD, some "printf", some 1, some 28⟩,
       ⟨TokenType.DELIMITER, some "(", some 1, some 34⟩,
       ⟨TokenType.STRING, some "%d", some 1, some 35⟩,
       ⟨TokenType.DELIMITER, some ",", some 1, some 39⟩,
       ⟨TokenType.IDENTIFIER, some "i", some 1, some 41⟩,
       ⟨TokenType.DELIMITER, some ")", some 1, some 42⟩,
       ⟨TokenType.DELIMITER, some ";", some 1, some 43⟩,
       ⟨TokenType.DELIMITER, some "\x7d", some 1, some 45⟩,
       eofToken])
      (Except.ok (some (Node.literal (LitVal.num (JNum.jval 0 0)) "int"), [⟨TokenType.DELIMITER, some ";", some 1, some 11⟩,
       ⟨TokenType.IDENTIFIER, some "i", some 1, some 13⟩,
       ⟨TokenType.OPERATOR, some "<=", some 1, some 15⟩,
       ⟨TokenType.NUMBER, some "5", some 1, some 18⟩,
       ⟨TokenType.DELIMITER, some ";", some 1, some 19⟩,
       ⟨TokenType.IDENTIFIER, some "i", some 1, some 21⟩,
       ⟨TokenType.OPERATOR, some "++", some 1, some 22⟩,
       ⟨TokenType.DELIMITER, some ")", some 1, some 24⟩,
       ⟨TokenType.DELIMITER, some "\x7b", some 1, some 26⟩,
       ⟨TokenType.KEYWORD, some "printf", some 1, some 28⟩,
       ⟨TokenType.DELIMITER, some "(", some 1, some 34⟩,
       ⟨TokenType.STRING, some "%d", some 1, some 35⟩,
       ⟨TokenType.DELIMITER, some ",", some 1, some 39⟩,
       ⟨TokenType.IDENTIFIER, some "i", some 1, some 41⟩,
       ⟨TokenType.DELIMITER, some ")", some 1, some 42⟩,
       ⟨TokenType.DELIMITER, some ";", some 1, some 43⟩,
       ⟨TokenType.DELIMITER, some "\x7d", some 1, some 45⟩,
       eofToken]))
      (by simp [parseExpression, parseOrExpression, parseOrLoop, parseAndExpression,
        parseAndLoop, parseEqualityExpression, parseEqLoop, parseRelationalExpression,
        parseRelLoop, parseAdditiveExpression, parseAddLoop,
        parseMultiplicativeExpression, parseMulLoop, parsePrimaryExpression,
        jsParseFloat, readDigits, readFrac, isDigit, skipToken, typeKeywords, eofToken])
      (okBound_mk (by simp) (fun x => by simp))
  have hAT0B := subtype_eval (parseAssignTail (some "i") "="
      [⟨TokenType.NUMBER, some "0", some 1, some 10⟩,
       ⟨TokenType.DELIMITER, some ";", some 1, some 11⟩,
       ⟨TokenType.IDENTIFIER, some "i", some 1, some 13⟩,
       ⟨TokenType.OPERATOR, some "<=", some 1, some 15⟩,
       ⟨TokenType.NUMBER, some "5", some 1, some 18⟩,
       ⟨TokenType.DELIMITER, some ";", some 1, some 19⟩,
       ⟨TokenType.IDENTIFIER, some "i", some 1, some 21⟩,
       ⟨TokenType.OPERATOR, some "++", some 1, some 22⟩,
       ⟨TokenType.DELIMITER, some ")", some 1, some 24⟩,
       ⟨TokenType.DELIMITER, some "\x7b", some 1, some 26⟩,
       ⟨TokenType.KEYWORD, some "printf", some 1, some 28⟩,
       ⟨TokenType.DELIMITER, some "(", some 1, some 34⟩,
       ⟨TokenType.STRING, some "%d", some 1, some 35⟩,
       ⟨TokenType.DELIMITER, some ",", some 1, some 39⟩,
       ⟨TokenType.IDENTIFIER, some "i", some 1, some 41⟩,
       ⟨TokenType.DELIMITER, some ")", some 1, some 42⟩,
       ⟨TokenType.DELIMITER, some ";", some 1, some 43⟩,
       ⟨TokenType.DELIMITER, some "\x7d", some 1, some 45⟩,
       eofToken])
      (Except.ok (some (Node.assignment (some "i") "=" (some (Node.literal (LitVal.num (JNum.jval 0 0)) "int"))), [⟨TokenType.IDENTIFIER, some "i", some 1, some 13⟩,
       ⟨TokenType.OPERATOR, some "<=", some 1, some 15⟩,
       ⟨TokenType.NUMBER, some "5", some 1, some 18⟩,
       ⟨TokenType.DELIMITER, some ";", some 1, some 19⟩,
       ⟨TokenType.IDENTIFIER, some "i", some 1, some 21⟩,
       ⟨TokenType.OPERATOR, some "++", some 1, some 22⟩,
       ⟨TokenType.DELIMITER, some ")", some 1, some 24⟩,
       ⟨TokenType.DELIMITER, some "\x7b", some 1, some 26⟩,
       ⟨TokenType.KEYWORD, some "printf", some 1, some 28⟩,
       ⟨TokenType.DELIMITER, some "(", some 1, some 34⟩,
       ⟨TokenType.STRING, some "%d", some 1, some 35⟩,
       ⟨TokenType.DELIMITER, some ",", some 1, some 39⟩,
       ⟨TokenType.IDENTIFIER, some "i", some 1, some 41⟩,
       ⟨TokenType.DELIMITER, some ")", some 1, some 42⟩,
       ⟨TokenType.DELIMITER, some ";", some 1, some 43⟩,
       ⟨TokenType.DELIMITER, some "\x7d", some 1, some 45⟩,
       eofToken]))
      (by simp [parseAssignTail, hE0B, skipToken])
      (okBoundLe_mk (by simp))
  have hCall0B := subtype_eval (parseAssignmentOrFunctionCall
      [⟨TokenType.IDENTIFIER, some "i", some 1, some 6⟩,
       ⟨TokenType.OPERATOR, some "=", some 1, some 8⟩,
       ⟨TokenType.NUMBER, some "0", some 1, some 10⟩,
       ⟨TokenType.DELIMITER, some ";", some 1, some 11⟩,
       ⟨TokenType.IDENTIFIER, some "i", some 1, some 13⟩,
       ⟨TokenType.OPERATOR, some "<=", some 1, some 15⟩,
       ⟨TokenType.NUMBER, some "5", some 1, some 18⟩,
       ⟨TokenType.DELIMITER, some ";", some 1, some 19⟩,
       ⟨TokenType.IDENTIFIER, some "i", some 1, some 21⟩,
       ⟨TokenType.OPERATOR, some "++", some 1, some 22⟩,
       ⟨TokenType.DELIMITER, some ")", some 1, some 24⟩,
       ⟨TokenType.DELIMITER, some "\x7b", some 1, some 26⟩,
       ⟨TokenType.KEYWORD, some "printf", some 1, some 28⟩,
       ⟨TokenType.DELIMITER, some "(", some 1, some 34⟩,
       ⟨TokenType.STRING, some "%d", some 1, some 35⟩,
       ⟨TokenType.DELIMITER, some ",", some 1, some 39⟩,
       ⟨TokenType.IDENTIFIER, some "i", some 1, some 41⟩,
       ⟨TokenType.DELIMITER, some ")", some 1, some 42⟩,
       ⟨TokenType.DELIMITER, some ";", some 1, some 43⟩,
       ⟨TokenType.DELIMITER, some "\x7d", some 1, some 45⟩,
       eofToken])
      (Except.ok (some (Node.assignment (some "i") "=" (some (Node.literal (LitVal.num (JNum.jval 0 0)) "int"))), [⟨TokenType.IDENTIFIER, some "i", some 1, some 13⟩,
       ⟨TokenType.OPERATOR, some "<=", some 1, some 15⟩,
       ⟨TokenType.NUMBER, some "5", some 1, some 18⟩,
       ⟨TokenType.DELIMITER, some ";", some 1, some 19⟩,
       ⟨TokenType.IDENTIFIER, some "i", some 1, some 21⟩,
       ⟨TokenType.OPERATOR, some "++", some 1, some 22⟩,
       ⟨TokenType.DELIMITER, some ")", some 1, some 24⟩,
       ⟨TokenType.DELIMITER, some "\x7b", some 1, some 26⟩,
       ⟨TokenType.KEYWORD, some "printf", some 1, some 28⟩,
       ⟨TokenType.DELIMITER, some "(", some 1, some 34⟩,
       ⟨TokenType.STRING, some "%d", some 1, some 35⟩,
       ⟨TokenType.DELIMITER, some ",", some 1, some 39⟩,
       ⟨TokenType.IDENTIFIER, some "i", some 1, some 41⟩,
       ⟨TokenType.DELIMITER, some ")", some 1, some 42⟩,
       ⟨TokenType.DELIMITER, some ";", some 1, some 43⟩,
       ⟨TokenType.DELIMITER, some "\x7d", some 1, some 45⟩,
       eofToken]))
      (by simp [parseAssignmentOrFunctionCall, hAT0B])
      (okBound_mk (by simp) (fun x => by simp))
  have hECondB := subtype_eval (parseExpression
      [⟨TokenType.IDENTIFIER, some "i", some 1, some 13⟩,
       ⟨TokenType.OPERATOR, some "<=", some 1, some 15⟩,
       ⟨TokenType.NUMBER, some "5", some 1, some 18⟩,
       ⟨TokenType.DELIMITER, some ";", some 1, some 19⟩,
       ⟨TokenType.IDENTIFIER, some "i", some 1, some 21⟩,
       ⟨TokenType.OPERATOR, some "++", some 1, some 22⟩,
       ⟨TokenType.DELIMITER, some ")", some 1, some 24⟩,
       ⟨TokenType.DELIMITER, some "\x7b", some 1, some 26⟩,
       ⟨TokenType.KEYWORD, some "printf", some 1, some 28⟩,
       ⟨TokenType.DELIMITER, some "(", some 1, some 34⟩,
       ⟨TokenType.STRING, some "%d", some 1, some 35⟩,
       ⟨TokenType.DELIMITER, some ",", some 1, some 39⟩,
       ⟨TokenType.IDENTIFIER, some "i", some 1, some 41⟩,
       ⟨TokenType.DELIMITER, some ")", some 1, some 42⟩,
       ⟨TokenType.DELIMITER, some ";", some 1, some 43⟩,
       ⟨TokenType.DELIMITER, some "\x7d", some 1, some 45⟩,
       eofToken])
      (Except.ok (some (Node.binaryExpr (some (Node.identifier (some "i"))) "<=" (some (Node.literal (LitVal.num (JNum.jval 5 0)) "int"))), [⟨TokenType.DELIMITER, some ";", some 1, some 19⟩,
       ⟨TokenType.IDENTIFIER, some "i", some 1, some 21⟩,
       ⟨TokenType.OPERATOR, some "++", some 1, some 22⟩,
       ⟨TokenType.DELIMITER, some ")", some 1, some 24⟩,
       ⟨TokenType.DELIMITER, some "\x7b", some 1, some 26⟩,
       ⟨TokenType.KEYWORD, some "printf", some 1, some 28⟩,
       ⟨TokenType.DELIMITER, some "(", some 1, some 34⟩,
       ⟨TokenType.STRING, some "%d", some 1, some 35⟩,
       ⟨TokenType.DELIMITER, some ",", some 1, some 39⟩,
       ⟨TokenType.IDENTIFIER, some "i", some 1, some 41⟩,
       ⟨TokenType.DELIMITER, some ")", some 1, some 42⟩,
       ⟨TokenType.DELIMITER, some ";", some 1, some 43⟩,
       ⟨TokenType.DELIMITER, some "\x7d", some 1, some 45⟩,
       eofToken]))
      (by simp [parseExpression, parseOrExpression, parseOrLoop, parseAndExpression,
        parseAndLoop, parseEqualityExpression, parseEqLoop, parseRelationalExpression,
        parseRelLoop, parseAdditiveExpression, parseAddLoop,
        parseMultiplicativeExpression, parseMulLoop, parsePrimaryExpression,
        jsParseFloat, readDigits, readFrac, isDigit, skipToken, typeKeywords, eofToken])
      (okBound_mk (by simp) (fun x => by simp))
  have hEUpdB := subtype_eval (parseExpression
      [⟨TokenType.IDENTIFIER, some "i", some 1, some 21⟩,
       ⟨TokenType.OPERATOR, some "++", some 1, some 22⟩,
       ⟨TokenType.DELIMITER, some ")", some 1, some 24⟩,
       ⟨TokenType.DELIMITER, some "\x7b", some 1, some 26⟩,
       ⟨TokenType.KEYWORD, some "printf", some 1, some 28⟩,
       ⟨TokenType.DELIMITER, some "(", some 1, some 34⟩,
       ⟨TokenType.STRING, some "%d", some 1, some 35⟩,
       ⟨TokenType.DELIMITER, some ",", some 1, some 39⟩,
       ⟨TokenType.IDENTIFIER, some "i", some 1, some 41⟩,
       ⟨TokenType.DELIMITER, some ")", some 1, some 42⟩,
       ⟨TokenType.DELIMITER, some ";", some 1, some 43⟩,
       ⟨TokenType.DELIMITER, some "\x7d", some 1, some 45⟩,
       eofToken])
      (Except.ok (some (Node.identifier (some "i")), [⟨TokenType.OPERATOR, some "++", some 1, some 22⟩,
       ⟨TokenType.DELIMITER, some ")", some 1, some 24⟩,
       ⟨TokenType.DELIMITER, some "\x7b", some 1, some 26⟩,
       ⟨TokenType.KEYWORD, some "printf", some 1, some 28⟩,
       ⟨TokenType.DELIMITER, some "(", some 1, some 34⟩,
       ⟨TokenType.STRING, some "%d", some 1, some 35⟩,
       ⟨TokenType.DELIMITER, some ",", some 1, some 39⟩,
       ⟨TokenType.IDENTIFIER, some "i", some 1, some 41⟩,
       ⟨TokenType.DELIMITER, some ")", some 1, some 42⟩,
       ⟨TokenType.DELIMITER, some ";", some 1, some 43⟩,
       ⟨TokenType.DELIMITER, some "\x7d", some 1, some 45⟩,
       eofToken]))
      (by simp [parseExpression, parseOrExpression, parseOrLoop, parseAndExpression,
        parseAndLoop, parseEqualityExpression, parseEqLoop, parseRelationalExpression,
        parseRelLoop, parseAdditiveExpression, parseAddLoop,
        parseMultiplicativeExpression, parseMulLoop, parsePrimaryExpression,
        jsParseFloat, readDigits, readFrac, isDigit, skipToken, typeKeywords, eofToken])
      (okBound_mk (by simp) (fun x => by simp))
  have hStmtPPB := subtype_eval (parseStatement
      [⟨TokenType.OPERATOR, some "++", some 1, some 22⟩,
       ⟨TokenType.DELIMITER, some ")", some 1, some 24⟩,
       ⟨TokenType.DELIMITER, some "\x7b", some 1, some 26⟩,
       ⟨TokenType.KEYWORD, some "printf", some 1, some 28⟩,
       ⟨TokenType.DELIMITER, some "(", some 1, some 34⟩,
       ⟨TokenType.STRING, some "%d", some 1, some 35⟩,
       ⟨TokenType.DELIMITER, some ",", some 1, some 39⟩,
       ⟨TokenType.IDENTIFIER, some "i", some 1, some 41⟩,
       ⟨TokenType.DELIMITER, some ")", some 1, some 42⟩,
       ⟨TokenType.DELIMITER, some ";", some 1, some 43⟩,
       ⟨TokenType.DELIMITER, some "\x7d", some 1, some 45⟩,
       eofToken])
      (Except.ok (none, [⟨TokenType.DELIMITER, some ")", some 1, some 24⟩,
       ⟨TokenType.DELIMITER, some "\x7b", some 1, some 26⟩,
       ⟨TokenType.KEYWORD, some "printf", some 1, some 28⟩,
       ⟨TokenType.DELIMITER, some "(", some 1, some 34⟩,
       ⟨TokenType.STRING, some "%d", some 1, some 35⟩,
       ⟨TokenType.DELIMITER, some ",", some 1, some 39⟩,
       ⟨TokenType.IDENTIFIER, some "i", some 1, some 41⟩,
       ⟨TokenType.DELIMITER, some ")", some 1, some 42⟩,
       ⟨TokenType.DELIMITER, some ";", some 1, some 43⟩,
       ⟨TokenType.DELIMITER, some "\x7d", some 1, some 45⟩,
       eofToken]))
      (by simp [parseStatement])
      (okBound_mk (by simp) (fun x => by simp))
  have hForTailB := subtype_eval (parseForTail (some (Node.assignment (some "i") "=" (some (Node.literal (LitVal.num (JNum.jval 0 0)) "int"))))
      [⟨TokenType.IDENTIFIER, some "i", some 1, some 13⟩,
       ⟨TokenType.OPERATOR, some "<=", some 1, some 15⟩,
       ⟨TokenType.NUMBER, some "5", some 1, some 18⟩,
       ⟨TokenType.DELIMITER, some ";", some 1, some 19⟩,
       ⟨TokenType.IDENTIFIER, some "i", some 1, some 21⟩,
       ⟨TokenType.OPERATOR, some "++", some 1, some 22⟩,
       ⟨TokenType.DELIMITER, some ")", some 1, some 24⟩,
       ⟨TokenType.DELIMITER, some "\x7b", some 1, some 26⟩,
       ⟨TokenType.KEYWORD, some "printf", some 1, some 28⟩,
       ⟨TokenType.DELIMITER, some "(", some 1, some 34⟩,
       ⟨TokenType.STRING, some "%d", some 1, some 35⟩,
       ⟨TokenType.DELIMITER, some ",", some 1, some 39⟩,
       ⟨TokenType.IDENTIFIER, some "i", some 1, some 41⟩,
       ⟨TokenType.DELIMITER, some ")", some 1, some 42⟩,
       ⟨TokenType.DELIMITER, some ";", some 1, some 43⟩,
       ⟨TokenType.DELIMITER, some "\x7d", some 1, some 45⟩,
       eofToken])
      (Except.ok (some (Node.forLoop (some (Node.assignment (some "i") "=" (some (Node.literal (LitVal.num (JNum.jval 0 0)) "int")))) (some (Node.binaryExpr (some (Node.identifier (some "i"))) "<=" (some (Node.literal (LitVal.num (JNum.jval 5 0)) "int")))) (some (Node.identifier (some "i"))) none), [⟨TokenType.DELIMITER, some ")", some 1, some 24⟩,
       ⟨TokenType.DELIMITER, some "\x7b", some 1, some 26⟩,
       ⟨TokenType.KEYWORD, some "printf", some 1, some 28⟩,
       ⟨TokenType.DELIMITER, some "(", some 1, some 34⟩,
       ⟨TokenType.STRING, some "%d", some 1, some 35⟩,
       ⟨TokenType.DELIMITER, some ",", some 1, some 39⟩,
       ⟨TokenType.IDENTIFIER, some "i", some 1, some 41⟩,
       ⟨TokenType.DELIMITER, some ")", some 1, some 42⟩,
       ⟨TokenType.DELIMITER, some ";", some 1, some 43⟩,
       ⟨TokenType.DELIMITER, some "\x7d", some 1, some 45⟩,
       eofToken]))
      (by simp [parseForTail, skipToken, hECondB, hEUpdB, hStmtPPB])
      (okBoundLe_mk (by simp))
  have hForStmtB := subtype_eval (parseForStatement
      [⟨TokenType.KEYWORD, some "for", some 1, some 1⟩,
       ⟨TokenType.DELIMITER, some "(", some 1, some 5⟩,
       ⟨TokenType.IDENTIFIER, some "i", some 1, some 6⟩,
       ⟨TokenType.OPERATOR, some "=", some 1, some 8⟩,
       ⟨TokenType.NUMBER, some "0", some 1, some 10⟩,
       ⟨TokenType.DELIMITER, some ";", some 1, some 11⟩,
       ⟨TokenType.IDENTIFIER, some "i", some 1, some 13⟩,
       ⟨TokenType.OPERATOR, some "<=", some 1, some 15⟩,
       ⟨TokenType.NUMBER, some "5", some 1, some 18⟩,
       ⟨TokenType.DELIMITER, some ";", some 1, some 19⟩,
       ⟨TokenType.IDENTIFIER, some "i", some 1, some 21⟩,
       ⟨TokenType.OPERATOR, some "++", some 1, some 22⟩,
       ⟨TokenType.DELIMITER, some ")", some 1, some 24⟩,
       ⟨TokenType.DELIMITER, some "\x7b", some 1, some 26⟩,
       ⟨TokenType.KEYWORD, some "printf", some 1, some 28⟩,
       ⟨TokenType.DELIMITER, some "(", some 1, some 34⟩,
       ⟨TokenType.STRING, some "%d", some 1, some 35⟩,
       ⟨TokenType.DELIMITER, some ",", some 1, some 39⟩,
       ⟨TokenType.IDENTIFIER, some "i", some 1, some 41⟩,
       ⟨TokenType.DELIMITER, some ")", some 1, some 42⟩,
       ⟨TokenType.DELIMITER, some ";", some 1, some 43⟩,
       ⟨TokenType.DELIMITER, some "\x7d", some 1, some 45⟩,
       eofToken])
      (Except.ok (some (Node.forLoop (some (Node.assignment (some "i") "=" (some (Node.literal (LitVal.num (JNum.jval 0 0)) "int")))) (some (Node.binaryExpr (some (Node.identifier (some "i"))) "<=" (some (Node.literal (LitVal.num (JNum.jval 5 0)) "int")))) (some (Node.identifier (some "i"))) none), [⟨TokenType.DELIMITER, some ")", some 1, some 24⟩,
       ⟨TokenType.DELIMITER, some "\x7b", some 1, some 26⟩,
       ⟨TokenType.KEYWORD, some "printf", some 1, some 28⟩,
       ⟨TokenType.DELIMITER, some "(", some 1, some 34⟩,
       ⟨TokenType.STRING, some "%d", some 1, some 35⟩,
       ⟨TokenType.DELIMITER, some ",", some 1, some 39⟩,
       ⟨TokenType.IDENTIFIER, some "i", some 1, some 41⟩,
       ⟨TokenType.DELIMITER, some ")", some 1, some 42⟩,
       ⟨TokenType.DELIMITER, some ";", some 1, some 43⟩,
       ⟨TokenType.DELIMITER, some "\x7d", some 1, some 45⟩,
       eofToken]))
      (by simp [parseForStatement, skipToken, hCall0B, hForTailB])
      (okBound_mk (by simp) (fun x => by simp))
  have hStmtForB := subtype_eval (parseStatement
      [⟨TokenType.KEYWORD, some "for", some 1, some 1⟩,
       ⟨TokenType.DELIMITER, some "(", some 1, some 5⟩,
       ⟨TokenType.IDENTIFIER, some "i", some 1, some 6⟩,
       ⟨TokenType.OPERATOR, some "=", some 1, some 8⟩,
       ⟨TokenType.NUMBER, some "0", some 1, some 10⟩,
       ⟨TokenType.DELIMITER, some ";", some 1, some 11⟩,
       ⟨TokenType.IDENTIFIER, some "i", some 1, some 13⟩,
       ⟨TokenType.OPERATOR, some "<=", some 1, some 15⟩,
       ⟨TokenType.NUMBER, some "5", some 1, some 18⟩,
       ⟨TokenType.DELIMITER, some ";", some 1, some 19⟩,
       ⟨TokenType.IDENTIFIER, some "i", some 1, some 21⟩,
       ⟨TokenType.OPERATOR, some "++", some 1, some 22⟩,
       ⟨TokenType.DELIMITER, some ")", some 1, some 24⟩,
       ⟨TokenType.DELIMITER, some "\x7b", some 1, some 26⟩,
       ⟨TokenType.KEYWORD, some "printf", some 1, some 28⟩,
       ⟨TokenType.DELIMITER, some "(", some 1, some 34⟩,
       ⟨TokenType.STRING, some "%d", some 1, some 35⟩,
       ⟨TokenType.DELIMITER, some ",", some 1, some 39⟩,
       ⟨TokenType.IDENTIFIER, some "i", some 1, some 41⟩,
       ⟨TokenType.DELIMITER, some ")", some 1, some 42⟩,
       ⟨TokenType.DELIMITER, some ";", some 1, some 43⟩,
       ⟨TokenType.DELIMITER, some "\x7d", some 1, some 45⟩,
       eofToken])
      (Except.ok (some (Node.forLoop (some (Node.assignment (some "i") "=" (some (Node.literal (LitVal.num (JNum.jval 0 0)) "int")))) (some (Node.binaryExpr (some (Node.identifier (some "i"))) "<=" (some (Node.literal (LitVal.num (JNum.jval 5 0)) "int")))) (some (Node.identifier (some "i"))) none), [⟨TokenType.DELIMITER, some ")", some 1, some 24⟩,
       ⟨TokenType.DELIMITER, some "\x7b", some 1, some 26⟩,
       ⟨TokenType.KEYWORD, some "printf", some 1, some 28⟩,
       ⟨TokenType.DELIMITER, some "(", some 1, some 34⟩,
       ⟨TokenType.STRING, some "%d", some 1, some 35⟩,
       ⟨TokenType.DELIMITER, some ",", some 1, some 39⟩,
       ⟨TokenType.IDENTIFIER, some "i", some 1, some 41⟩,
       ⟨TokenType.DELIMITER, some ")", some 1, some 42⟩,
       ⟨TokenType.DELIMITER, some ";", some 1, some 43⟩,
       ⟨TokenType.DELIMITER, some "\x7d", some 1, some 45⟩,
       eofToken]))
      (by simp [parseStatement, hForStmtB])
      (okBound_mk (by simp) (fun x => by simp))
  have hStmtRPB := subtype_eval (parseStatement
      [⟨TokenType.DELIMITER, some ")", some 1, some 24⟩,
       ⟨TokenType.DELIMITER, some "\x7b", some 1, some 26⟩,
       ⟨TokenType.KEYWORD, some "printf", some 1, some 28⟩,
       ⟨TokenType.DELIMITER, some "(", some 1, some 34⟩,
       ⟨TokenType.STRING, some "%d", some 1, some 35⟩,
       ⟨TokenType.DELIMITER, some ",", some 1, some 39⟩,
       ⟨TokenType.IDENTIFIER, some "i", some 1, some 41⟩,
       ⟨TokenType.DELIMITER, some ")", some 1, some 42⟩,
       ⟨TokenType.DELIMITER, some ";", some 1, some 43⟩,
       ⟨TokenType.DELIMITER, some "\x7d", some 1, some 45⟩,
       eofToken])
      (Except.ok (none, [⟨TokenType.DELIMITER, some "\x7b", some 1, some 26⟩,
       ⟨TokenType.KEYWORD, some "printf", some 1, some 28⟩,
       ⟨TokenType.DELIMITER, some "(", some 1, some 34⟩,
       ⟨TokenType.STRING, some "%d", some 1, some 35⟩,
       ⟨TokenType.DELIMITER, some ",", some 1, some 39⟩,
       ⟨TokenType.IDENTIFIER, some "i", some 1, some 41⟩,
       ⟨TokenType.DELIMITER, some ")", some 1, some 42⟩,
       ⟨TokenType.DELIMITER, some ";", some 1, some 43⟩,
       ⟨TokenType.DELIMITER, some "\x7d", some 1, some 45⟩,
       eofToken]))
      (by simp [parseStatement])
      (okBound_mk (by simp) (fun x => by simp))
  have hEStrB := subtype_eval (parseExpression
      [⟨TokenType.STRING, some "%d", some 1, some 35⟩,
       ⟨TokenType.DELIMITER, some ",", some 1, some 39⟩,
       ⟨TokenType.IDENTIFIER, some "i", some 1, some 41⟩,
       ⟨TokenType.DELIMITER, some ")", some 1, some 42⟩,
       ⟨TokenType.DELIMITER, some ";", some 1, some 43⟩,
       ⟨TokenType.DELIMITER, some "\x7d", some 1, some 45⟩,
       eofToken])
      (Except.ok (some (Node.literal (LitVal.str (some "%d")) "string"), [⟨TokenType.DELIMITER, some ",", some 1, some 39⟩,
       ⟨TokenType.IDENTIFIER, some "i", some 1, some 41⟩,
       ⟨TokenType.DELIMITER, some ")", some 1, some 42⟩,
       ⟨TokenType.DELIMITER, some ";", some 1, some 43⟩,
       ⟨TokenType.DELIMITER, some "\x7d", some 1, some 45⟩,
       eofToken]))
      (by simp [parseExpression, parseOrExpression, parseOrLoop, parseAndExpression,
        parseAndLoop, parseEqualityExpression, parseEqLoop, parseRelationalExpression,
        parseRelLoop, parseAdditiveExpression, parseAddLoop,
        parseMultiplicativeExpression, parseMulLoop, parsePrimaryExpression,
        jsParseFloat, readDigits, readFrac, isDigit, skipToken, typeKeywords, eofToken])
      (okBound_mk (by simp) (fun x => by simp))
  have hEiB := subtype_eval (parseExpression
      [⟨TokenType.IDENTIFIER, some "i", some 1, some 41⟩,
       ⟨TokenType.DELIMITER, some ")", some 1, some 42⟩,
       ⟨TokenType.DELIMITER, some ";", some 1, some 43⟩,
       ⟨TokenType.DELIMITER, some "\x7d", some 1, some 45⟩,
       eofToken])
      (Except.ok (some (Node.identifier (some "i")), [⟨TokenType.DELIMITER, some ")", some 1, some 42⟩,
       ⟨TokenType.DELIMITER, some ";", some 1, some 43⟩,
       ⟨TokenType.DELIMITER, some "\x7d", some 1, some 45⟩,
       eofToken]))
      (by simp [parseExpression, parseOrExpression, parseOrLoop, parseAndExpression,
        parseAndLoop, parseEqualityExpression, parseEqLoop, parseRelationalExpression,
        parseRelLoop, parseAdditiveExpression, parseAddLoop,
        parseMultiplicativeExpression, parseMulLoop, parsePrimaryExpression,
        jsParseFloat, readDigits, readFrac, isDigit, skipToken, typeKeywords, eofToken])
      (okBound_mk (by simp) (fun x => by simp))
  have hArgsB := subtype_eval (parseArgsLoop
      [⟨TokenType.STRING, some "%d", some 1, some 35⟩,
       ⟨TokenType.DELIMITER, some ",", some 1, some 39⟩,
       ⟨TokenType.IDENTIFIER, some "i", some 1, some 41⟩,
       ⟨TokenType.DELIMITER, some ")", some 1, some 42⟩,
       ⟨TokenType.DELIMITER, some ";", some 1, some 43⟩,
       ⟨TokenType.DELIMITER, some "\x7d", some 1, some 45⟩,
       eofToken])
      (Except.ok ([(Node.literal (LitVal.str (some "%d")) "string"), (Node.identifier (some "i"))], [⟨TokenType.DELIMITER, some ";", some 1, some 43⟩,
       ⟨TokenType.DELIMITER, some "\x7d", some 1, some 45⟩,
       eofToken]))
      (by
        simp only [parseArgsLoop]
        rw [hEStrB]
        simp only [parseArgsLoop]
        rw [hEiB]
        simp [parseArgsLoop])
      (okBoundList_mk (by simp))
  have hPrintfB := subtype_eval (parsePrintfStatement
      [⟨TokenType.KEYWORD, some "printf", some 1, some 28⟩,
       ⟨TokenType.DELIMITER, some "(", some 1, some 34⟩,
       ⟨TokenType.STRING, some "%d", some 1, some 35⟩,
       ⟨TokenType.DELIMITER, some ",", some 1, some 39⟩,
       ⟨TokenType.IDENTIFIER, some "i", some 1, some 41⟩,
       ⟨TokenType.DELIMITER, some ")", some 1, some 42⟩,
       ⟨TokenType.DELIMITER, some ";", some 1, some 43⟩,
       ⟨TokenType.DELIMITER, some "\x7d", some 1, some 45⟩,
       eofToken])
      (Except.ok (some (Node.printfStmt [(Node.literal (LitVal.str (some "%d")) "string"), (Node.identifier (some "i"))]), [⟨TokenType.DELIMITER, some "\x7d", some 1, some 45⟩,
       eofToken]))
      (by simp [parsePrintfStatement, skipToken, hArgsB])
      (okBound_mk (by simp) (fun x => by simp))
  have hStmtPrintfB := subtype_eval (parseStatement
      [⟨TokenType.KEYWORD, some "printf", some 1, some 28⟩,
       ⟨TokenType.DELIMITER, some "(", some 1, some 34⟩,
       ⟨TokenType.STRING, some "%d", some 1, some 35⟩,
       ⟨TokenType.DELIMITER, some ",", some 1, some 39⟩,
       ⟨TokenType.IDENTIFIER, some "i", some 1, some 41⟩,
       ⟨TokenType.DELIMITER, some ")", some 1, some 42⟩,
       ⟨TokenType.DELIMITER, some ";", some 1, some 43⟩,
       ⟨TokenType.DELIMITER, some "\x7d", some 1, some 45⟩,
       eofToken])
      (Except.ok (some (Node.printfStmt [(Node.literal (LitVal.str (some "%d")) "string"), (Node.identifier (some "i"))]), [⟨TokenType.DELIMITER, some "\x7d", some 1, some 45⟩,
       eofToken]))
      (by simp [parseStatement, hPrintfB])
      (okBound_mk (by simp) (fun x => by simp))
  have hBlockLoopB := subtype_eval (parseBlockLoop
      [⟨TokenType.KEYWORD, some "printf", some 1, some 28⟩,
       ⟨TokenType.DELIMITER, some "(", some 1, some 34⟩,
       ⟨TokenType.STRING, some "%d", some 1, some 35⟩,
       ⟨TokenType.DELIMITER, some ",", some 1, some 39⟩,
       ⟨TokenType.IDENTIFIER, some "i", some 1, some 41⟩,
       ⟨TokenType.DELIMITER, some ")", some 1, some 42⟩,
       ⟨TokenType.DELIMITER, some ";", some 1, some 43⟩,
       ⟨TokenType.DELIMITER, some "\x7d", some 1, some 45⟩,
       eofToken])
      (Except.ok ([(Node.printfStmt [(Node.literal (LitVal.str (some "%d")) "string"), (Node.identifier (some "i"))])], [eofToken]))
      (by
        simp only [parseBlockLoop]
        rw [hStmtPrintfB]
        simp [parseBlockLoop])
      (okBoundList_mk (by simp))
  have hBlockB := subtype_eval (parseBlock
      [⟨TokenType.DELIMITER, some "\x7b", some 1, some 26⟩,
       ⟨TokenType.KEYWORD, some "printf", some 1, some 28⟩,
       ⟨TokenType.DELIMITER, some "(", some 1, some 34⟩,
       ⟨TokenType.STRING, some "%d", some 1, some 35⟩,
       ⟨TokenType.DELIMITER, some ",", some 1, some 39⟩,
       ⟨TokenType.IDENTIFIER, some "i", some 1, some 41⟩,
       ⟨TokenType.DELIMITER, some ")", some 1, some 42⟩,
       ⟨TokenType.DELIMITER, some ";", some 1, some 43⟩,
       ⟨TokenType.DELIMITER, some "\x7d", some 1, some 45⟩,
       eofToken])
      (Except.ok (some (Node.block [(Node.printfStmt [(Node.literal (LitVal.str (some "%d")) "string"), (Node.identifier (some "i"))])]), [eofToken]))
      (by simp [parseBlock, hBlockLoopB])
      (okBound_mk (by simp) (fun x => by simp))
  have hStmtLBB := subtype_eval (parseStatement
      [⟨TokenType.DELIMITER, some "\x7b", some 1, some 26⟩,
       ⟨TokenType.KEYWORD, some "printf", some 1, some 28⟩,
       ⟨TokenType.DELIMITER, some "(", some 1, some 34⟩,
       ⟨TokenType.STRING, some "%d", some 1, some 35⟩,
       ⟨TokenType.DELIMITER, some ",", some 1, some 39⟩,
       ⟨TokenType.IDENTIFIER, some "i", some 1, some 41⟩,
       ⟨TokenType.DELIMITER, some ")", some 1, some 42⟩,
       ⟨TokenType.DELIMITER, some ";", some 1, some 43⟩,
       ⟨TokenType.DELIMITER, some "\x7d", some 1, some 45⟩,
       eofToken])
      (Except.ok (some (Node.block [(Node.printfStmt [(Node.literal (LitVal.str (some "%d")) "string"), (Node.identifier (some "i"))])]), [eofToken]))
      (by simp [parseStatement, hBlockB])
      (okBound_mk (by simp) (fun x => by simp))
  have hProgB := subtype_eval (parseProgramLoop
      [⟨TokenType.KEYWORD, some "for", some 1, some 1⟩,
       ⟨TokenType.DELIMITER, some "(", some 1, some 5⟩,
       ⟨TokenType.IDENTIFIER, some "i", some 1, some 6⟩,
       ⟨TokenType.OPERATOR, some "=", some 1, some 8⟩,
       ⟨TokenType.NUMBER, some "0", some 1, some 10⟩,
       ⟨TokenType.DELIMITER, some ";", some 1, some 11⟩,
       ⟨TokenType.IDENTIFIER, some "i", some 1, some 13⟩,
       ⟨TokenType.OPERATOR, some "<=", some 1, some 15⟩,
       ⟨TokenType.NUMBER, some "5", some 1, some 18⟩,
       ⟨TokenType.DELIMITER, some ";", some 1, some 19⟩,
       ⟨TokenType.IDENTIFIER, some "i", some 1, some 21⟩,
       ⟨TokenType.OPERATOR, some "++", some 1, some 22⟩,
       ⟨TokenType.DELIMITER, some ")", some 1, some 24⟩,
       ⟨TokenType.DELIMITER, some "\x7b", some 1, some 26⟩,
       ⟨TokenType.KEYWORD, some "printf", some 1, some 28⟩,
       ⟨TokenType.DELIMITER, some "(", some 1, some 34⟩,
       ⟨TokenType.STRING, some "%d", some 1, some 35⟩,
       ⟨TokenType.DELIMITER, some ",", some 1, some 39⟩,
       ⟨TokenType.IDENTIFIER, some "i", some 1, some 41⟩,
       ⟨TokenType.DELIMITER, some ")", some 1, some 42⟩,
       ⟨TokenType.DELIMITER, some ";", some 1, some 43⟩,
       ⟨TokenType.DELIMITER, some "\x7d", some 1, some 45⟩,
       eofToken])
      (Except.ok ([(Node.forLoop (some (Node.assignment (some "i") "=" (some (Node.literal (LitVal.num (JNum.jval 0 0)) "int")))) (some (Node.binaryExpr (some (Node.identifier (some "i"))) "<=" (some (Node.literal (LitVal.num (JNum.jval 5 0)) "int")))) (some (Node.identifier (some "i"))) none), (Node.block [(Node.printfStmt [(Node.literal (LitVal.str (some "%d")) "string"), (Node.identifier (some "i"))])])], [eofToken]))
      (by
        simp only [parseProgramLoop]
        rw [hStmtForB]
        simp only [parseProgramLoop]
        rw [hStmtRPB]
        simp only [parseProgramLoop]
        rw [hStmtLBB]
        simp [parseProgramLoop, eofToken])
      (by
        intro ns rest h
        injection h with h2
        injection h2 with ha hb
        subst ha
        subst hb
        simp)
  refine ⟨?_, ?_, ?_, ?_⟩
  · rw [htA]
    exact parse_of_programLoop _ _ _ (by
      show (parseProgramLoop
        [⟨TokenType.KEYWORD, some "for", some 1, some 1⟩,
       ⟨TokenType.DELIMITER, some "(", some 1, some 5⟩,
       ⟨TokenType.IDENTIFIER, some "i", some 1, some 6⟩,
       ⟨TokenType.OPERATOR, some "=", some 1, some 8⟩,
       ⟨TokenType.NUMBER, some "0", some 1, some 10⟩,
       ⟨TokenType.DELIMITER, some ";", some 1, some 11⟩,
       ⟨TokenType.IDENTIFIER, some "i", some 1, some 13⟩,
       ⟨TokenType.OPERATOR, some "<", some 1, some 15⟩,
       ⟨TokenType.NUMBER, some "5", some 1, some 17⟩,
       ⟨TokenType.DELIMITER, some ";", some 1, some 18⟩,
       ⟨TokenType.IDENTIFIER, some "i", some 1, some 20⟩,
       ⟨TokenType.OPERATOR, some "++", some 1, some 21⟩,
       ⟨TokenType.DELIMITER, some ")", some 1, some 23⟩,
       ⟨TokenType.DELIMITER, some "\x7b", some 1, some 25⟩,
       ⟨TokenType.KEYWORD, some "printf", some 1, some 27⟩,
       ⟨TokenType.DELIMITER, some "(", some 1, some 33⟩,
       ⟨TokenType.STRING, some "%d", some 1, some 34⟩,
       ⟨TokenType.DELIMITER, some ",", some 1, some 38⟩,
       ⟨TokenType.IDENTIFIER, some "i", some 1, some 40⟩,
       ⟨TokenType.DELIMITER, some ")", some 1, some 41⟩,
       ⟨TokenType.DELIMITER, some ";", some 1, some 42⟩,
       ⟨TokenType.DELIMITER, some "\x7d", some 1, some 44⟩,
       eofToken]).val = Except.ok ([(Node.forLoop (some (Node.assignment (some "i") "=" (some (Node.literal (LitVal.num (JNum.jval 0 0)) "int")))) (some (Node.binaryExpr (some (Node.identifier (some "i"))) "<" (some (Node.literal (LitVal.num (JNum.jval 5 0)) "int")))) (some (Node.identifier (some "i"))) none), (Node.block [(Node.printfStmt [(Node.literal (LitVal.str (some "%d")) "string"), (Node.identifier (some "i"))])])], [eofToken])
      rw [hProgA])
  · simp [generatePython, generatePythonFromBody, bodyArr, generatePythonProgramLoop, generatePythonStatements,
        generatePythonStatementsLoop, generatePythonStatement,
        generatePythonForLoop, generatePythonPrintf, generatePythonScanf,
        generatePythonExpression, generatePythonExpressionN, generatePythonExpressionList,
        pyFormatReplace, pyStartVal, initVarText, optStr, joinSep, jsTrim, jsLitValStr,
        jsNumToString, jsNumToStringAux, natToString, natToCharsAux, digitChar,
        nodeValueTruthy, nodeValueStr, nodeNameField, nodeIdentifierField, displayField,
        List.dropWhile, isJsWhitespace]
  · rw [htB]
    exact parse_of_programLoop _ _ _ (by
      show (parseProgramLoop
        [⟨TokenType.KEYWORD, some "for", some 1, some 1⟩,
       ⟨TokenType.DELIMITER, some "(", some 1, some 5⟩,
       ⟨TokenType.IDENTIFIER, some "i", some 1, some 6⟩,
       ⟨TokenType.OPERATOR, some "=", some 1, some 8⟩,
       ⟨TokenType.NUMBER, some "0", some 1, some 10⟩,
       ⟨TokenType.DELIMITER, some ";", some 1, some 11⟩,
       ⟨TokenType.IDENTIFIER, some "i", some 1, some 13⟩,
       ⟨TokenType.OPERATOR, some "<=", some 1, some 15⟩,
       ⟨TokenType.NUMBER, some "5", some 1, some 18⟩,
       ⟨TokenType.DELIMITER, some ";", some 1, some 19⟩,
       ⟨TokenType.IDENTIFIER, some "i", some 1, some 21⟩,
       ⟨TokenType.OPERATOR, some "++", some 1, some 22⟩,
       ⟨TokenType.DELIMITER, some ")", some 1, some 24⟩,
       ⟨TokenType.DELIMITER, some "\x7b", some 1, some 26⟩,
       ⟨TokenType.KEYWORD, some "printf", some 1, some 28⟩,
       ⟨TokenType.DELIMITER, some "(", some 1, some 34⟩,
       ⟨TokenType.STRING, some "%d", some 1, some 35⟩,
       ⟨TokenType.DELIMITER, some ",", some 1, some 39⟩,
       ⟨TokenType.IDENTIFIER, some "i", some 1, some 41⟩,
       ⟨TokenType.DELIMITER, some ")", some 1, some 42⟩,
       ⟨TokenType.DELIMITER, some ";", some 1, some 43⟩,
       ⟨TokenType.DELIMITER, some "\x7d", some 1, some 45⟩,
       eofToken]).val = Except.ok ([(Node.forLoop (some (Node.assignment (some "i") "=" (some (Node.literal (LitVal.num (JNum.jval 0 0)) "int")))) (some (Node.binaryExpr (some (Node.identifier (some "i"))) "<=" (some (Node.literal (LitVal.num (JNum.jval 5 0)) "int")))) (some (Node.identifier (some "i"))) none), (Node.block [(Node.printfStmt [(Node.literal (LitVal.str (some "%d")) "string"), (Node.identifier (some "i"))])])], [eofToken])
      rw [hProgB])
  · simp [generatePython, generatePythonFromBody, bodyArr, generatePythonProgramLoop, generatePythonStatements,
        generatePythonStatementsLoop, generatePythonStatement,
        generatePythonForLoop, generatePythonPrintf, generatePythonScanf,
        generatePythonExpression, generatePythonExpressionN, generatePythonExpressionList,
        pyFormatReplace, pyStartVal, initVarText, optStr, joinSep, jsTrim, jsLitValStr,
        jsNumToString, jsNumToStringAux, natToString, natToCharsAux, digitChar,
        nodeValueTruthy, nodeValueStr, nodeNameField, nodeIdentifierField, displayField,
        List.dropWhile, isJsWhitespace]
/-- C6 (counterexample): a WELL-FORMED root (a `Program` with an array body
holding one argument-less scanf statement) also produces single-line
diagnostic comment strings from both generators (`// Scanner input needed` /
`# Input needed`), so the malformed root is NOT the only condition producing a
diagnostic comment result. -/
theorem generator_diagnostic_not_unique :
    bodyArr (Node.program [Node.scanfStmt []]) = some [Node.scanfStmt []] ∧
    generateJava (Node.program [Node.scanfStmt []]) =
      Except.ok "    // Scanner input needed\n" ∧
    generatePython (Node.program [Node.scanfStmt []]) =
      Except.ok "# Input needed\n" := by
  refine ⟨rfl, ?_, ?_⟩
  · simp [generateJava, generateJavaFromBody, bodyArr, generateJavaProgramLoop,
          generateJavaStatement, generateJavaScanf]
  · simp [generatePython, generatePythonFromBody, bodyArr, generatePythonProgramLoop,
          generatePythonStatement, generatePythonScanf]

/-- C6 (amended): for every root AST whose `body` is missing or not an array
(`bodyArr` is `none`), both generators return their single one-line diagnostic
comment and no fault; such malformed roots always take the diagnostic branch
(though well-formed roots can produce other diagnostic comment strings, e.g.
the scanf placeholder). -/
theorem generator_invalid_ast_diagnostic (ast : Node) (h : bodyArr ast = none) :
    generateJava ast = Except.ok "// Error: Invalid AST structure" ∧
    generatePython ast = Except.ok "# Error: Invalid AST structure" := by
  constructor
  · rw [generateJava, h]
  · rw [generatePython, h]

/-- C6 witness: the amended theorem at a root that is a bare identifier node
(no `body` field). -/
theorem generator_invalid_ast_diagnostic_witness :
    bodyArr (Node.identifier (some "x")) = none ∧
    generateJava (Node.identifier (some "x")) = Except.ok "// Error: Invalid AST structure" ∧
    generatePython (Node.identifier (some "x")) = Except.ok "# Error: Invalid AST structure" :=
  ⟨rfl, (generator_invalid_ast_diagnostic (Node.identifier (some "x")) rfl).1,
    (generator_invalid_ast_diagnostic (Node.identifier (some "x")) rfl).2⟩
